import Mathlib

/-!
# Button event sequencer (`ButtonEventsSimulator`)

A shallow embedding of `examples/all-clusters-app/linux/ButtonEventsSimulator.cpp`:
the simulator object is a record, `Execute` and `Next` are pure functions that
return the new object together with the list of actions they performed, in
program order, and the timer service is a small scheduler that calls `Next`
once for every timer that expires.
-/

namespace ButtonSim

/-- The two values of `ButtonEventsSimulator::Mode` used by `Execute`. -/
inductive Mode
  | kModeLongPress
  | kModeMultiPress
  deriving DecidableEq

/-- The values of `ButtonEventsSimulator::State` that `Next` switches over. -/
inductive State
  | kIdle
  | kEmitStartOfLongPress
  | kEmitLongPress
  | kEmitLongRelease
  | kEmitStartOfMultiPress
  | kMultiPressButtonRelease
  | kEmitEndOfMultiPress
  deriving DecidableEq

/-- Modelled from the spec: the bit masks of `Clusters::Switch::Feature`, whose
generated declaration is not among the sources; the values are those of the
feature map of the Switch cluster. The sequencer only ever tests single bits,
and every theorem about it is stated through `hasFeature`. -/
def Feature.kLatchingSwitch : Nat := 0x1

/-- Modelled from the spec: bit of the momentary-switch feature. -/
def Feature.kMomentarySwitch : Nat := 0x2

/-- Modelled from the spec: bit of the short-release feature. -/
def Feature.kMomentarySwitchRelease : Nat := 0x4

/-- Modelled from the spec: bit of the long-press feature. -/
def Feature.kMomentarySwitchLongPress : Nat := 0x8

/-- Modelled from the spec: bit of the multi-press feature. -/
def Feature.kMomentarySwitchMultiPress : Nat := 0x10

/-- Modelled from the spec: bit of the action-switch feature. -/
def Feature.kActionSwitch : Nat := 0x20

/-- The test `mFeatureMap & static_cast<uint32_t>(bit)` used as a condition. -/
def hasFeature (featureMap bit : Nat) : Bool := (featureMap &&& bit) != 0

/-- Wrap-around of `uint32_t` arithmetic (the millisecond durations). -/
def u32 (n : Nat) : Nat := n % 2 ^ 32

/-- Wrap-around of `uint8_t` arithmetic (the press counter). -/
def u8 (n : Nat) : Nat := n % 2 ^ 8

/-- Everything `Execute` and `Next` do to the outside world. The helpers of the
anonymous namespace (`SetButtonPosition`, `Emit*`) return `void`: they look up
the switch cluster of the endpoint, call it, and only log what it answers, so
the simulator never reads anything back. Each helper call is recorded with its
arguments; `StartTimer` records the duration handed to the system layer and
`DoneCallback` the invocation of the stored `mDoneCallback` (`none` when no
callback was ever stored). -/
inductive Action
  | SetButtonPosition (endpointId position : Nat)
  | EmitInitialPress (endpointId newPosition : Nat)
  | EmitLongPress (endpointId newPosition : Nat)
  | EmitLongRelease (endpointId previousPosition : Nat)
  | EmitMultiPressComplete (endpointId previousPosition count : Nat)
  | EmitShortRelease (endpointId previousPosition : Nat)
  | EmitMultiPressOngoing (endpointId newPosition count : Nat)
  | StartTimer (durationMillis : Nat)
  | DoneCallback (callback : Option Nat)
  deriving DecidableEq

/-- Modelled from the spec: the data members of `ButtonEventsSimulator`, whose
header is not among the sources. Durations are 32-bit millisecond counts,
the press counts and button ids are bytes (they are passed to the `uint8_t`
parameters of the `Emit*` helpers), the feature map is a `uint32_t`. A
completion callback is identified by a number; `none` is the empty callback
of a new object. -/
structure ButtonEventsSimulator where
  mDoneCallback : Option Nat
  mLongPressDelayMillis : Nat
  mLongPressDurationMillis : Nat
  mMultiPressPressedTimeMillis : Nat
  mMultiPressReleasedTimeMillis : Nat
  mMultiPressNumPresses : Nat
  mMultiPressPressesDone : Nat
  mIdleButtonId : Nat
  mPressedButtonId : Nat
  mEndpointId : Nat
  mMultiPressMax : Nat
  mFeatureMap : Nat
  mMode : Mode
  mState : State
  deriving DecidableEq

/-- Every member holds a value of its C++ type. -/
def ButtonEventsSimulator.InRange (s : ButtonEventsSimulator) : Prop :=
  s.mLongPressDelayMillis < 2 ^ 32 ∧ s.mLongPressDurationMillis < 2 ^ 32 ∧
  s.mMultiPressPressedTimeMillis < 2 ^ 32 ∧ s.mMultiPressReleasedTimeMillis < 2 ^ 32 ∧
  s.mMultiPressNumPresses < 2 ^ 8 ∧ s.mMultiPressPressesDone < 2 ^ 8 ∧
  s.mIdleButtonId < 2 ^ 8 ∧ s.mPressedButtonId < 2 ^ 8 ∧ s.mEndpointId < 2 ^ 16 ∧
  s.mMultiPressMax < 2 ^ 8 ∧ s.mFeatureMap < 2 ^ 32

instance (s : ButtonEventsSimulator) : Decidable s.InRange := by
  unfold ButtonEventsSimulator.InRange; infer_instance

/-- `ButtonEventsSimulator::SetState` (the progress log line aside). -/
def SetState (s : ButtonEventsSimulator) (newState : State) : ButtonEventsSimulator :=
  { s with mState := newState }

/-- `ButtonEventsSimulator::Next`: one drive step. Returns the object after
the step and the actions of the step in program order. -/
def Next (s : ButtonEventsSimulator) : ButtonEventsSimulator × List Action :=
  match s.mState with
  | .kIdle => (s, [])
  | .kEmitStartOfLongPress =>
      (SetState s .kEmitLongPress,
        [.SetButtonPosition s.mEndpointId s.mPressedButtonId,
         .EmitInitialPress s.mEndpointId s.mPressedButtonId,
         .StartTimer s.mLongPressDelayMillis])
  | .kEmitLongPress =>
      (SetState s .kEmitLongRelease,
        [.EmitLongPress s.mEndpointId s.mPressedButtonId,
         .StartTimer (u32 (s.mLongPressDurationMillis + 2 ^ 32 - s.mLongPressDelayMillis))])
  | .kEmitLongRelease =>
      let release : List Action :=
        if hasFeature s.mFeatureMap Feature.kMomentarySwitchLongPress then
          [.EmitLongRelease s.mEndpointId s.mPressedButtonId]
        else if hasFeature s.mFeatureMap Feature.kMomentarySwitchRelease then
          [.EmitShortRelease s.mEndpointId s.mPressedButtonId]
        else []
      (SetState s .kIdle,
        [.SetButtonPosition s.mEndpointId s.mIdleButtonId] ++ release ++ [.DoneCallback s.mDoneCallback])
  | .kEmitStartOfMultiPress =>
      let press : List Action :=
        [.SetButtonPosition s.mEndpointId s.mPressedButtonId,
         .EmitInitialPress s.mEndpointId s.mPressedButtonId]
      if hasFeature s.mFeatureMap Feature.kActionSwitch then
        (SetState s .kEmitEndOfMultiPress,
          press ++ [.StartTimer (u32 (s.mMultiPressNumPresses *
            u32 (s.mMultiPressPressedTimeMillis + s.mMultiPressReleasedTimeMillis)))])
      else
        (SetState s .kMultiPressButtonRelease,
          press ++ [.StartTimer s.mMultiPressPressedTimeMillis])
  | .kMultiPressButtonRelease =>
      let done := u8 (s.mMultiPressPressesDone + 1)
      let s1 := { s with mMultiPressPressesDone := done }
      let ongoing : List Action :=
        if done > 1 then [.EmitMultiPressOngoing s.mEndpointId s.mPressedButtonId done] else []
      let s2 :=
        if done = s.mMultiPressNumPresses then SetState s1 .kEmitEndOfMultiPress
        else SetState s1 .kEmitStartOfMultiPress
      let release : List Action :=
        if hasFeature s.mFeatureMap Feature.kMomentarySwitchRelease then
          [.EmitShortRelease s.mEndpointId s.mPressedButtonId]
        else []
      (s2, ongoing ++ release ++
        [.SetButtonPosition s.mEndpointId s.mIdleButtonId,
         .StartTimer s.mMultiPressReleasedTimeMillis])
  | .kEmitEndOfMultiPress =>
      let complete : List Action :=
        if hasFeature s.mFeatureMap Feature.kActionSwitch
            && decide (s.mMultiPressNumPresses > s.mMultiPressMax) then
          [.EmitMultiPressComplete s.mEndpointId s.mPressedButtonId 0]
        else
          [.EmitMultiPressComplete s.mEndpointId s.mPressedButtonId s.mMultiPressNumPresses]
      (SetState s .kIdle, complete ++ [.DoneCallback s.mDoneCallback])

/-- The result of `Execute`: the returned boolean, the object afterwards, and
the actions performed before `Execute` returned. -/
structure ExecuteResult where
  accepted : Bool
  sim : ButtonEventsSimulator
  actions : List Action
  deriving DecidableEq

/-- The tail of `Execute` once the mode's checks have passed and the start
state is set: store the callback, run `Next`, return `true`. -/
def startSequence (s : ButtonEventsSimulator) (doneCallback : Nat) : ExecuteResult :=
  let r := Next { s with mDoneCallback := some doneCallback }
  { accepted := true, sim := r.1, actions := r.2 }

/-- `ButtonEventsSimulator::Execute`. -/
def Execute (s : ButtonEventsSimulator) (doneCallback : Nat) : ExecuteResult :=
  if s.mIdleButtonId = s.mPressedButtonId then
    { accepted := false, sim := s, actions := [] }
  else
    match s.mMode with
    | .kModeLongPress =>
        if s.mLongPressDurationMillis > s.mLongPressDelayMillis then
          startSequence (SetState s .kEmitStartOfLongPress) doneCallback
        else { accepted := false, sim := s, actions := [] }
    | .kModeMultiPress =>
        if ¬ (s.mMultiPressPressedTimeMillis > 0) then
          { accepted := false, sim := s, actions := [] }
        else if ¬ (s.mMultiPressReleasedTimeMillis > 0) then
          { accepted := false, sim := s, actions := [] }
        else if ¬ (s.mMultiPressNumPresses > 0) then
          { accepted := false, sim := s, actions := [] }
        else
          startSequence (SetState s .kEmitStartOfMultiPress) doneCallback

/-! ## The timer service -/

/-- The timer durations among the actions of one step, in arming order. -/
def armedTimers : List Action → List Nat
  | [] => []
  | .StartTimer d :: rest => d :: armedTimers rest
  | _ :: rest => armedTimers rest

/-- A simulator together with the clock and timers of the system layer.
The field `now` is the time in milliseconds since `Execute` was called, the
field `timers` lists the expiry times of the timers that are armed, and
`history` is every action performed so far with the time it was performed at. -/
structure World where
  sim : ButtonEventsSimulator
  now : Nat
  timers : List Nat
  history : List (Nat × Action)
  deriving DecidableEq

/-- Account for one step taken at time `w.now`: the actions are stamped and
appended to the history, the timers the step armed are scheduled. -/
def World.absorb (w : World) (sim : ButtonEventsSimulator) (actions : List Action) : World :=
  { sim := sim
    now := w.now
    timers := w.timers ++ (armedTimers actions).map (fun d => w.now + d)
    history := w.history ++ actions.map (fun a => (w.now, a)) }

/-- The earliest armed timer expires: the clock advances to its expiry time
and `OnTimerDone` calls `Next`. Nothing happens when no timer is armed. -/
def World.expire (w : World) : World :=
  match w.timers with
  | [] => w
  | t :: ts =>
      let m := ts.foldl min t
      let w1 : World := { w with now := m, timers := (t :: ts).erase m }
      w1.absorb (Next w.sim).1 (Next w.sim).2

/-- Let timers expire one after the other until none is armed; `none` when
`fuel` expiries were not enough. -/
def drive : Nat → World → Option World
  | fuel, w =>
    if w.timers.isEmpty then some w
    else
      match fuel with
      | 0 => none
      | n + 1 => drive n w.expire

/-- The state of the world when `Execute` returns, called at time 0 with no
timer armed. -/
def launch (s : ButtonEventsSimulator) (doneCallback : Nat) : World :=
  let r := Execute s doneCallback
  World.absorb { sim := s, now := 0, timers := [], history := [] } r.sim r.actions

/-- `Execute` followed by the timer-driven steps, with `fuel` expiries allowed. -/
def run (fuel : Nat) (s : ButtonEventsSimulator) (doneCallback : Nat) : Option World :=
  drive fuel (launch s doneCallback)

/-- The action is an invocation of the completion callback. -/
def Action.isDoneCallback : Action → Bool
  | .DoneCallback _ => true
  | _ => false

/-- The action is a call into the sink (`SetButtonPosition` or an `Emit*`). -/
def Action.isSinkCall : Action → Bool
  | .StartTimer _ => false
  | .DoneCallback _ => false
  | _ => true

/-- An example object: long press, delay 500 ms, duration 2000 ms, idle 0,
pressed 1, endpoint 1. -/
def sampleLongPress (featureMap : Nat) : ButtonEventsSimulator :=
  { mDoneCallback := none
    mLongPressDelayMillis := 500
    mLongPressDurationMillis := 2000
    mMultiPressPressedTimeMillis := 0
    mMultiPressReleasedTimeMillis := 0
    mMultiPressNumPresses := 1
    mMultiPressPressesDone := 0
    mIdleButtonId := 0
    mPressedButtonId := 1
    mEndpointId := 1
    mMultiPressMax := 2
    mFeatureMap := featureMap
    mMode := .kModeLongPress
    mState := .kIdle }

/-- An example object: multi press, hold 300 ms, gap 200 ms, idle 0,
pressed 1, endpoint 1, maximum 2. -/
def sampleMultiPress (featureMap numPresses : Nat) : ButtonEventsSimulator :=
  { mDoneCallback := none
    mLongPressDelayMillis := 0
    mLongPressDurationMillis := 0
    mMultiPressPressedTimeMillis := 300
    mMultiPressReleasedTimeMillis := 200
    mMultiPressNumPresses := numPresses
    mMultiPressPressesDone := 0
    mIdleButtonId := 0
    mPressedButtonId := 1
    mEndpointId := 1
    mMultiPressMax := 2
    mFeatureMap := featureMap
    mMode := .kModeMultiPress
    mState := .kIdle }

/-- The preconditions `Execute` checks before it starts a sequence, as the
specification words them: the two positions differ, and the parameters of the
configured mode are valid. -/
def Valid (s : ButtonEventsSimulator) : Prop :=
  s.mIdleButtonId ≠ s.mPressedButtonId ∧
  match s.mMode with
  | .kModeLongPress => s.mLongPressDurationMillis > s.mLongPressDelayMillis
  | .kModeMultiPress =>
      s.mMultiPressPressedTimeMillis > 0 ∧ s.mMultiPressReleasedTimeMillis > 0 ∧
        s.mMultiPressNumPresses > 0

instance (s : ButtonEventsSimulator) : Decidable (Valid s) := by
  unfold Valid; cases s.mMode <;> infer_instance

/-- The action is one of the switch events (an `Emit*` call). -/
def Action.isEvent : Action → Bool
  | .EmitInitialPress _ _ => true
  | .EmitLongPress _ _ => true
  | .EmitLongRelease _ _ => true
  | .EmitMultiPressComplete _ _ _ => true
  | .EmitShortRelease _ _ => true
  | .EmitMultiPressOngoing _ _ _ => true
  | _ => false

/-- The action is a release event, `LongRelease` or `ShortRelease`. -/
def Action.isRelease : Action → Bool
  | .EmitLongRelease _ _ => true
  | .EmitShortRelease _ _ => true
  | _ => false

/-- The action is an `InitialPress` event. -/
def Action.isInitialPress : Action → Bool
  | .EmitInitialPress _ _ => true
  | _ => false

/-- The action is a `ShortRelease` event. -/
def Action.isShortRelease : Action → Bool
  | .EmitShortRelease _ _ => true
  | _ => false

/-- The action is a `MultiPressOngoing` event. -/
def Action.isMultiPressOngoing : Action → Bool
  | .EmitMultiPressOngoing _ _ _ => true
  | _ => false

/-- The action is a `MultiPressComplete` event. -/
def Action.isMultiPressComplete : Action → Bool
  | .EmitMultiPressComplete _ _ _ => true
  | _ => false

/-- The action arms a timer. -/
def Action.isStartTimer : Action → Bool
  | .StartTimer _ => true
  | _ => false

/-- The actions of the history in order, without their times. -/
def World.actions (w : World) : List Action := w.history.map Prod.snd

/-- The switch events of the history in order. -/
def World.events (w : World) : List Action := w.actions.filter Action.isEvent

/-- The release event of the `kEmitLongRelease` step, as the feature map
selects it: `LongRelease` with the long-press feature, else `ShortRelease`
with the short-release feature, else nothing. -/
def longPressRelease (s : ButtonEventsSimulator) : List Action :=
  if hasFeature s.mFeatureMap Feature.kMomentarySwitchLongPress then
    [.EmitLongRelease s.mEndpointId s.mPressedButtonId]
  else if hasFeature s.mFeatureMap Feature.kMomentarySwitchRelease then
    [.EmitShortRelease s.mEndpointId s.mPressedButtonId]
  else []

/-- The timed actions of a `kEmitStartOfMultiPress` step taken at time `t`
when the action-switch feature is off. -/
def pressAt (s : ButtonEventsSimulator) (t : Nat) : List (Nat × Action) :=
  [(t, .SetButtonPosition s.mEndpointId s.mPressedButtonId),
   (t, .EmitInitialPress s.mEndpointId s.mPressedButtonId),
   (t, .StartTimer s.mMultiPressPressedTimeMillis)]

/-- The timed actions of a `kMultiPressButtonRelease` step taken at time `t`
that brings the press counter to `k`. -/
def releaseAt (s : ButtonEventsSimulator) (t k : Nat) : List (Nat × Action) :=
  (if k > 1 then [(t, Action.EmitMultiPressOngoing s.mEndpointId s.mPressedButtonId k)]
    else []) ++
  (if hasFeature s.mFeatureMap Feature.kMomentarySwitchRelease then
    [(t, Action.EmitShortRelease s.mEndpointId s.mPressedButtonId)] else []) ++
  [(t, .SetButtonPosition s.mEndpointId s.mIdleButtonId),
   (t, .StartTimer s.mMultiPressReleasedTimeMillis)]

/-- The timed actions of `m` consecutive press and release cycles, the first
of which starts at time `t` with `k` presses already counted. -/
def cyclesFrom (s : ButtonEventsSimulator) : Nat → Nat → Nat → List (Nat × Action)
  | 0, _, _ => []
  | m + 1, k, t =>
      pressAt s t ++ releaseAt s (t + s.mMultiPressPressedTimeMillis) (k + 1) ++
        cyclesFrom s m (k + 1)
          (t + s.mMultiPressPressedTimeMillis + s.mMultiPressReleasedTimeMillis)

/-- The simulator in the middle of a multi-press run: callback `cb` stored,
`k` presses counted, in state `st`. -/
def midRun (s : ButtonEventsSimulator) (cb k : Nat) (st : State) : ButtonEventsSimulator :=
  { s with mDoneCallback := some cb, mMultiPressPressesDone := k, mState := st }

end ButtonSim

/-!
# The Switch cluster (`SwitchCluster`)

A shallow embedding of `src/app/clusters/switch-server/SwitchCluster.cpp`: the
cluster object is a record and every member function returns its result
together with the object afterwards.
-/

namespace SwitchServer

/-- The two values of `CHIP_ERROR` that `SetCurrentPosition` returns. -/
inductive CHIP_ERROR
  | CHIP_NO_ERROR
  | CHIP_ERROR_INVALID_ARGUMENT
  deriving DecidableEq

/-- The event payloads `Events::*::Type` the cluster builds. -/
inductive SwitchEvent
  | SwitchLatched (newPosition : Nat)
  | InitialPress (newPosition : Nat)
  | LongPress (newPosition : Nat)
  | ShortRelease (previousPosition : Nat)
  | LongRelease (previousPosition : Nat)
  | MultiPressOngoing (newPosition currentNumberOfPressesCounted : Nat)
  | MultiPressComplete (previousPosition totalNumberOfPressesCounted : Nat)
  deriving DecidableEq

/-- Modelled from the spec: the events generator of the interaction context,
which is not among the sources. It records every event submitted to it with
the endpoint, and answers with an optional event number that may depend on
everything submitted before. -/
structure EventsGenerator where
  respond : List (SwitchEvent × Nat) → SwitchEvent → Nat → Option Nat
  submitted : List (SwitchEvent × Nat)

/-- Modelled from the spec: `eventsGenerator.GenerateEvent(event, endpointId)`,
an optional event number. -/
def EventsGenerator.GenerateEvent (g : EventsGenerator) (event : SwitchEvent)
    (endpointId : Nat) : Option Nat × EventsGenerator :=
  (g.respond g.submitted event endpointId,
    { g with submitted := g.submitted ++ [(event, endpointId)] })

/-- The fields of `SwitchCluster::StartupConfiguration`. -/
structure StartupConfiguration where
  numberOfPositions : Nat
  multiPressMax : Nat
  deriving DecidableEq

/-- The data members of `SwitchCluster`, with the endpoint of `mPath` and the
context pointer of the base class; `mContext` is `none` until the cluster is
started. -/
structure SwitchCluster where
  mEndpointId : Nat
  mFeatures : Nat
  mNumberOfPositions : Nat
  mMultiPressMax : Nat
  mCurrentPosition : Nat
  mContext : Option EventsGenerator

/-- The constructor `SwitchCluster::SwitchCluster`; `none` when one of its two
`VerifyOrDie` checks aborts. -/
def SwitchCluster.create (endpointId features : Nat) (config : StartupConfiguration) :
    Option SwitchCluster :=
  if ¬ (config.numberOfPositions ≥ 2) then none
  else if ¬ (!(ButtonSim.hasFeature features ButtonSim.Feature.kMomentarySwitchMultiPress)
      || decide (config.multiPressMax ≥ 2)) then none
  else
    some
      { mEndpointId := endpointId
        mFeatures := features
        mNumberOfPositions := config.numberOfPositions
        mMultiPressMax := config.multiPressMax
        mCurrentPosition := 0
        mContext := none }

/-- Modelled from the spec: `Startup` of the base class `DefaultServerCluster`,
which is not among the sources; it stores the context. -/
def SwitchCluster.Startup (c : SwitchCluster) (g : EventsGenerator) : SwitchCluster :=
  { c with mContext := some g }

/-- `SwitchCluster::PositionIsValid`: `position <= mNumberOfPositions - 1`,
evaluated in `int` as the integer promotions make it. -/
def SwitchCluster.PositionIsValid (c : SwitchCluster) (position : Nat) : Bool :=
  decide ((position : Int) ≤ (c.mNumberOfPositions : Int) - 1)

/-- Modelled from the spec: `SetAttributeValue(mCurrentPosition, value,
CurrentPosition::Id)` of the base class `DefaultServerCluster`, which is not
among the sources; it sets the current reported position. -/
def SwitchCluster.SetAttributeValue (c : SwitchCluster) (value : Nat) : SwitchCluster :=
  { c with mCurrentPosition := value }

/-- `SwitchCluster::SetCurrentPosition`. -/
def SwitchCluster.SetCurrentPosition (c : SwitchCluster) (currentPosition : Nat) :
    CHIP_ERROR × SwitchCluster :=
  if ¬ c.PositionIsValid currentPosition then (.CHIP_ERROR_INVALID_ARGUMENT, c)
  else (.CHIP_NO_ERROR, c.SetAttributeValue currentPosition)

/-- `SwitchCluster::GetCurrentPosition`. -/
def SwitchCluster.GetCurrentPosition (c : SwitchCluster) : Nat := c.mCurrentPosition

/-- The body shared by the seven `On*` functions: return `std::nullopt`
unless the context is set and the condition on features and position holds,
otherwise hand the event to the events generator on the cluster's endpoint
and return its answer. -/
def SwitchCluster.generate (c : SwitchCluster) (supported : Bool) (event : SwitchEvent) :
    Option Nat × SwitchCluster :=
  match c.mContext with
  | none => (none, c)
  | some g =>
      if supported then
        ((g.GenerateEvent event c.mEndpointId).1,
          { c with mContext := some (g.GenerateEvent event c.mEndpointId).2 })
      else (none, c)

/-- `SwitchCluster::OnSwitchLatch`. -/
def SwitchCluster.OnSwitchLatch (c : SwitchCluster) (newPosition : Nat) :
    Option Nat × SwitchCluster :=
  c.generate (ButtonSim.hasFeature c.mFeatures ButtonSim.Feature.kLatchingSwitch
    && c.PositionIsValid newPosition) (.SwitchLatched newPosition)

/-- `SwitchCluster::OnInitialPress`. -/
def SwitchCluster.OnInitialPress (c : SwitchCluster) (newPosition : Nat) :
    Option Nat × SwitchCluster :=
  c.generate (ButtonSim.hasFeature c.mFeatures ButtonSim.Feature.kMomentarySwitch
    && c.PositionIsValid newPosition) (.InitialPress newPosition)

/-- `SwitchCluster::OnLongPress`. -/
def SwitchCluster.OnLongPress (c : SwitchCluster) (newPosition : Nat) :
    Option Nat × SwitchCluster :=
  c.generate (ButtonSim.hasFeature c.mFeatures ButtonSim.Feature.kMomentarySwitchLongPress
    && c.PositionIsValid newPosition) (.LongPress newPosition)

/-- `SwitchCluster::OnShortRelease`. -/
def SwitchCluster.OnShortRelease (c : SwitchCluster) (previousPosition : Nat) :
    Option Nat × SwitchCluster :=
  c.generate (ButtonSim.hasFeature c.mFeatures ButtonSim.Feature.kMomentarySwitchRelease
    && c.PositionIsValid previousPosition) (.ShortRelease previousPosition)

/-- `SwitchCluster::OnLongRelease`. -/
def SwitchCluster.OnLongRelease (c : SwitchCluster) (previousPosition : Nat) :
    Option Nat × SwitchCluster :=
  c.generate (ButtonSim.hasFeature c.mFeatures ButtonSim.Feature.kMomentarySwitchLongPress
    && c.PositionIsValid previousPosition) (.LongRelease previousPosition)

/-- `SwitchCluster::OnMultiPressOngoing`. -/
def SwitchCluster.OnMultiPressOngoing (c : SwitchCluster) (newPosition count : Nat) :
    Option Nat × SwitchCluster :=
  c.generate (ButtonSim.hasFeature c.mFeatures ButtonSim.Feature.kMomentarySwitchMultiPress
    && !(ButtonSim.hasFeature c.mFeatures ButtonSim.Feature.kActionSwitch)
    && c.PositionIsValid newPosition) (.MultiPressOngoing newPosition count)

/-- `SwitchCluster::OnMultiPressComplete`. -/
def SwitchCluster.OnMultiPressComplete (c : SwitchCluster) (previousPosition count : Nat) :
    Option Nat × SwitchCluster :=
  c.generate (ButtonSim.hasFeature c.mFeatures ButtonSim.Feature.kMomentarySwitchMultiPress
    && c.PositionIsValid previousPosition) (.MultiPressComplete previousPosition count)

/-- The cluster after event `e` has been handed to its events generator `g`:
the one event is appended, with the cluster's endpoint, to what the generator
has been given. -/
def SwitchCluster.withSubmitted (c : SwitchCluster) (g : EventsGenerator) (e : SwitchEvent) :
    SwitchCluster :=
  { c with mContext := some ({ g with submitted := g.submitted ++ [(e, c.mEndpointId)] }) }

/-- An events generator that accepts every event and numbers the events in
the order they arrive, with nothing submitted yet. -/
def countingGenerator : EventsGenerator :=
  { respond := fun before _ _ => some before.length
    submitted := [] }

/-- A started cluster on endpoint 0 with the given features, number of
positions and multi-press maximum; position 0. -/
def sampleCluster (features numberOfPositions multiPressMax : Nat) : SwitchCluster :=
  { mEndpointId := 0
    mFeatures := features
    mNumberOfPositions := numberOfPositions
    mMultiPressMax := multiPressMax
    mCurrentPosition := 0
    mContext := some countingGenerator }

/-- A call made on a cluster object from outside. -/
inductive Call
  | Startup (g : EventsGenerator)
  | SetCurrentPosition (currentPosition : Nat)
  | OnSwitchLatch (newPosition : Nat)
  | OnInitialPress (newPosition : Nat)
  | OnLongPress (newPosition : Nat)
  | OnShortRelease (previousPosition : Nat)
  | OnLongRelease (previousPosition : Nat)
  | OnMultiPressOngoing (newPosition count : Nat)
  | OnMultiPressComplete (previousPosition count : Nat)

/-- The cluster after one call. -/
def SwitchCluster.call (c : SwitchCluster) : Call → SwitchCluster
  | .Startup g => c.Startup g
  | .SetCurrentPosition p => (c.SetCurrentPosition p).2
  | .OnSwitchLatch p => (c.OnSwitchLatch p).2
  | .OnInitialPress p => (c.OnInitialPress p).2
  | .OnLongPress p => (c.OnLongPress p).2
  | .OnShortRelease p => (c.OnShortRelease p).2
  | .OnLongRelease p => (c.OnLongRelease p).2
  | .OnMultiPressOngoing p n => (c.OnMultiPressOngoing p n).2
  | .OnMultiPressComplete p n => (c.OnMultiPressComplete p n).2

/-- The cluster after a sequence of calls. -/
def SwitchCluster.calls (c : SwitchCluster) (l : List Call) : SwitchCluster :=
  l.foldl SwitchCluster.call c

end SwitchServer

/-!
# Command-line options of the all-devices app (`AppOptions`)

A shallow embedding of `examples/all-devices-app/posix/app_options/AppOptions.cpp`.
A C string is the list of its characters before the terminating NUL, a null
pointer is `none`, and a reference parameter that a function writes to is
passed in and returned.
-/

namespace AppOpts

/-- The C library's `isspace` in the "C" locale: space, and the controls
from horizontal tab to carriage return. -/
def isspace (c : Char) : Bool :=
  c.toNat = 32 || (decide (9 ≤ c.toNat) && decide (c.toNat ≤ 13))

/-- The C library's `isdigit`. -/
def isdigit (c : Char) : Bool :=
  decide (48 ≤ c.toNat) && decide (c.toNat ≤ 57)

/-- The value of a decimal digit character. -/
def digitValue (c : Char) : Nat := c.toNat - 48

/-- The value of a run of decimal digits, most significant first. -/
def digitsValue (digits : List Char) : Nat :=
  digits.foldl (fun acc c => 10 * acc + digitValue c) 0

/-- The largest `long` of the platform (64 bits). -/
def LONG_MAX : Int := 2 ^ 63 - 1

/-- The smallest `long` of the platform (64 bits). -/
def LONG_MIN : Int := -(2 ^ 63)

/-- The C library's `strtol(str, &endptr, 10)`: skip white space, take an
optional sign, convert the longest run of decimal digits, clamping the value
to the range of `long`. Returns the value and the number of characters in
front of `endptr`; without any digit nothing is converted and `endptr` is
`str`. -/
def strtol (str : List Char) : Int × Nat :=
  let blanks := str.takeWhile isspace
  let rest := str.dropWhile isspace
  let negative : Bool := rest.head? = some '-'
  let signLength : Nat := if rest.head? = some '-' ∨ rest.head? = some '+' then 1 else 0
  let digits := (rest.drop signLength).takeWhile isdigit
  if digits = [] then (0, 0)
  else
    let magnitude : Int := digitsValue digits
    let val : Int := if negative then max (-magnitude) LONG_MIN else min magnitude LONG_MAX
    (val, blanks.length + signLength + digits.length)

/-- `AppOptions::ParseEndpointId`: the returned boolean and the endpoint
afterwards. -/
def ParseEndpointId (str : List Char) (endpoint : Nat) : Bool × Nat :=
  let val := (strtol str).1
  let consumed := (strtol str).2
  if consumed = 0 ∨ (str.drop consumed) ≠ [] ∨ val < 0 ∨ val > 65535 then (false, endpoint)
  else (true, (val % 65536).toNat)

/-- The struct `AppOptions::DeviceConfig`. -/
structure DeviceConfig where
  type : List Char
  endpoint : Nat
  deriving DecidableEq

/-- The C library's `strchr(value, c)` for a character other than NUL, as
the offset of the first occurrence; `none` for a null pointer result. -/
def strchr (value : List Char) (c : Char) : Option Nat :=
  if c ∈ value then some (value.takeWhile (fun x => x != c)).length else none

/-- `AppOptions::ParseDeviceConfig`: the returned boolean and the
configuration afterwards. -/
def ParseDeviceConfig (value : Option (List Char)) (config : DeviceConfig) :
    Bool × DeviceConfig :=
  match value with
  | none => (false, config)
  | some value =>
      let config := { config with endpoint := 1 }
      match strchr value ':' with
      | some colonPos =>
          let config := { config with type := value.take colonPos }
          let parsed := ParseEndpointId (value.drop (colonPos + 1)) config.endpoint
          if ¬ parsed.1 then (false, { config with endpoint := parsed.2 })
          else (true, { config with endpoint := parsed.2 })
      | none => (true, { config with type := value })

end AppOpts

namespace ButtonSim

/-! ## The simulator together with its sink

The same functions once more, now with the switch clusters they talk to: the
helpers of the anonymous namespace look the cluster up, call it and drop its
answer. -/

/-- What lies outside the simulator during one call: the switch cluster
registered on each endpoint, and the actions performed so far in the call. -/
structure Outside where
  clusters : Nat → Option SwitchServer.SwitchCluster
  actions : List Action

/-- Modelled from the spec: `Clusters::Switch::FindClusterOnEndpoint`, whose
lookup goes through the codegen integration that is not among the sources;
the cluster registered on the endpoint, or `none` for a null pointer. -/
def Outside.FindClusterOnEndpoint (o : Outside) (endpointId : Nat) :
    Option SwitchServer.SwitchCluster :=
  o.clusters endpointId

/-- The cluster on `endpointId` has become `c`. -/
def Outside.store (o : Outside) (endpointId : Nat) (c : SwitchServer.SwitchCluster) : Outside :=
  { o with clusters := fun e => if e = endpointId then some c else o.clusters e }

/-- One more action has been performed. -/
def Outside.record (o : Outside) (a : Action) : Outside :=
  { o with actions := o.actions ++ [a] }

/-- The helper `SetButtonPosition` of the anonymous namespace. -/
def SetButtonPosition (o : Outside) (endpointId position : Nat) : Outside :=
  let o := o.record (.SetButtonPosition endpointId position)
  match o.FindClusterOnEndpoint endpointId with
  | none => o
  | some c => o.store endpointId (c.SetCurrentPosition position).2

/-- The helper `EmitInitialPress`. -/
def EmitInitialPress (o : Outside) (endpointId newPosition : Nat) : Outside :=
  let o := o.record (.EmitInitialPress endpointId newPosition)
  match o.FindClusterOnEndpoint endpointId with
  | none => o
  | some c => o.store endpointId (c.OnInitialPress newPosition).2

/-- The helper `EmitLongPress`. -/
def EmitLongPress (o : Outside) (endpointId newPosition : Nat) : Outside :=
  let o := o.record (.EmitLongPress endpointId newPosition)
  match o.FindClusterOnEndpoint endpointId with
  | none => o
  | some c => o.store endpointId (c.OnLongPress newPosition).2

/-- The helper `EmitLongRelease`. -/
def EmitLongRelease (o : Outside) (endpointId previousPosition : Nat) : Outside :=
  let o := o.record (.EmitLongRelease endpointId previousPosition)
  match o.FindClusterOnEndpoint endpointId with
  | none => o
  | some c => o.store endpointId (c.OnLongRelease previousPosition).2

/-- The helper `EmitMultiPressComplete`. -/
def EmitMultiPressComplete (o : Outside) (endpointId previousPosition count : Nat) : Outside :=
  let o := o.record (.EmitMultiPressComplete endpointId previousPosition count)
  match o.FindClusterOnEndpoint endpointId with
  | none => o
  | some c => o.store endpointId (c.OnMultiPressComplete previousPosition count).2

/-- The helper `EmitShortRelease`. -/
def EmitShortRelease (o : Outside) (endpointId previousPosition : Nat) : Outside :=
  let o := o.record (.EmitShortRelease endpointId previousPosition)
  match o.FindClusterOnEndpoint endpointId with
  | none => o
  | some c => o.store endpointId (c.OnShortRelease previousPosition).2

/-- The helper `EmitMultiPressOngoing`. -/
def EmitMultiPressOngoing (o : Outside) (endpointId newPosition count : Nat) : Outside :=
  let o := o.record (.EmitMultiPressOngoing endpointId newPosition count)
  match o.FindClusterOnEndpoint endpointId with
  | none => o
  | some c => o.store endpointId (c.OnMultiPressOngoing newPosition count).2

/-- `ButtonEventsSimulator::StartTimer`. -/
def StartTimer (o : Outside) (duration : Nat) : Outside :=
  o.record (.StartTimer duration)

/-- `ButtonEventsSimulator::Next`, statement by statement, acting on the
clusters. -/
def NextOn (o : Outside) (s : ButtonEventsSimulator) : Outside × ButtonEventsSimulator :=
  match s.mState with
  | .kIdle => (o, s)
  | .kEmitStartOfLongPress =>
      let o := SetButtonPosition o s.mEndpointId s.mPressedButtonId
      let o := EmitInitialPress o s.mEndpointId s.mPressedButtonId
      let s := SetState s .kEmitLongPress
      (StartTimer o s.mLongPressDelayMillis, s)
  | .kEmitLongPress =>
      let o := EmitLongPress o s.mEndpointId s.mPressedButtonId
      let s := SetState s .kEmitLongRelease
      (StartTimer o (u32 (s.mLongPressDurationMillis + 2 ^ 32 - s.mLongPressDelayMillis)), s)
  | .kEmitLongRelease =>
      let o := SetButtonPosition o s.mEndpointId s.mIdleButtonId
      let o :=
        if hasFeature s.mFeatureMap Feature.kMomentarySwitchLongPress then
          EmitLongRelease o s.mEndpointId s.mPressedButtonId
        else if hasFeature s.mFeatureMap Feature.kMomentarySwitchRelease then
          EmitShortRelease o s.mEndpointId s.mPressedButtonId
        else o
      let s := SetState s .kIdle
      (o.record (.DoneCallback s.mDoneCallback), s)
  | .kEmitStartOfMultiPress =>
      let o := SetButtonPosition o s.mEndpointId s.mPressedButtonId
      let o := EmitInitialPress o s.mEndpointId s.mPressedButtonId
      if hasFeature s.mFeatureMap Feature.kActionSwitch then
        let o := StartTimer o (u32 (s.mMultiPressNumPresses *
          u32 (s.mMultiPressPressedTimeMillis + s.mMultiPressReleasedTimeMillis)))
        (o, SetState s .kEmitEndOfMultiPress)
      else
        let s := SetState s .kMultiPressButtonRelease
        (StartTimer o s.mMultiPressPressedTimeMillis, s)
  | .kMultiPressButtonRelease =>
      let s := { s with mMultiPressPressesDone := u8 (s.mMultiPressPressesDone + 1) }
      let o :=
        if s.mMultiPressPressesDone > 1 then
          EmitMultiPressOngoing o s.mEndpointId s.mPressedButtonId s.mMultiPressPressesDone
        else o
      let s :=
        if s.mMultiPressPressesDone = s.mMultiPressNumPresses then
          SetState s .kEmitEndOfMultiPress
        else SetState s .kEmitStartOfMultiPress
      let o :=
        if hasFeature s.mFeatureMap Feature.kMomentarySwitchRelease then
          EmitShortRelease o s.mEndpointId s.mPressedButtonId
        else o
      let o := SetButtonPosition o s.mEndpointId s.mIdleButtonId
      (StartTimer o s.mMultiPressReleasedTimeMillis, s)
  | .kEmitEndOfMultiPress =>
      let o :=
        if hasFeature s.mFeatureMap Feature.kActionSwitch
            && decide (s.mMultiPressNumPresses > s.mMultiPressMax) then
          EmitMultiPressComplete o s.mEndpointId s.mPressedButtonId 0
        else
          EmitMultiPressComplete o s.mEndpointId s.mPressedButtonId s.mMultiPressNumPresses
      let s := SetState s .kIdle
      (o.record (.DoneCallback s.mDoneCallback), s)

/-- `ButtonEventsSimulator::Execute`, acting on the clusters: the returned
boolean, the outside and the object afterwards. -/
def ExecuteOn (o : Outside) (s : ButtonEventsSimulator) (doneCallback : Nat) :
    Bool × Outside × ButtonEventsSimulator :=
  if s.mIdleButtonId = s.mPressedButtonId then (false, o, s)
  else
    match s.mMode with
    | .kModeLongPress =>
        if s.mLongPressDurationMillis > s.mLongPressDelayMillis then
          let s := SetState s .kEmitStartOfLongPress
          let s := { s with mDoneCallback := some doneCallback }
          (true, NextOn o s)
        else (false, o, s)
    | .kModeMultiPress =>
        if ¬ (s.mMultiPressPressedTimeMillis > 0) then (false, o, s)
        else if ¬ (s.mMultiPressReleasedTimeMillis > 0) then (false, o, s)
        else if ¬ (s.mMultiPressNumPresses > 0) then (false, o, s)
        else
          let s := SetState s .kEmitStartOfMultiPress
          let s := { s with mDoneCallback := some doneCallback }
          (true, NextOn o s)

/-- The world of the timer service together with the switch clusters. -/
structure SinkWorld where
  clusters : Nat → Option SwitchServer.SwitchCluster
  world : World

/-- The earliest armed timer expires and `OnTimerDone` calls `Next`, which
acts on the clusters. -/
def SinkWorld.expire (sw : SinkWorld) : SinkWorld :=
  match sw.world.timers with
  | [] => sw
  | t :: ts =>
      let m := ts.foldl min t
      let r := NextOn { clusters := sw.clusters, actions := [] } sw.world.sim
      { clusters := r.1.clusters
        world := World.absorb { sw.world with now := m, timers := (t :: ts).erase m }
          r.2 r.1.actions }

/-- The state of the world and of the clusters when `Execute` returns, called
at time 0 with no timer armed. -/
def launchOn (clusters : Nat → Option SwitchServer.SwitchCluster)
    (s : ButtonEventsSimulator) (doneCallback : Nat) : SinkWorld :=
  let r := ExecuteOn { clusters := clusters, actions := [] } s doneCallback
  { clusters := r.2.1.clusters
    world := World.absorb { sim := s, now := 0, timers := [], history := [] }
      r.2.2 r.2.1.actions }

/-- The world and the clusters after `k` timer expiries. -/
def SinkWorld.after (sw : SinkWorld) : Nat → SinkWorld
  | 0 => sw
  | k + 1 => (sw.after k).expire

/-- The world after `k` timer expiries, the clusters left aside. -/
def World.after (w : World) : Nat → World
  | 0 => w
  | k + 1 => (w.after k).expire

/-- The number of timer expiries an accepted run takes: two for a long press,
one for a multi-press with the action-switch feature, two for each press of a
multi-press without it. -/
def expiries (s : ButtonEventsSimulator) : Nat :=
  match s.mMode with
  | .kModeLongPress => 2
  | .kModeMultiPress =>
      if hasFeature s.mFeatureMap Feature.kActionSwitch then 1
      else 2 * s.mMultiPressNumPresses

/-- The action is a `SetButtonPosition` call. -/
def Action.isSetButtonPosition : Action → Bool
  | .SetButtonPosition _ _ => true
  | _ => false

/-- An example object whose durations wrap in 32 bits: multi press with the
action-switch feature, one press, hold and gap of 2147483648 ms each. -/
def sampleWrapping : ButtonEventsSimulator :=
  { sampleMultiPress 0x36 1 with
    mMultiPressPressedTimeMillis := 2147483648
    mMultiPressReleasedTimeMillis := 2147483648 }

/-- An example assignment of clusters: on endpoint 1 a started cluster with
the momentary-switch and short-release features and four positions, no
cluster elsewhere. -/
def sampleRegistry : Nat → Option SwitchServer.SwitchCluster :=
  fun e => if e = 1 then some { SwitchServer.sampleCluster 0x6 4 2 with mEndpointId := 1 }
    else none

end ButtonSim

namespace AppOpts

/-- The static members `mDeviceConfigs` and `mEnableWiFi` of `AppOptions`. -/
structure AppOptions where
  mDeviceConfigs : List DeviceConfig
  mEnableWiFi : Bool
  deriving DecidableEq

/-- The option identifier of `--device`. -/
def kOptionDeviceType : Nat := 0xffd0

/-- The option identifier of `--endpoint`. -/
def kOptionEndpoint : Nat := 0xffd1

/-- The option identifier of `--wifi`. -/
def kOptionWiFi : Nat := 0xffd2

/-- The assignment `mDeviceConfigs.back().endpoint = ep` on a non-empty vector. -/
def setBackEndpoint : List DeviceConfig → Nat → List DeviceConfig
  | [], _ => []
  | [d], ep => [{ d with endpoint := ep }]
  | d :: ds, ep => d :: setBackEndpoint ds ep

/-- `AppOptions::AllDevicesAppOptionHandler`: the returned boolean and the
static members afterwards. The parameters `program`, `options` and `name`
only feed log lines. A local `DeviceConfig` starts with an empty type, and
the locals that are not initialised start at 0. -/
def AllDevicesAppOptionHandler (o : AppOptions) (identifier : Nat)
    (value : Option (List Char)) : Bool × AppOptions :=
  if identifier = kOptionDeviceType then
    let parsed := ParseDeviceConfig value { type := [], endpoint := 0 }
    if ¬ parsed.1 then (false, o)
    else (true, { o with mDeviceConfigs := o.mDeviceConfigs ++ [parsed.2] })
  else if identifier = kOptionEndpoint then
    match value with
    | none => (false, o)
    | some value =>
        let parsed := ParseEndpointId value 0
        if ¬ parsed.1 then (false, o)
        else if o.mDeviceConfigs.isEmpty then
          (true, { o with
            mDeviceConfigs := o.mDeviceConfigs ++
              [{ type := "contact-sensor".toList, endpoint := parsed.2 }] })
        else (true, { o with mDeviceConfigs := setBackEndpoint o.mDeviceConfigs parsed.2 })
  else if identifier = kOptionWiFi then (true, { o with mEnableWiFi := true })
  else (false, o)

/-- The texts that read as an endpoint id: white space, then an optional
sign, then a non-empty run of decimal digits and nothing after it, whose
value is at most 65535, and is 0 when the sign is a minus. -/
def EndpointText (r : List Char) : Prop :=
  ∃ blanks sign digits, r = blanks ++ sign ++ digits ∧
    (∀ c ∈ blanks, isspace c = true) ∧
    (sign = [] ∨ sign = ['+'] ∨ sign = ['-']) ∧
    digits ≠ [] ∧ (∀ c ∈ digits, isdigit c = true) ∧
    digitsValue digits ≤ 65535 ∧ (sign = ['-'] → digitsValue digits = 0)

end AppOpts

namespace ButtonSim

end ButtonSim

/-!
# The generic switch of the QPG light-switch app (`SwitchManager`)

A shallow embedding of the two multi-press handlers of
`examples/light-switch-app/qpg/src/SwitchManager.cpp`. A lambda handed to
`ScheduleLambda` is kept, with the values it captured, until it is run.
-/

namespace QpgSwitch

/-- The lambdas the two multi-press handlers schedule, with the local they
capture by value; `multiPressCount` is a global and is read when the lambda
runs. -/
inductive Lambda
  | MultipressOngoing (newPosition : Nat)
  | MultipressComplete (previousPosition : Nat)
  deriving DecidableEq

/-- The calls the lambdas make on the switch cluster, with their arguments. -/
inductive ClusterCall
  | OnMultiPressOngoing (newPosition count : Nat)
  | OnMultiPressComplete (previousPosition count : Nat)
  deriving DecidableEq

/-- The state the handlers and their lambdas work on: the file-level
`multiPressCount`, the lambdas scheduled and not yet run, the cluster that
`FindClusterOnEndpoint(GENERICSWITCH_ENDPOINT_ID)` finds (`none` for a null
pointer), and the calls made on it so far. -/
structure SwitchManager where
  multiPressCount : Nat
  scheduled : List Lambda
  cluster : Option SwitchServer.SwitchCluster
  calls : List ClusterCall

/-- `SwitchManager::GenericSwitchMultipressOngoingHandler`. -/
def GenericSwitchMultipressOngoingHandler (m : SwitchManager) : SwitchManager :=
  let newPosition := 1
  let m := { m with multiPressCount := ButtonSim.u8 (m.multiPressCount + 1) }
  { m with scheduled := m.scheduled ++ [Lambda.MultipressOngoing newPosition] }

/-- `SwitchManager::GenericSwitchMultipressCompleteHandler`. -/
def GenericSwitchMultipressCompleteHandler (m : SwitchManager) : SwitchManager :=
  let previousPosition := 0
  let m := { m with scheduled := m.scheduled ++ [Lambda.MultipressComplete previousPosition] }
  { m with multiPressCount := 1 }

/-- The body of a scheduled lambda, run by the system layer. -/
def runLambda (m : SwitchManager) : Lambda → SwitchManager
  | .MultipressOngoing newPosition =>
      match m.cluster with
      | none => m
      | some switchCluster =>
          { m with
            cluster := some (switchCluster.OnMultiPressOngoing newPosition m.multiPressCount).2
            calls := m.calls ++ [.OnMultiPressOngoing newPosition m.multiPressCount] }
  | .MultipressComplete previousPosition =>
      match m.cluster with
      | none => m
      | some switchCluster =>
          { m with
            cluster :=
              some (switchCluster.OnMultiPressComplete previousPosition m.multiPressCount).2
            calls := m.calls ++ [.OnMultiPressComplete previousPosition m.multiPressCount] }

/-- The system layer runs the scheduled lambdas in order, after the handler
that scheduled them has returned. -/
def runScheduled (m : SwitchManager) : SwitchManager :=
  m.scheduled.foldl runLambda { m with scheduled := [] }

/-- One further press of a sequence: the handler, then its lambda. -/
def ongoingPress (m : SwitchManager) : SwitchManager :=
  runScheduled (GenericSwitchMultipressOngoingHandler m)

/-- The end of a sequence: the handler, then its lambda. -/
def completeSequence (m : SwitchManager) : SwitchManager :=
  runScheduled (GenericSwitchMultipressCompleteHandler m)

/-- The manager after `k` further presses. -/
def afterPresses (m : SwitchManager) : Nat → SwitchManager
  | 0 => m
  | k + 1 => ongoingPress (afterPresses m k)

/-- A sequence of `k` further presses and its end. -/
def pressSequence (m : SwitchManager) (k : Nat) : SwitchManager :=
  completeSequence (afterPresses m k)

/-- The manager at start-up, `multiPressCount` being 1, with a started
multi-press cluster of two positions. -/
def sampleManager : SwitchManager :=
  { multiPressCount := 1
    scheduled := []
    cluster := some (SwitchServer.sampleCluster 0x16 2 2)
    calls := [] }

end QpgSwitch

/-!
# The BLE device scanner of the Tizen platform (`ChipDeviceScanner`)

A shallow embedding of the scan set-up and tear-down functions of
`src/platform/Tizen/ChipDeviceScanner.cpp`. What the Bluetooth stack answers
to each call is given from outside.
-/

namespace TizenBle

/-- A result code of the Bluetooth API: `BT_ERROR_NONE`,
`BT_ERROR_NOT_SUPPORTED`, or any other error code. -/
inductive BtResult
  | BT_ERROR_NONE
  | BT_ERROR_NOT_SUPPORTED
  | other (code : Int)
  deriving DecidableEq

/-- The error values the scanner functions return. -/
inductive ChipError
  | CHIP_NO_ERROR
  | CHIP_ERROR_INCORRECT_STATE
  | MATTER_PLATFORM_ERROR (ret : BtResult)
  deriving DecidableEq

/-- The values of `ScanFilterType` that `RegisterScanFilter` switches over. -/
inductive ScanFilterType
  | kNoFilter
  | kAddress
  | kServiceUUID
  | kServiceData
  deriving DecidableEq

/-- What the Bluetooth stack answers to the calls made during one call of
`StartScan`: the result code of each function, whether scan
filters are supported, and the handle a successful create writes. -/
structure BtOutcomes where
  isScanFilterSupportedRet : BtResult
  isSupported : Bool
  scanFilterCreateRet : BtResult
  createdFilter : Nat
  scanFilterSetRet : BtResult
  scanFilterRegisterRet : BtResult
  startScanRet : BtResult
  deriving DecidableEq

/-- Modelled from the spec: the members `mIsScanning` and `mScanFilter`
(`none` is the null handle) of `ChipDeviceScanner`, whose header is not among
the sources, together with what the calls leave behind outside: the scan
filters of the stack that are created and not destroyed, those that are
registered, and the number of `OnScanComplete` reports to the delegate. -/
structure ChipDeviceScanner where
  mIsScanning : Bool
  mScanFilter : Option Nat
  liveFilters : List Nat
  registeredFilters : List Nat
  scanCompleteReports : Nat
  deriving DecidableEq

/-- The static function `__IsScanFilterSupported`. -/
def IsScanFilterSupported (o : BtOutcomes) : Bool :=
  if o.isScanFilterSupportedRet ≠ .BT_ERROR_NONE then false else o.isSupported

/-- `ChipDeviceScanner::StartScanImpl`. -/
def StartScanImpl (s : ChipDeviceScanner) (o : BtOutcomes) : ChipError × ChipDeviceScanner :=
  if o.startScanRet ≠ .BT_ERROR_NONE then (.MATTER_PLATFORM_ERROR o.startScanRet, s)
  else (.CHIP_NO_ERROR, { s with mIsScanning := true })

/-- `ChipDeviceScanner::UnRegisterScanFilter`. -/
def UnRegisterScanFilter (s : ChipDeviceScanner) : ChipDeviceScanner :=
  match s.mScanFilter with
  | some filter =>
      { s with
        registeredFilters := s.registeredFilters.erase filter
        liveFilters := s.liveFilters.erase filter
        mScanFilter := none }
  | none => s

/-- `ChipDeviceScanner::RegisterScanFilter`. The three kinds of filter data
are set by three functions of the stack whose result is checked alike. -/
def RegisterScanFilter (s : ChipDeviceScanner) (filterType : ScanFilterType)
    (o : BtOutcomes) : ChipError × ChipDeviceScanner :=
  match filterType with
  | .kNoFilter => (.CHIP_NO_ERROR, s)
  | _ =>
      if o.scanFilterSetRet ≠ .BT_ERROR_NONE then
        (.MATTER_PLATFORM_ERROR o.scanFilterSetRet, s)
      else if o.scanFilterRegisterRet ≠ .BT_ERROR_NONE then
        (.MATTER_PLATFORM_ERROR o.scanFilterRegisterRet, s)
      else
        (.CHIP_NO_ERROR,
          { s with registeredFilters := s.registeredFilters ++ s.mScanFilter.toList })

/-- `ChipDeviceScanner::SetupScanFilter`. A failed create leaves the handle
as it was. -/
def SetupScanFilter (s : ChipDeviceScanner) (filterType : ScanFilterType) (o : BtOutcomes) :
    ChipError × ChipDeviceScanner :=
  if ¬ IsScanFilterSupported o then (.MATTER_PLATFORM_ERROR .BT_ERROR_NOT_SUPPORTED, s)
  else if o.scanFilterCreateRet ≠ .BT_ERROR_NONE then
    (.MATTER_PLATFORM_ERROR o.scanFilterCreateRet, s)
  else
    let s := { s with
      mScanFilter := some o.createdFilter
      liveFilters := s.liveFilters ++ [o.createdFilter] }
    let registered := RegisterScanFilter s filterType o
    if registered.1 ≠ .CHIP_NO_ERROR then (registered.1, UnRegisterScanFilter registered.2)
    else (.CHIP_NO_ERROR, registered.2)

/-- `ChipDeviceScanner::StopScan`. The result of `bt_adapter_le_stop_scan` is
only logged, so no answer of the stack takes part. -/
def StopScan (s : ChipDeviceScanner) : ChipError × ChipDeviceScanner :=
  if ¬ s.mIsScanning then (.CHIP_ERROR_INCORRECT_STATE, s)
  else
    let s := UnRegisterScanFilter s
    let s := { s with scanCompleteReports := s.scanCompleteReports + 1 }
    (.CHIP_NO_ERROR, { s with mIsScanning := false })

/-- `ChipDeviceScanner::StartScan`. `GLibMatterContextInvokeSync` runs
`StartScanImpl` and hands back what it returns. -/
def StartScan (s : ChipDeviceScanner) (filterType : ScanFilterType) (o : BtOutcomes) :
    ChipError × ChipDeviceScanner :=
  if s.mIsScanning then (.CHIP_ERROR_INCORRECT_STATE, s)
  else
    let s := (SetupScanFilter s filterType o).2
    let started := StartScanImpl s o
    if started.1 ≠ .CHIP_NO_ERROR then (started.1, (StopScan started.2).2)
    else (.CHIP_NO_ERROR, started.2)

/-- A scanner that has never scanned: not scanning, no filter. -/
def idleScanner : ChipDeviceScanner :=
  { mIsScanning := false
    mScanFilter := none
    liveFilters := []
    registeredFilters := []
    scanCompleteReports := 0 }

/-- The stack supports scan filters, creates filter 1 and accepts the filter
data and the registration, but `bt_adapter_le_start_scan` fails with `code`. -/
def startFails (code : Int) : BtOutcomes :=
  { isScanFilterSupportedRet := .BT_ERROR_NONE
    isSupported := true
    scanFilterCreateRet := .BT_ERROR_NONE
    createdFilter := 1
    scanFilterSetRet := .BT_ERROR_NONE
    scanFilterRegisterRet := .BT_ERROR_NONE
    startScanRet := .other code }

end TizenBle

namespace ButtonSim

/-! ## Rejection by `Execute` -/

/-- A rejected `Execute` hands back the object untouched and performs nothing. -/
theorem execute_rejected_eq (s : ButtonEventsSimulator) (cb : Nat)
    (h : (Execute s cb).accepted = false) :
    Execute s cb = { accepted := false, sim := s, actions := [] } := by
  unfold Execute at h ⊢
  split
  · rfl
  · split <;> split <;> first | rfl | (try split) <;> first | rfl | (try split) <;>
      first | rfl | simp_all [startSequence]

/-- With nothing armed the scheduler is at rest whatever the fuel. -/
theorem drive_of_no_timers (fuel : Nat) (w : World) (h : w.timers = []) :
    drive fuel w = some w := by
  cases fuel <;> simp [drive, h]

/-- The world left behind by a rejected `Execute`. -/
theorem launch_rejected (s : ButtonEventsSimulator) (cb : Nat)
    (h : (Execute s cb).accepted = false) :
    launch s cb = { sim := s, now := 0, timers := [], history := [] } := by
  simp [launch, execute_rejected_eq s cb h, World.absorb, armedTimers]

/-- An accepted long-press `Execute` is the start state, the stored callback
and one call of `Next`. -/
theorem execute_long_press (s : ButtonEventsSimulator) (cb : Nat)
    (hne : s.mIdleButtonId ≠ s.mPressedButtonId) (hmode : s.mMode = .kModeLongPress)
    (h : s.mLongPressDurationMillis > s.mLongPressDelayMillis) :
    Execute s cb = startSequence (SetState s .kEmitStartOfLongPress) cb := by
  simp [Execute, hne, hmode, h]

/-- An accepted multi-press `Execute` is the start state, the stored callback
and one call of `Next`. -/
theorem execute_multi_press (s : ButtonEventsSimulator) (cb : Nat)
    (hne : s.mIdleButtonId ≠ s.mPressedButtonId) (hmode : s.mMode = .kModeMultiPress)
    (h1 : s.mMultiPressPressedTimeMillis > 0) (h2 : s.mMultiPressReleasedTimeMillis > 0)
    (h3 : s.mMultiPressNumPresses > 0) :
    Execute s cb = startSequence (SetState s .kEmitStartOfMultiPress) cb := by
  simp [Execute, hne, hmode, h1, h2, h3]

/-- C1: whenever the idle position equals the pressed position, whatever the
mode, feature map, durations and counts, `Execute` returns false, performs no
callback invocation before returning, and no callback is invoked afterwards
either: the scheduler is at rest at once, with a history free of callback
invocations. -/
theorem execute_rejects_equal_positions (s : ButtonEventsSimulator) (cb : Nat)
    (h : s.mIdleButtonId = s.mPressedButtonId) :
    (Execute s cb).accepted = false ∧
    (∀ a ∈ (Execute s cb).actions, a.isDoneCallback = false) ∧
    ∀ fuel, ∃ w, run fuel s cb = some w ∧ ∀ e ∈ w.history, e.2.isDoneCallback = false := by
  have hacc : (Execute s cb).accepted = false := by simp [Execute, h]
  refine ⟨hacc, ?_, ?_⟩
  · simp [execute_rejected_eq s cb hacc]
  · intro fuel
    refine ⟨{ sim := s, now := 0, timers := [], history := [] }, ?_, ?_⟩
    · rw [run, launch_rejected s cb hacc]
      exact drive_of_no_timers _ _ rfl
    · simp

/-- Witness of C1: a multi-press object whose two positions are both 1. -/
theorem execute_rejects_equal_positions_witness :
    (Execute { sampleMultiPress 0x16 2 with mIdleButtonId := 1 } 7).accepted = false ∧
    (∀ a ∈ (Execute { sampleMultiPress 0x16 2 with mIdleButtonId := 1 } 7).actions,
      a.isDoneCallback = false) ∧
    ∀ fuel, ∃ w, run fuel { sampleMultiPress 0x16 2 with mIdleButtonId := 1 } 7 = some w ∧
      ∀ e ∈ w.history, e.2.isDoneCallback = false :=
  execute_rejects_equal_positions { sampleMultiPress 0x16 2 with mIdleButtonId := 1 } 7 rfl

/-- C2: in long-press mode, a total press duration less than or equal to the
delay before the long press makes `Execute` return false. -/
theorem execute_rejects_short_long_press (s : ButtonEventsSimulator) (cb : Nat)
    (hmode : s.mMode = .kModeLongPress)
    (h : s.mLongPressDurationMillis ≤ s.mLongPressDelayMillis) :
    (Execute s cb).accepted = false := by
  unfold Execute
  split
  · rfl
  · simp [hmode, Nat.not_lt.mpr h]

/-- Witness of C2: duration 500 ms against a delay of 500 ms. -/
theorem execute_rejects_short_long_press_witness :
    (Execute { sampleLongPress 8 with mLongPressDurationMillis := 500 } 7).accepted = false :=
  execute_rejects_short_long_press { sampleLongPress 8 with mLongPressDurationMillis := 500 } 7
    rfl (by decide)

/-- C3: in multi-press mode, if the hold duration, the gap duration or the
target press count is zero, `Execute` returns false. -/
theorem execute_rejects_zero_multi_press (s : ButtonEventsSimulator) (cb : Nat)
    (hmode : s.mMode = .kModeMultiPress)
    (h : s.mMultiPressPressedTimeMillis = 0 ∨ s.mMultiPressReleasedTimeMillis = 0 ∨
      s.mMultiPressNumPresses = 0) :
    (Execute s cb).accepted = false := by
  unfold Execute
  split
  · rfl
  · rcases h with h | h | h <;> simp [hmode, h]

/-- Witness of C3: hold 300 ms, gap 200 ms, but a target count of 0. -/
theorem execute_rejects_zero_multi_press_witness :
    (Execute (sampleMultiPress 0x16 0) 7).accepted = false :=
  execute_rejects_zero_multi_press (sampleMultiPress 0x16 0) 7 rfl (Or.inr (Or.inr rfl))

/-- C4: when `Execute` returns false it has done nothing: the object (its
state, progress counter and stored callback among the rest) is unchanged, no
timer is armed, no sink call is made and no callback is invoked. -/
theorem execute_rejected_no_effect (s : ButtonEventsSimulator) (cb : Nat)
    (h : (Execute s cb).accepted = false) :
    (Execute s cb).sim = s ∧
    (Execute s cb).sim.mState = s.mState ∧
    (Execute s cb).sim.mMultiPressPressesDone = s.mMultiPressPressesDone ∧
    (Execute s cb).sim.mDoneCallback = s.mDoneCallback ∧
    armedTimers (Execute s cb).actions = [] ∧
    (∀ a ∈ (Execute s cb).actions, a.isSinkCall = false) ∧
    (∀ a ∈ (Execute s cb).actions, a.isDoneCallback = false) ∧
    (Execute s cb).actions = [] := by
  rw [execute_rejected_eq s cb h]
  simp [armedTimers]

/-- Witness of C4: a long-press object in the middle of a run, carrying
callback 3, whose duration does not exceed its delay. -/
theorem execute_rejected_no_effect_witness :
    (Execute { sampleLongPress 8 with
        mLongPressDurationMillis := 100, mState := .kEmitLongPress,
        mDoneCallback := some 3 } 7).sim
      = { sampleLongPress 8 with
        mLongPressDurationMillis := 100, mState := .kEmitLongPress,
        mDoneCallback := some 3 } :=
  (execute_rejected_no_effect { sampleLongPress 8 with
        mLongPressDurationMillis := 100, mState := .kEmitLongPress,
        mDoneCallback := some 3 } 7 (by decide)).1

/-- C5: a configuration that satisfies the preconditions of its mode is
accepted, and when `Execute` returns the first drive step has run: the
actions so far are `SetButtonPosition(pressed)`, `InitialPress(pressed)` and
the arming of exactly one timer, the state is the successor of the mode's
start state, and the callback is stored. -/
theorem execute_accepts_valid (s : ButtonEventsSimulator) (cb : Nat) (h : Valid s) :
    (Execute s cb).accepted = true ∧
    (∃ t, (Execute s cb).actions =
        [.SetButtonPosition s.mEndpointId s.mPressedButtonId,
         .EmitInitialPress s.mEndpointId s.mPressedButtonId,
         .StartTimer t] ∧
      armedTimers (Execute s cb).actions = [t]) ∧
    (Execute s cb).sim.mState =
      (match s.mMode with
       | .kModeLongPress => State.kEmitLongPress
       | .kModeMultiPress =>
           if hasFeature s.mFeatureMap Feature.kActionSwitch then State.kEmitEndOfMultiPress
           else State.kMultiPressButtonRelease) ∧
    (Execute s cb).sim.mDoneCallback = some cb := by
  obtain ⟨hne, hm⟩ := h
  cases hmode : s.mMode
  · simp only [hmode] at hm
    rw [execute_long_press s cb hne hmode hm]
    simp [startSequence, Next, SetState, armedTimers]
  · simp only [hmode] at hm
    obtain ⟨h1, h2, h3⟩ := hm
    rw [execute_multi_press s cb hne hmode h1 h2 h3]
    by_cases hf : hasFeature s.mFeatureMap Feature.kActionSwitch = true <;>
      simp [startSequence, Next, SetState, armedTimers, hf]

/-- Witness of C5: the multi-press sample with two presses. -/
theorem execute_accepts_valid_witness :
    (Execute (sampleMultiPress 0x16 2) 7).accepted = true :=
  (execute_accepts_valid (sampleMultiPress 0x16 2) 7 (by decide)).1

/-! ## Long-press runs -/

/-- With a timer armed, one unit of fuel pays for one expiry. -/
theorem drive_succ_of_armed (n : Nat) (w : World) (h : w.timers ≠ []) :
    drive (n + 1) w = drive n w.expire := by
  rw [drive]
  simp [h]

/-- When exactly one timer is armed, its expiry moves the clock to its expiry
time and runs `Next` with no timer left over. -/
theorem expire_single (w : World) (t : Nat) (h : w.timers = [t]) :
    w.expire =
      World.absorb { w with now := t, timers := [] } (Next w.sim).1 (Next w.sim).2 := by
  simp [World.expire, h]

/-- The world in which an accepted long-press `Execute` returns. -/
theorem launch_long_press (s : ButtonEventsSimulator) (cb : Nat)
    (hne : s.mIdleButtonId ≠ s.mPressedButtonId) (hmode : s.mMode = .kModeLongPress)
    (h : s.mLongPressDurationMillis > s.mLongPressDelayMillis) :
    launch s cb =
      { sim := { s with mDoneCallback := some cb, mState := .kEmitLongPress }
        now := 0
        timers := [s.mLongPressDelayMillis]
        history :=
          [(0, .SetButtonPosition s.mEndpointId s.mPressedButtonId),
           (0, .EmitInitialPress s.mEndpointId s.mPressedButtonId),
           (0, .StartTimer s.mLongPressDelayMillis)] } := by
  simp [launch, execute_long_press s cb hne hmode h, startSequence, Next, SetState,
    World.absorb, armedTimers]

/-- The complete run of an accepted long-press configuration: two timer
expiries, after which nothing is armed. -/
theorem run_long_press (s : ButtonEventsSimulator) (cb : Nat) (n : Nat)
    (hne : s.mIdleButtonId ≠ s.mPressedButtonId) (hmode : s.mMode = .kModeLongPress)
    (h : s.mLongPressDurationMillis > s.mLongPressDelayMillis) :
    run (n + 2) s cb = some
      { sim := { s with mDoneCallback := some cb, mState := .kIdle }
        now := s.mLongPressDelayMillis +
          u32 (s.mLongPressDurationMillis + 2 ^ 32 - s.mLongPressDelayMillis)
        timers := []
        history :=
          [(0, .SetButtonPosition s.mEndpointId s.mPressedButtonId),
           (0, .EmitInitialPress s.mEndpointId s.mPressedButtonId),
           (0, .StartTimer s.mLongPressDelayMillis),
           (s.mLongPressDelayMillis, .EmitLongPress s.mEndpointId s.mPressedButtonId),
           (s.mLongPressDelayMillis,
             .StartTimer (u32 (s.mLongPressDurationMillis + 2 ^ 32 - s.mLongPressDelayMillis))),
           (s.mLongPressDelayMillis +
              u32 (s.mLongPressDurationMillis + 2 ^ 32 - s.mLongPressDelayMillis),
             .SetButtonPosition s.mEndpointId s.mIdleButtonId)] ++
          (longPressRelease s).map (fun a => (s.mLongPressDelayMillis +
              u32 (s.mLongPressDurationMillis + 2 ^ 32 - s.mLongPressDelayMillis), a)) ++
          [(s.mLongPressDelayMillis +
              u32 (s.mLongPressDurationMillis + 2 ^ 32 - s.mLongPressDelayMillis),
             .DoneCallback (some cb))] } := by
  rw [run, launch_long_press s cb hne hmode h]
  rw [drive_succ_of_armed _ _ (by simp), expire_single _ _ rfl]
  rw [drive_succ_of_armed _ _ (by simp [World.absorb, Next, armedTimers, SetState]),
    expire_single _ (s.mLongPressDelayMillis +
      u32 (s.mLongPressDurationMillis + 2 ^ 32 - s.mLongPressDelayMillis))
      (by simp [World.absorb, Next, armedTimers, SetState])]
  rw [drive_of_no_timers]
  all_goals
    by_cases h1 : hasFeature s.mFeatureMap Feature.kMomentarySwitchLongPress = true <;>
      by_cases h2 : hasFeature s.mFeatureMap Feature.kMomentarySwitchRelease = true <;>
      simp [World.absorb, Next, armedTimers, SetState, longPressRelease, h1, h2]

/-- The second timer of a long press is the rest of the press duration: the
32-bit subtraction does not wrap when the duration exceeds the delay. -/
theorem long_press_second_timer (d D : Nat) (h : D > d) (hD : D < 2 ^ 32) :
    u32 (D + 2 ^ 32 - d) = D - d := by
  unfold u32
  norm_num at hD ⊢
  omega

/-- C6, counterexample: with an empty feature map the valid long-press sample
emits `InitialPress` and `LongPress` and then completes without any release
event, so the number of release events is not one. -/
theorem long_press_release_counterexample :
    Valid (sampleLongPress 0) ∧ (sampleLongPress 0).mMode = .kModeLongPress ∧
    ∃ w, run 2 (sampleLongPress 0) 7 = some w ∧ w.sim.mState = .kIdle ∧
      w.events = [.EmitInitialPress 1 1, .EmitLongPress 1 1] ∧
      (w.actions.filter Action.isRelease).length ≠ 1 := by
  refine ⟨by decide, rfl, _, run_long_press (sampleLongPress 0) 7 0 (by decide) rfl (by decide),
    rfl, ?_, ?_⟩ <;> decide

/-- C6, amended: in every valid long-press run, for every feature map, the
events emitted are exactly one `InitialPress`, then exactly one `LongPress`,
then at most one release event, which is `LongRelease` when the long-press
feature is active, otherwise `ShortRelease` when the short-release feature is
active, otherwise absent; the completion callback is invoked exactly once,
as the last action of the run, after all of these. -/
theorem long_press_event_order (s : ButtonEventsSimulator) (cb : Nat)
    (hv : Valid s) (hmode : s.mMode = .kModeLongPress) (fuel : Nat) (hfuel : 2 ≤ fuel) :
    ∃ w pre, run fuel s cb = some w ∧ w.sim.mState = .kIdle ∧ w.timers = [] ∧
      w.actions = pre ++ [.DoneCallback (some cb)] ∧
      pre.filter Action.isDoneCallback = [] ∧
      pre.filter Action.isEvent =
        [.EmitInitialPress s.mEndpointId s.mPressedButtonId,
         .EmitLongPress s.mEndpointId s.mPressedButtonId] ++
        (if hasFeature s.mFeatureMap Feature.kMomentarySwitchLongPress then
          [.EmitLongRelease s.mEndpointId s.mPressedButtonId]
        else if hasFeature s.mFeatureMap Feature.kMomentarySwitchRelease then
          [.EmitShortRelease s.mEndpointId s.mPressedButtonId]
        else []) := by
  obtain ⟨hne, hm⟩ := hv
  simp only [hmode] at hm
  obtain ⟨n, rfl⟩ : ∃ n, fuel = n + 2 := ⟨fuel - 2, by omega⟩
  refine ⟨_, [.SetButtonPosition s.mEndpointId s.mPressedButtonId,
      .EmitInitialPress s.mEndpointId s.mPressedButtonId,
      .StartTimer s.mLongPressDelayMillis,
      .EmitLongPress s.mEndpointId s.mPressedButtonId,
      .StartTimer (u32 (s.mLongPressDurationMillis + 2 ^ 32 - s.mLongPressDelayMillis)),
      .SetButtonPosition s.mEndpointId s.mIdleButtonId] ++ longPressRelease s,
    run_long_press s cb n hne hmode hm, rfl, rfl, ?_, ?_, ?_⟩
  · simp [World.actions, Function.comp_def]
  · by_cases h1 : hasFeature s.mFeatureMap Feature.kMomentarySwitchLongPress = true <;>
      by_cases h2 : hasFeature s.mFeatureMap Feature.kMomentarySwitchRelease = true <;>
      simp [longPressRelease, Action.isDoneCallback, h1, h2]
  · by_cases h1 : hasFeature s.mFeatureMap Feature.kMomentarySwitchLongPress = true <;>
      by_cases h2 : hasFeature s.mFeatureMap Feature.kMomentarySwitchRelease = true <;>
      simp [longPressRelease, Action.isEvent, h1, h2]

/-- Witness of C6 (amended): the long-press sample with an empty feature map. -/
theorem long_press_event_order_witness :
    ∃ w pre, run 2 (sampleLongPress 0) 7 = some w ∧ w.sim.mState = .kIdle ∧ w.timers = [] ∧
      w.actions = pre ++ [.DoneCallback (some 7)] ∧
      pre.filter Action.isDoneCallback = [] ∧
      pre.filter Action.isEvent =
        [.EmitInitialPress 1 1, .EmitLongPress 1 1] ++
        (if hasFeature 0 Feature.kMomentarySwitchLongPress then [.EmitLongRelease 1 1]
        else if hasFeature 0 Feature.kMomentarySwitchRelease then [.EmitShortRelease 1 1]
        else []) :=
  long_press_event_order (sampleLongPress 0) 7 (by decide) rfl 2 (by decide)

/-- C7: a valid long-press run with the long-press feature on, delay `d` and
duration `D > d`, has the timed history: at 0 `SetPosition(pressed)`,
`InitialPress(pressed)` and a timer of `d`; at `d` `LongPress(pressed)` and a
timer of `D - d`; at `D` `SetPosition(idle)`, `LongRelease(pressed)` and the
completion callback. The two timers sum to `D`. -/
theorem long_press_timed_trace (s : ButtonEventsSimulator) (cb : Nat)
    (hne : s.mIdleButtonId ≠ s.mPressedButtonId) (hmode : s.mMode = .kModeLongPress)
    (h : s.mLongPressDurationMillis > s.mLongPressDelayMillis)
    (hD : s.mLongPressDurationMillis < 2 ^ 32)
    (hf : hasFeature s.mFeatureMap Feature.kMomentarySwitchLongPress = true)
    (fuel : Nat) (hfuel : 2 ≤ fuel) :
    ∃ w, run fuel s cb = some w ∧ w.timers = [] ∧ w.sim.mState = .kIdle ∧
      w.history =
        [(0, .SetButtonPosition s.mEndpointId s.mPressedButtonId),
         (0, .EmitInitialPress s.mEndpointId s.mPressedButtonId),
         (0, .StartTimer s.mLongPressDelayMillis),
         (s.mLongPressDelayMillis, .EmitLongPress s.mEndpointId s.mPressedButtonId),
         (s.mLongPressDelayMillis,
           .StartTimer (s.mLongPressDurationMillis - s.mLongPressDelayMillis)),
         (s.mLongPressDurationMillis, .SetButtonPosition s.mEndpointId s.mIdleButtonId),
         (s.mLongPressDurationMillis, .EmitLongRelease s.mEndpointId s.mPressedButtonId),
         (s.mLongPressDurationMillis, .DoneCallback (some cb))] ∧
      s.mLongPressDelayMillis + (s.mLongPressDurationMillis - s.mLongPressDelayMillis)
        = s.mLongPressDurationMillis := by
  obtain ⟨n, rfl⟩ : ∃ n, fuel = n + 2 := ⟨fuel - 2, by omega⟩
  have hsum : s.mLongPressDelayMillis +
      (s.mLongPressDurationMillis - s.mLongPressDelayMillis) = s.mLongPressDurationMillis := by
    omega
  refine ⟨_, run_long_press s cb n hne hmode h, rfl, rfl, ?_, hsum⟩
  rw [long_press_second_timer _ _ h hD, hsum]
  simp [longPressRelease, hf]

/-- Witness of C7: idle 0, pressed 1, delay 500 ms, duration 2000 ms, with the
long-press feature on. -/
theorem long_press_timed_trace_witness :
    ∃ w, run 2 (sampleLongPress 8) 7 = some w ∧ w.timers = [] ∧ w.sim.mState = .kIdle ∧
      w.history =
        [(0, .SetButtonPosition 1 1), (0, .EmitInitialPress 1 1), (0, .StartTimer 500),
         (500, .EmitLongPress 1 1), (500, .StartTimer (2000 - 500)),
         (2000, .SetButtonPosition 1 0), (2000, .EmitLongRelease 1 1),
         (2000, .DoneCallback (some 7))] ∧
      500 + (2000 - 500) = 2000 :=
  long_press_timed_trace (sampleLongPress 8) 7 (by decide) rfl (by decide) (by decide)
    (by decide) 2 (by decide)

/-! ## Multi-press runs without the action-switch feature -/

/-- The world in which an accepted multi-press `Execute` returns when the
action-switch feature is off. -/
theorem launch_multi_press (s : ButtonEventsSimulator) (cb : Nat)
    (hne : s.mIdleButtonId ≠ s.mPressedButtonId) (hmode : s.mMode = .kModeMultiPress)
    (h1 : s.mMultiPressPressedTimeMillis > 0) (h2 : s.mMultiPressReleasedTimeMillis > 0)
    (h3 : s.mMultiPressNumPresses > 0)
    (hf : hasFeature s.mFeatureMap Feature.kActionSwitch = false) :
    launch s cb =
      { sim := midRun s cb s.mMultiPressPressesDone .kMultiPressButtonRelease
        now := 0
        timers := [s.mMultiPressPressedTimeMillis]
        history := pressAt s 0 } := by
  simp [launch, execute_multi_press s cb hne hmode h1 h2 h3, startSequence, Next, SetState,
    World.absorb, armedTimers, hf, midRun, pressAt]

/-- The timer of a press expires: the `kMultiPressButtonRelease` step. -/
theorem expire_release (s : ButtonEventsSimulator) (cb k t t0 : Nat)
    (hist : List (Nat × Action)) (hk : k + 1 < 2 ^ 8) :
    World.expire
      { sim := midRun s cb k .kMultiPressButtonRelease
        now := t0
        timers := [t]
        history := hist } =
      { sim := midRun s cb (k + 1)
          (if k + 1 = s.mMultiPressNumPresses then .kEmitEndOfMultiPress
            else .kEmitStartOfMultiPress)
        now := t
        timers := [t + s.mMultiPressReleasedTimeMillis]
        history := hist ++ releaseAt s t (k + 1) } := by
  have hu : u8 (k + 1) = k + 1 := Nat.mod_eq_of_lt hk
  rw [expire_single _ _ rfl]
  by_cases h7 : s.mMultiPressNumPresses = k + 1
  · by_cases h5 : 0 < k <;>
      by_cases h6 : hasFeature s.mFeatureMap Feature.kMomentarySwitchRelease = true <;>
      simp [World.absorb, Next, midRun, armedTimers, hu, SetState, releaseAt, h5, h6, h7]
  · have h8 : ¬ (k + 1 = s.mMultiPressNumPresses) := fun h => h7 h.symm
    by_cases h5 : 0 < k <;>
      by_cases h6 : hasFeature s.mFeatureMap Feature.kMomentarySwitchRelease = true <;>
      simp [World.absorb, Next, midRun, armedTimers, hu, SetState, releaseAt, h5, h6, h8]

/-- The timer of a release expires before the target count is reached: the
`kEmitStartOfMultiPress` step without the action-switch feature. -/
theorem expire_press (s : ButtonEventsSimulator) (cb k t t0 : Nat)
    (hist : List (Nat × Action))
    (hf : hasFeature s.mFeatureMap Feature.kActionSwitch = false) :
    World.expire
      { sim := midRun s cb k .kEmitStartOfMultiPress
        now := t0
        timers := [t]
        history := hist } =
      { sim := midRun s cb k .kMultiPressButtonRelease
        now := t
        timers := [t + s.mMultiPressPressedTimeMillis]
        history := hist ++ pressAt s t } := by
  rw [expire_single _ _ rfl]
  simp [World.absorb, Next, midRun, armedTimers, SetState, pressAt, hf]

/-- The last timer expires: the `kEmitEndOfMultiPress` step without the
action-switch feature. -/
theorem expire_complete (s : ButtonEventsSimulator) (cb k t t0 : Nat)
    (hist : List (Nat × Action))
    (hf : hasFeature s.mFeatureMap Feature.kActionSwitch = false) :
    World.expire
      { sim := midRun s cb k .kEmitEndOfMultiPress
        now := t0
        timers := [t]
        history := hist } =
      { sim := midRun s cb k .kIdle
        now := t
        timers := []
        history := hist ++
          [(t, .EmitMultiPressComplete s.mEndpointId s.mPressedButtonId s.mMultiPressNumPresses),
           (t, .DoneCallback (some cb))] } := by
  rw [expire_single _ _ rfl]
  simp [World.absorb, Next, midRun, armedTimers, SetState, hf]

/-- The remaining `m + 1` cycles of a multi-press run, from the moment the
press of cycle `k + 1` has been made at time `t`: `2 * (m + 1)` expiries lead
to the idle state, `m + 1` press and release periods later. -/
theorem drive_cycles (s : ButtonEventsSimulator) (cb : Nat)
    (hf : hasFeature s.mFeatureMap Feature.kActionSwitch = false)
    (hN : s.mMultiPressNumPresses < 2 ^ 8) (n m : Nat) :
    ∀ (k t t0 : Nat) (hist : List (Nat × Action)), k + m + 1 = s.mMultiPressNumPresses →
      drive (2 * (m + 1) + n)
        { sim := midRun s cb k .kMultiPressButtonRelease
          now := t0
          timers := [t + s.mMultiPressPressedTimeMillis]
          history := hist ++ pressAt s t } =
      some
        { sim := midRun s cb s.mMultiPressNumPresses .kIdle
          now := t + (m + 1) *
            (s.mMultiPressPressedTimeMillis + s.mMultiPressReleasedTimeMillis)
          timers := []
          history := hist ++ cyclesFrom s (m + 1) k t ++
            [(t + (m + 1) * (s.mMultiPressPressedTimeMillis + s.mMultiPressReleasedTimeMillis),
               .EmitMultiPressComplete s.mEndpointId s.mPressedButtonId
                 s.mMultiPressNumPresses),
             (t + (m + 1) * (s.mMultiPressPressedTimeMillis + s.mMultiPressReleasedTimeMillis),
               .DoneCallback (some cb))] } := by
  induction m with
  | zero =>
    intro k t t0 hist hk
    have hk1 : k + 1 = s.mMultiPressNumPresses := by omega
    rw [show 2 * (0 + 1) + n = (n + 1) + 1 by omega]
    rw [drive_succ_of_armed _ _ (by simp), expire_release s cb k _ t0 _ (by omega)]
    rw [if_pos hk1]
    rw [drive_succ_of_armed _ _ (by simp), expire_complete s cb _ _ _ _ hf]
    rw [drive_of_no_timers _ _ rfl]
    simp [cyclesFrom, hk1, Nat.add_assoc]
  | succ m ih =>
    intro k t t0 hist hk
    have hk1 : k + 1 ≠ s.mMultiPressNumPresses := by omega
    rw [show 2 * (m + 1 + 1) + n = ((2 * (m + 1) + n) + 1) + 1 by omega]
    rw [drive_succ_of_armed _ _ (by simp), expire_release s cb k _ t0 _ (by omega)]
    rw [if_neg hk1]
    rw [drive_succ_of_armed _ _ (by simp), expire_press s cb _ _ _ _ hf]
    rw [ih (k + 1) _ _ _ (by omega)]
    have ht : t + s.mMultiPressPressedTimeMillis + s.mMultiPressReleasedTimeMillis +
        (m + 1) * (s.mMultiPressPressedTimeMillis + s.mMultiPressReleasedTimeMillis) =
        t + (m + 1 + 1) *
          (s.mMultiPressPressedTimeMillis + s.mMultiPressReleasedTimeMillis) := by ring
    rw [ht]
    simp [cyclesFrom, List.append_assoc]

/-- The complete run of an accepted multi-press configuration without the
action-switch feature, on an object whose press counter is 0: `2 * N`
expiries, `N` cycles, then `MultiPressComplete` and the callback. -/
theorem run_multi_press (s : ButtonEventsSimulator) (cb : Nat)
    (hne : s.mIdleButtonId ≠ s.mPressedButtonId) (hmode : s.mMode = .kModeMultiPress)
    (h1 : s.mMultiPressPressedTimeMillis > 0) (h2 : s.mMultiPressReleasedTimeMillis > 0)
    (h3 : s.mMultiPressNumPresses > 0)
    (hf : hasFeature s.mFeatureMap Feature.kActionSwitch = false)
    (hfresh : s.mMultiPressPressesDone = 0)
    (hN : s.mMultiPressNumPresses < 2 ^ 8) (n : Nat) :
    run (2 * s.mMultiPressNumPresses + n) s cb = some
      { sim := midRun s cb s.mMultiPressNumPresses .kIdle
        now := s.mMultiPressNumPresses *
          (s.mMultiPressPressedTimeMillis + s.mMultiPressReleasedTimeMillis)
        timers := []
        history := cyclesFrom s s.mMultiPressNumPresses 0 0 ++
          [(s.mMultiPressNumPresses *
              (s.mMultiPressPressedTimeMillis + s.mMultiPressReleasedTimeMillis),
             .EmitMultiPressComplete s.mEndpointId s.mPressedButtonId s.mMultiPressNumPresses),
           (s.mMultiPressNumPresses *
              (s.mMultiPressPressedTimeMillis + s.mMultiPressReleasedTimeMillis),
             .DoneCallback (some cb))] } := by
  obtain ⟨m, hm⟩ : ∃ m, s.mMultiPressNumPresses = m + 1 := ⟨s.mMultiPressNumPresses - 1, by omega⟩
  have hd := drive_cycles s cb hf hN n m 0 0 0 [] (by omega)
  simp only [Nat.zero_add, List.nil_append] at hd
  rw [run, launch_multi_press s cb hne hmode h1 h2 h3 hf, hfresh, hm, hd, hm]

/-- No cycle contains a `MultiPressComplete` or a callback invocation. -/
theorem cyclesFrom_no_completion (s : ButtonEventsSimulator) (m : Nat) :
    ∀ k t, ((cyclesFrom s m k t).map Prod.snd).filter Action.isMultiPressComplete = [] ∧
      ((cyclesFrom s m k t).map Prod.snd).filter Action.isDoneCallback = [] := by
  induction m with
  | zero => intro k t; simp [cyclesFrom]
  | succ m ih =>
    intro k t
    by_cases h5 : 0 < k <;>
      by_cases h6 : hasFeature s.mFeatureMap Feature.kMomentarySwitchRelease = true <;>
      simp [cyclesFrom, pressAt, releaseAt, List.filter_append, ih, h5, h6,
        Action.isMultiPressComplete, Action.isDoneCallback]

/-- Each cycle contains exactly one `InitialPress`. -/
theorem cyclesFrom_initial_press (s : ButtonEventsSimulator) (m : Nat) :
    ∀ k t, ((cyclesFrom s m k t).map Prod.snd).filter Action.isInitialPress =
      List.replicate m (.EmitInitialPress s.mEndpointId s.mPressedButtonId) := by
  induction m with
  | zero => intro k t; simp [cyclesFrom]
  | succ m ih =>
    intro k t
    by_cases h5 : 0 < k <;>
      by_cases h6 : hasFeature s.mFeatureMap Feature.kMomentarySwitchRelease = true <;>
      simp [cyclesFrom, pressAt, releaseAt, List.filter_append, ih, h5, h6,
        Action.isInitialPress, List.replicate_succ]

/-- With the short-release feature each cycle is a press followed by a
release, without it each cycle is a press alone. -/
theorem cyclesFrom_press_release (s : ButtonEventsSimulator) (m : Nat) :
    ∀ k t, ((cyclesFrom s m k t).map Prod.snd).filter
        (fun a => a.isInitialPress || a.isShortRelease) =
      if hasFeature s.mFeatureMap Feature.kMomentarySwitchRelease then
        (List.replicate m [Action.EmitInitialPress s.mEndpointId s.mPressedButtonId,
          Action.EmitShortRelease s.mEndpointId s.mPressedButtonId]).flatten
      else List.replicate m (.EmitInitialPress s.mEndpointId s.mPressedButtonId) := by
  induction m with
  | zero => intro k t; simp [cyclesFrom]
  | succ m ih =>
    intro k t
    simp only [cyclesFrom, List.map_append, List.filter_append, ih]
    by_cases h5 : 0 < k <;>
      by_cases h6 : hasFeature s.mFeatureMap Feature.kMomentarySwitchRelease = true <;>
      simp [pressAt, releaseAt, h5, h6, Action.isInitialPress, Action.isShortRelease,
        List.replicate_succ]

/-- From the second cycle on, each cycle is a press followed by one
`MultiPressOngoing` carrying the number of the press. -/
theorem cyclesFrom_press_ongoing (s : ButtonEventsSimulator) (m : Nat) :
    ∀ k t, 0 < k → ((cyclesFrom s m k t).map Prod.snd).filter
        (fun a => a.isInitialPress || a.isMultiPressOngoing) =
      ((List.range' (k + 1) m).map (fun c =>
        [Action.EmitInitialPress s.mEndpointId s.mPressedButtonId,
         Action.EmitMultiPressOngoing s.mEndpointId s.mPressedButtonId c])).flatten := by
  induction m with
  | zero => intro k t _; simp [cyclesFrom]
  | succ m ih =>
    intro k t hk
    simp only [cyclesFrom, List.map_append, List.filter_append, ih _ _ (Nat.succ_pos k)]
    by_cases h6 : hasFeature s.mFeatureMap Feature.kMomentarySwitchRelease = true <;>
      simp [pressAt, releaseAt, hk, h6, Action.isInitialPress, Action.isMultiPressOngoing,
        List.range'_succ]

/-- From the second cycle on, each cycle contains one `MultiPressOngoing`
carrying the number of the press. -/
theorem cyclesFrom_ongoing (s : ButtonEventsSimulator) (m : Nat) :
    ∀ k t, 0 < k → ((cyclesFrom s m k t).map Prod.snd).filter Action.isMultiPressOngoing =
      (List.range' (k + 1) m).map (fun c =>
        Action.EmitMultiPressOngoing s.mEndpointId s.mPressedButtonId c) := by
  induction m with
  | zero => intro k t _; simp [cyclesFrom]
  | succ m ih =>
    intro k t hk
    by_cases h6 : hasFeature s.mFeatureMap Feature.kMomentarySwitchRelease = true <;>
      simp [cyclesFrom, pressAt, releaseAt, List.filter_append, ih, hk, h6,
        Action.isMultiPressOngoing, List.range'_succ]

/-- Counted from a press counter of 0, the first cycle has no
`MultiPressOngoing` and each later cycle has one, numbered from 2. -/
theorem cyclesFrom_zero_ongoing (s : ButtonEventsSimulator) (m t : Nat) :
    ((cyclesFrom s (m + 1) 0 t).map Prod.snd).filter Action.isMultiPressOngoing =
        (List.range' 2 m).map (fun c =>
          Action.EmitMultiPressOngoing s.mEndpointId s.mPressedButtonId c) ∧
    ((cyclesFrom s (m + 1) 0 t).map Prod.snd).filter
        (fun a => a.isInitialPress || a.isMultiPressOngoing) =
      .EmitInitialPress s.mEndpointId s.mPressedButtonId ::
        ((List.range' 2 m).map (fun c =>
          [Action.EmitInitialPress s.mEndpointId s.mPressedButtonId,
           Action.EmitMultiPressOngoing s.mEndpointId s.mPressedButtonId c])).flatten := by
  constructor
  · simp only [cyclesFrom, List.map_append, List.filter_append,
      cyclesFrom_ongoing s m _ _ Nat.one_pos]
    by_cases h6 : hasFeature s.mFeatureMap Feature.kMomentarySwitchRelease = true <;>
      simp [pressAt, releaseAt, h6, Action.isMultiPressOngoing]
  · simp only [cyclesFrom, List.map_append, List.filter_append,
      cyclesFrom_press_ongoing s m _ _ Nat.one_pos]
    by_cases h6 : hasFeature s.mFeatureMap Feature.kMomentarySwitchRelease = true <;>
      simp [pressAt, releaseAt, h6, Action.isInitialPress, Action.isMultiPressOngoing]

/-- C8: a valid multi-press run without the action-switch feature, target
count `N`, started with the press counter at 0, runs to the idle state and
emits `InitialPress` exactly `N` times, once per cycle, alternating with
`ShortRelease` when the short-release feature is on; `MultiPressOngoing`
exactly `N - 1` times, once after each press but the first, numbered 2 to `N`;
`MultiPressComplete` exactly once, with count `N`; and the callback exactly
once, as the last action, right after `MultiPressComplete`. -/
theorem multi_press_event_counts (s : ButtonEventsSimulator) (cb : Nat)
    (hv : Valid s) (hmode : s.mMode = .kModeMultiPress)
    (hf : hasFeature s.mFeatureMap Feature.kActionSwitch = false)
    (hfresh : s.mMultiPressPressesDone = 0)
    (hN : s.mMultiPressNumPresses < 2 ^ 8)
    (fuel : Nat) (hfuel : 2 * s.mMultiPressNumPresses ≤ fuel) :
    ∃ w, run fuel s cb = some w ∧ w.sim.mState = .kIdle ∧ w.timers = [] ∧
      w.actions.countP Action.isInitialPress = s.mMultiPressNumPresses ∧
      w.actions.filter Action.isInitialPress =
        List.replicate s.mMultiPressNumPresses
          (.EmitInitialPress s.mEndpointId s.mPressedButtonId) ∧
      w.actions.filter (fun a => a.isInitialPress || a.isShortRelease) =
        (if hasFeature s.mFeatureMap Feature.kMomentarySwitchRelease then
          (List.replicate s.mMultiPressNumPresses
            [Action.EmitInitialPress s.mEndpointId s.mPressedButtonId,
             Action.EmitShortRelease s.mEndpointId s.mPressedButtonId]).flatten
        else
          List.replicate s.mMultiPressNumPresses
            (.EmitInitialPress s.mEndpointId s.mPressedButtonId)) ∧
      w.actions.countP Action.isMultiPressOngoing = s.mMultiPressNumPresses - 1 ∧
      w.actions.filter Action.isMultiPressOngoing =
        (List.range' 2 (s.mMultiPressNumPresses - 1)).map (fun c =>
          Action.EmitMultiPressOngoing s.mEndpointId s.mPressedButtonId c) ∧
      w.actions.filter (fun a => a.isInitialPress || a.isMultiPressOngoing) =
        .EmitInitialPress s.mEndpointId s.mPressedButtonId ::
          ((List.range' 2 (s.mMultiPressNumPresses - 1)).map (fun c =>
            [Action.EmitInitialPress s.mEndpointId s.mPressedButtonId,
             Action.EmitMultiPressOngoing s.mEndpointId s.mPressedButtonId c])).flatten ∧
      w.actions.filter Action.isMultiPressComplete =
        [.EmitMultiPressComplete s.mEndpointId s.mPressedButtonId s.mMultiPressNumPresses] ∧
      w.actions.filter Action.isDoneCallback = [.DoneCallback (some cb)] ∧
      ∃ pre, w.actions = pre ++
        [.EmitMultiPressComplete s.mEndpointId s.mPressedButtonId s.mMultiPressNumPresses,
         .DoneCallback (some cb)] := by
  obtain ⟨hne, hm⟩ := hv
  simp only [hmode] at hm
  obtain ⟨h1, h2, h3⟩ := hm
  obtain ⟨n, rfl⟩ : ∃ n, fuel = 2 * s.mMultiPressNumPresses + n :=
    ⟨fuel - 2 * s.mMultiPressNumPresses, by omega⟩
  obtain ⟨m, hm⟩ : ∃ m, s.mMultiPressNumPresses = m + 1 :=
    ⟨s.mMultiPressNumPresses - 1, by omega⟩
  have hIP := cyclesFrom_initial_press s s.mMultiPressNumPresses 0 0
  have hPR := cyclesFrom_press_release s s.mMultiPressNumPresses 0 0
  have hNC := cyclesFrom_no_completion s s.mMultiPressNumPresses 0 0
  have hOG := cyclesFrom_zero_ongoing s m 0
  rw [← hm] at hOG
  have hm1 : s.mMultiPressNumPresses - 1 = m := by omega
  refine ⟨_, run_multi_press s cb hne hmode h1 h2 h3 hf hfresh hN n, rfl, rfl, ?_, ?_, ?_, ?_,
    ?_, ?_, ?_, ?_, ⟨(cyclesFrom s s.mMultiPressNumPresses 0 0).map Prod.snd, ?_⟩⟩
  · simp [World.actions, List.countP_eq_length_filter, List.filter_append, hIP,
      Action.isInitialPress]
  · simp [World.actions, List.filter_append, hIP, Action.isInitialPress]
  · simp only [World.actions, List.map_append, List.filter_append, hPR]
    simp [Action.isInitialPress, Action.isShortRelease]
  · simp [World.actions, List.countP_eq_length_filter, List.filter_append, hOG.1,
      Action.isMultiPressOngoing, hm1]
  · simp [World.actions, List.filter_append, hOG.1, Action.isMultiPressOngoing, hm1]
  · simp only [World.actions, List.map_append, List.filter_append, hOG.2, hm1]
    simp [Action.isInitialPress, Action.isMultiPressOngoing]
  · simp [World.actions, List.filter_append, hNC.1, Action.isMultiPressComplete]
  · simp [World.actions, List.filter_append, hNC.2, Action.isDoneCallback]
  · simp [World.actions]

/-- Witness of C8: three presses of 300 ms with gaps of 200 ms, short-release
feature on. -/
theorem multi_press_event_counts_witness :
    ∃ w, run 6 (sampleMultiPress 0x16 3) 7 = some w ∧
      w.actions.countP Action.isInitialPress = 3 ∧
      w.actions.countP Action.isMultiPressOngoing = 2 ∧
      w.actions.filter Action.isMultiPressComplete = [.EmitMultiPressComplete 1 1 3] := by
  obtain ⟨w, hw, _, _, h1, _, _, h2, _, _, h3, _⟩ :=
    multi_press_event_counts (sampleMultiPress 0x16 3) 7 (by decide) rfl (by decide) rfl
      (by decide) 6 (by decide)
  exact ⟨w, hw, h1, h2, h3⟩

/-- Every action of `m` cycles started at `t` happens at least one gap before
the end of the last cycle. -/
theorem cyclesFrom_time_bound (s : ButtonEventsSimulator) (m : Nat) :
    ∀ k t, ∀ e ∈ cyclesFrom s m k t, e.1 + s.mMultiPressReleasedTimeMillis ≤
      t + m * (s.mMultiPressPressedTimeMillis + s.mMultiPressReleasedTimeMillis) := by
  induction m with
  | zero => intro k t e he; simp [cyclesFrom] at he
  | succ m ih =>
    intro k t e he
    simp only [cyclesFrom, List.mem_append] at he
    have hexp : t + (m + 1) * (s.mMultiPressPressedTimeMillis + s.mMultiPressReleasedTimeMillis)
        = t + s.mMultiPressPressedTimeMillis + s.mMultiPressReleasedTimeMillis +
          m * (s.mMultiPressPressedTimeMillis + s.mMultiPressReleasedTimeMillis) := by ring
    rcases he with (he | he) | he
    · have : e.1 = t := by
        simp only [pressAt, List.mem_cons, List.mem_singleton, List.not_mem_nil, or_false] at he
        rcases he with rfl | rfl | rfl <;> rfl
      omega
    · have : e.1 = t + s.mMultiPressPressedTimeMillis := by
        simp only [releaseAt, List.mem_append, List.mem_cons, List.not_mem_nil, or_false] at he
        rcases he with (he | he) | he
        · split at he
          · rw [List.mem_singleton.mp he]
          · simp at he
        · split at he
          · rw [List.mem_singleton.mp he]
          · simp at he
        · rcases he with rfl | rfl <;> rfl
      omega
    · have := ih _ _ e he
      omega

/-- The last of `m + 1` cycles started at `t` sets the position back to idle
one hold period into that cycle. -/
theorem cyclesFrom_last_release (s : ButtonEventsSimulator) (m : Nat) :
    ∀ k t, (t + m * (s.mMultiPressPressedTimeMillis + s.mMultiPressReleasedTimeMillis) +
        s.mMultiPressPressedTimeMillis,
      Action.SetButtonPosition s.mEndpointId s.mIdleButtonId) ∈ cyclesFrom s (m + 1) k t := by
  induction m with
  | zero => intro k t; simp [cyclesFrom, releaseAt]
  | succ m ih =>
    intro k t
    rw [cyclesFrom]
    have hexp : t + (m + 1) * (s.mMultiPressPressedTimeMillis + s.mMultiPressReleasedTimeMillis)
        = t + s.mMultiPressPressedTimeMillis + s.mMultiPressReleasedTimeMillis +
          m * (s.mMultiPressPressedTimeMillis + s.mMultiPressReleasedTimeMillis) := by ring
    rw [hexp]
    exact List.mem_append_right _ (ih _ _)

/-- C9, counterexample: for pressed 1, idle 0, hold 300 ms, gap 200 ms, count 2,
action-switch off and short-release on, the timed trace (timer armings left
out) is not the one claimed: `MultiPressComplete` and the callback are not
performed at 800 ms, which is `N * hold + (N - 1) * gap`, but at 1000 ms. -/
theorem multi_press_scenario_counterexample :
    ∃ w, run 4 (sampleMultiPress 0x16 2) 7 = some w ∧
      w.history.filter (fun e => !e.2.isStartTimer) ≠
        [(0, .SetButtonPosition 1 1), (0, .EmitInitialPress 1 1),
         (300, .SetButtonPosition 1 0), (300, .EmitShortRelease 1 1),
         (500, .SetButtonPosition 1 1), (500, .EmitInitialPress 1 1),
         (800, .SetButtonPosition 1 0), (800, .EmitShortRelease 1 1),
         (800, .EmitMultiPressComplete 1 1 2), (800, .DoneCallback (some 7))] ∧
      (2 * 300 + (2 - 1) * 200, Action.EmitMultiPressComplete 1 1 2) ∉ w.history ∧
      (2 * 300 + (2 - 1) * 200, Action.DoneCallback (some 7)) ∉ w.history ∧
      (1000, Action.EmitMultiPressComplete 1 1 2) ∈ w.history ∧
      (1000, Action.DoneCallback (some 7)) ∈ w.history := by
  refine ⟨_, run_multi_press (sampleMultiPress 0x16 2) 7 (by decide) rfl (by decide)
    (by decide) (by decide) (by decide) rfl (by decide) 0, ?_, ?_, ?_, ?_, ?_⟩ <;> decide

/-- C9, amended: for pressed 1, idle 0, hold 300 ms, gap 200 ms, count 2,
action-switch off and short-release on, the timed history is exactly: at 0
`SetPosition(1)`, `InitialPress(1)`; at 300 `ShortRelease(1)`,
`SetPosition(0)`; at 500 `SetPosition(1)`, `InitialPress(1)`; at 800
`MultiPressOngoing(1, 2)`, `ShortRelease(1)`, `SetPosition(0)`; at 1000
`MultiPressComplete(count 2)` and the callback (timers of 300, 200, 300 and
200 in between). In general, in a valid run without the action-switch feature
started with the press counter at 0, `MultiPressComplete` and the callback
are the two last actions, at elapsed time `N * (hold + gap)`, one gap after
the last release, which is at `N * hold + (N - 1) * gap`. -/
theorem multi_press_timed_trace :
    (∀ fuel, 4 ≤ fuel → ∃ w, run fuel (sampleMultiPress 0x16 2) 7 = some w ∧
      w.timers = [] ∧ w.sim.mState = .kIdle ∧
      w.history =
        [(0, .SetButtonPosition 1 1), (0, .EmitInitialPress 1 1), (0, .StartTimer 300),
         (300, .EmitShortRelease 1 1), (300, .SetButtonPosition 1 0), (300, .StartTimer 200),
         (500, .SetButtonPosition 1 1), (500, .EmitInitialPress 1 1), (500, .StartTimer 300),
         (800, .EmitMultiPressOngoing 1 1 2), (800, .EmitShortRelease 1 1),
         (800, .SetButtonPosition 1 0), (800, .StartTimer 200),
         (1000, .EmitMultiPressComplete 1 1 2), (1000, .DoneCallback (some 7))]) ∧
    (∀ (s : ButtonEventsSimulator) (cb : Nat), Valid s → s.mMode = .kModeMultiPress →
      hasFeature s.mFeatureMap Feature.kActionSwitch = false →
      s.mMultiPressPressesDone = 0 → s.mMultiPressNumPresses < 2 ^ 8 →
      ∀ fuel, 2 * s.mMultiPressNumPresses ≤ fuel →
      ∃ w pre, run fuel s cb = some w ∧ w.timers = [] ∧ w.sim.mState = .kIdle ∧
        w.history = pre ++
          [(s.mMultiPressNumPresses *
              (s.mMultiPressPressedTimeMillis + s.mMultiPressReleasedTimeMillis),
             .EmitMultiPressComplete s.mEndpointId s.mPressedButtonId s.mMultiPressNumPresses),
           (s.mMultiPressNumPresses *
              (s.mMultiPressPressedTimeMillis + s.mMultiPressReleasedTimeMillis),
             .DoneCallback (some cb))] ∧
        (s.mMultiPressNumPresses * s.mMultiPressPressedTimeMillis +
            (s.mMultiPressNumPresses - 1) * s.mMultiPressReleasedTimeMillis,
          Action.SetButtonPosition s.mEndpointId s.mIdleButtonId) ∈ pre ∧
        (∀ e ∈ pre, e.1 ≤ s.mMultiPressNumPresses * s.mMultiPressPressedTimeMillis +
            (s.mMultiPressNumPresses - 1) * s.mMultiPressReleasedTimeMillis) ∧
        s.mMultiPressNumPresses * s.mMultiPressPressedTimeMillis +
            (s.mMultiPressNumPresses - 1) * s.mMultiPressReleasedTimeMillis +
            s.mMultiPressReleasedTimeMillis =
          s.mMultiPressNumPresses *
            (s.mMultiPressPressedTimeMillis + s.mMultiPressReleasedTimeMillis)) := by
  constructor
  · intro fuel hfuel
    obtain ⟨n, rfl⟩ : ∃ n, fuel = 2 * (sampleMultiPress 0x16 2).mMultiPressNumPresses + n :=
      ⟨fuel - 4, by simp [sampleMultiPress]; omega⟩
    refine ⟨_, run_multi_press (sampleMultiPress 0x16 2) 7 (by decide) rfl (by decide)
      (by decide) (by decide) (by decide) rfl (by decide) n, rfl, rfl, ?_⟩
    decide
  · intro s cb hv hmode hf hfresh hN fuel hfuel
    obtain ⟨hne, hm⟩ := hv
    simp only [hmode] at hm
    obtain ⟨h1, h2, h3⟩ := hm
    obtain ⟨n, rfl⟩ : ∃ n, fuel = 2 * s.mMultiPressNumPresses + n :=
      ⟨fuel - 2 * s.mMultiPressNumPresses, by omega⟩
    obtain ⟨m, hm⟩ : ∃ m, s.mMultiPressNumPresses = m + 1 :=
      ⟨s.mMultiPressNumPresses - 1, by omega⟩
    have hsum : s.mMultiPressNumPresses * s.mMultiPressPressedTimeMillis +
        (s.mMultiPressNumPresses - 1) * s.mMultiPressReleasedTimeMillis +
        s.mMultiPressReleasedTimeMillis =
        s.mMultiPressNumPresses *
          (s.mMultiPressPressedTimeMillis + s.mMultiPressReleasedTimeMillis) := by
      rw [hm, Nat.add_sub_cancel]; ring
    have hlast : s.mMultiPressNumPresses * s.mMultiPressPressedTimeMillis +
        (s.mMultiPressNumPresses - 1) * s.mMultiPressReleasedTimeMillis =
        0 + m * (s.mMultiPressPressedTimeMillis + s.mMultiPressReleasedTimeMillis) +
          s.mMultiPressPressedTimeMillis := by
      rw [hm, Nat.add_sub_cancel]; ring
    refine ⟨_, cyclesFrom s s.mMultiPressNumPresses 0 0,
      run_multi_press s cb hne hmode h1 h2 h3 hf hfresh hN n, rfl, rfl, rfl, ?_, ?_, hsum⟩
    · rw [hlast, hm]
      exact cyclesFrom_last_release s m 0 0
    · intro e he
      have := cyclesFrom_time_bound s s.mMultiPressNumPresses 0 0 e he
      omega

/-- Witness of C9 (amended): three presses of 300 ms with gaps of 200 ms
complete at 1500 ms. -/
theorem multi_press_timed_trace_witness :
    ∃ w pre, run 6 (sampleMultiPress 0x16 3) 7 = some w ∧ w.timers = [] ∧
      w.sim.mState = .kIdle ∧
      w.history = pre ++
        [(3 * (300 + 200), .EmitMultiPressComplete 1 1 3),
         (3 * (300 + 200), .DoneCallback (some 7))] ∧
      (3 * 300 + (3 - 1) * 200, Action.SetButtonPosition 1 0) ∈ pre ∧
      (∀ e ∈ pre, e.1 ≤ 3 * 300 + (3 - 1) * 200) ∧
      3 * 300 + (3 - 1) * 200 + 200 = 3 * (300 + 200) :=
  multi_press_timed_trace.2 (sampleMultiPress 0x16 3) 7 (by decide) rfl (by decide) rfl
    (by decide) 6 (by decide)

/-- C10, counterexample: the valid two-press sample without the action-switch
feature, started with the press counter at 0, does emit `MultiPressOngoing`,
with count 2. -/
theorem multi_press_two_ongoing_counterexample :
    Valid (sampleMultiPress 0x16 2) ∧
    hasFeature (sampleMultiPress 0x16 2).mFeatureMap Feature.kActionSwitch = false ∧
    (sampleMultiPress 0x16 2).mMultiPressPressesDone = 0 ∧
    ∃ w, run 4 (sampleMultiPress 0x16 2) 7 = some w ∧ w.sim.mState = .kIdle ∧
      Action.EmitMultiPressOngoing 1 1 2 ∈ w.actions := by
  refine ⟨by decide, by decide, rfl, _,
    run_multi_press (sampleMultiPress 0x16 2) 7 (by decide) rfl (by decide)
      (by decide) (by decide) (by decide) rfl (by decide) 0, rfl, ?_⟩
  decide

/-- C10, amended: in a valid multi-press run without the action-switch
feature, with target count 2 and the press counter at 0 at the start,
`MultiPressOngoing` is emitted exactly once, with count 2, in the step of the
second release at `2 * hold + gap`, one gap before `MultiPressComplete`
at `2 * (hold + gap)`. -/
theorem multi_press_two_ongoing (s : ButtonEventsSimulator) (cb : Nat)
    (hv : Valid s) (hmode : s.mMode = .kModeMultiPress)
    (hf : hasFeature s.mFeatureMap Feature.kActionSwitch = false)
    (hfresh : s.mMultiPressPressesDone = 0)
    (htwo : s.mMultiPressNumPresses = 2)
    (fuel : Nat) (hfuel : 4 ≤ fuel) :
    ∃ w, run fuel s cb = some w ∧ w.sim.mState = .kIdle ∧ w.timers = [] ∧
      w.history.filter (fun e => e.2.isMultiPressOngoing) =
        [(2 * s.mMultiPressPressedTimeMillis + s.mMultiPressReleasedTimeMillis,
          .EmitMultiPressOngoing s.mEndpointId s.mPressedButtonId 2)] ∧
      w.history.filter (fun e => e.2.isMultiPressComplete) =
        [(2 * (s.mMultiPressPressedTimeMillis + s.mMultiPressReleasedTimeMillis),
          .EmitMultiPressComplete s.mEndpointId s.mPressedButtonId 2)] := by
  obtain ⟨hne, hm⟩ := hv
  simp only [hmode] at hm
  obtain ⟨h1, h2, h3⟩ := hm
  obtain ⟨n, rfl⟩ : ∃ n, fuel = 2 * s.mMultiPressNumPresses + n :=
    ⟨fuel - 2 * s.mMultiPressNumPresses, by omega⟩
  have ht : s.mMultiPressPressedTimeMillis + s.mMultiPressReleasedTimeMillis +
      s.mMultiPressPressedTimeMillis =
      2 * s.mMultiPressPressedTimeMillis + s.mMultiPressReleasedTimeMillis := by omega
  refine ⟨_, run_multi_press s cb hne hmode h1 h2 h3 hf hfresh (by omega) n, rfl, rfl, ?_, ?_⟩
  · rw [htwo]
    by_cases h6 : hasFeature s.mFeatureMap Feature.kMomentarySwitchRelease = true <;>
      simp [cyclesFrom, pressAt, releaseAt, h6, Action.isMultiPressOngoing, ht]
  · rw [htwo]
    by_cases h6 : hasFeature s.mFeatureMap Feature.kMomentarySwitchRelease = true <;>
      simp [cyclesFrom, pressAt, releaseAt, h6, Action.isMultiPressComplete]

/-- Witness of C10 (amended): the two-press sample, hold 300 ms, gap 200 ms. -/
theorem multi_press_two_ongoing_witness :
    ∃ w, run 4 (sampleMultiPress 0x16 2) 7 = some w ∧ w.sim.mState = .kIdle ∧ w.timers = [] ∧
      w.history.filter (fun e => e.2.isMultiPressOngoing) =
        [(2 * 300 + 200, .EmitMultiPressOngoing 1 1 2)] ∧
      w.history.filter (fun e => e.2.isMultiPressComplete) =
        [(2 * (300 + 200), .EmitMultiPressComplete 1 1 2)] :=
  multi_press_two_ongoing (sampleMultiPress 0x16 2) 7 (by decide) rfl (by decide) rfl rfl 4
    (by decide)

end ButtonSim

/-! ## The Switch cluster -/

namespace SwitchServer

open ButtonSim

/-- A position is valid exactly when it is below the number of positions. -/
theorem positionIsValid_iff (c : SwitchCluster) (p : Nat) :
    c.PositionIsValid p = true ↔ p < c.mNumberOfPositions := by
  simp only [SwitchCluster.PositionIsValid, decide_eq_true_eq]
  omega

/-- Without a context no event is generated. -/
theorem generate_not_started (c : SwitchCluster) (b : Bool) (e : SwitchEvent)
    (h : c.mContext = none) : c.generate b e = (none, c) := by
  simp [SwitchCluster.generate, h]

/-- With the condition unmet no event is generated. -/
theorem generate_unsupported (c : SwitchCluster) (e : SwitchEvent) :
    c.generate false e = (none, c) := by
  unfold SwitchCluster.generate
  cases c.mContext <;> simp

/-- With a context and the condition met the event goes to the generator. -/
theorem generate_supported (c : SwitchCluster) (g : EventsGenerator) (e : SwitchEvent)
    (h : c.mContext = some g) :
    c.generate true e =
      (g.respond g.submitted e c.mEndpointId,
        { c with
          mContext := some ({ g with submitted := g.submitted ++ [(e, c.mEndpointId)] }) }) := by
  simp [SwitchCluster.generate, h, EventsGenerator.GenerateEvent]

/-- With a context and the condition met: the generator's answer and the
cluster with the one event submitted. -/
theorem generate_submits (c : SwitchCluster) (g : EventsGenerator) (e : SwitchEvent)
    (b : Bool) (h : c.mContext = some g) (hb : b = true) :
    c.generate b e = (g.respond g.submitted e c.mEndpointId, c.withSubmitted g e) := by
  rw [hb, generate_supported c g e h]
  rfl

/-- C16: on a Switch cluster with `n >= 2` positions, `SetCurrentPosition(p)`
with `p <= n - 1` returns success and `GetCurrentPosition` then returns `p`. -/
theorem set_current_position_valid (c : SwitchCluster) (n p : Nat)
    (hn : c.mNumberOfPositions = n) (h2 : n ≥ 2) (hp : p ≤ n - 1) :
    (c.SetCurrentPosition p).1 = .CHIP_NO_ERROR ∧
    (c.SetCurrentPosition p).2.GetCurrentPosition = p := by
  have hv : c.PositionIsValid p = true := (positionIsValid_iff c p).2 (by omega)
  simp [SwitchCluster.SetCurrentPosition, hv, SwitchCluster.GetCurrentPosition,
    SwitchCluster.SetAttributeValue]

/-- Witness of C16: four positions, set to 0, 1, 2 and 3 in turn. -/
theorem set_current_position_valid_witness :
    ((sampleCluster 0 4 0).SetCurrentPosition 0).1 = .CHIP_NO_ERROR ∧
    ((sampleCluster 0 4 0).SetCurrentPosition 0).2.GetCurrentPosition = 0 ∧
    (((sampleCluster 0 4 0).SetCurrentPosition 0).2.SetCurrentPosition 1).2.GetCurrentPosition
      = 1 ∧
    ((sampleCluster 0 4 0).SetCurrentPosition 2).2.GetCurrentPosition = 2 ∧
    ((sampleCluster 0 4 0).SetCurrentPosition 3).1 = .CHIP_NO_ERROR ∧
    ((sampleCluster 0 4 0).SetCurrentPosition 3).2.GetCurrentPosition = 3 :=
  ⟨(set_current_position_valid (sampleCluster 0 4 0) 4 0 rfl (by decide) (by decide)).1,
   (set_current_position_valid (sampleCluster 0 4 0) 4 0 rfl (by decide) (by decide)).2,
   (set_current_position_valid ((sampleCluster 0 4 0).SetCurrentPosition 0).2 4 1 rfl
      (by decide) (by decide)).2,
   (set_current_position_valid (sampleCluster 0 4 0) 4 2 rfl (by decide) (by decide)).2,
   (set_current_position_valid (sampleCluster 0 4 0) 4 3 rfl (by decide) (by decide)).1,
   (set_current_position_valid (sampleCluster 0 4 0) 4 3 rfl (by decide) (by decide)).2⟩

/-- C17: on a Switch cluster with `n` positions, `SetCurrentPosition(p)` with
`p >= n` returns `CHIP_ERROR_INVALID_ARGUMENT` and leaves the cluster, hence
what `GetCurrentPosition` returns, unchanged. -/
theorem set_current_position_invalid (c : SwitchCluster) (n p : Nat)
    (hn : c.mNumberOfPositions = n) (hp : p ≥ n) :
    (c.SetCurrentPosition p).1 = .CHIP_ERROR_INVALID_ARGUMENT ∧
    (c.SetCurrentPosition p).2.GetCurrentPosition = c.GetCurrentPosition ∧
    (c.SetCurrentPosition p).2 = c := by
  have hv : c.PositionIsValid p = false := by
    rw [← Bool.not_eq_true, positionIsValid_iff]
    omega
  simp [SwitchCluster.SetCurrentPosition, hv]

/-- Witness of C17: four positions, current position 3, set to 4. -/
theorem set_current_position_invalid_witness :
    (((sampleCluster 0 4 0).SetCurrentPosition 3).2.SetCurrentPosition 4).1
      = .CHIP_ERROR_INVALID_ARGUMENT ∧
    (((sampleCluster 0 4 0).SetCurrentPosition 3).2.SetCurrentPosition 4).2.GetCurrentPosition
      = 3 :=
  ⟨(set_current_position_invalid ((sampleCluster 0 4 0).SetCurrentPosition 3).2 4 4 rfl
      (by decide)).1,
   (set_current_position_invalid ((sampleCluster 0 4 0).SetCurrentPosition 3).2 4 4 rfl
      (by decide)).2.1⟩

/-- C18: each of the seven event functions returns an absent result and
leaves the cluster untouched, so that nothing reaches the events generator,
whenever the cluster has not been started, or the feature it requires is
unset (for `OnMultiPressOngoing`: the multi-press feature is unset or the
action-switch feature is set), or the position is at or above the number of
positions. -/
theorem events_absent_when_unsupported (c : SwitchCluster) (p count : Nat) :
    ((c.mContext = none ∨ hasFeature c.mFeatures Feature.kLatchingSwitch = false ∨
        p ≥ c.mNumberOfPositions) → c.OnSwitchLatch p = (none, c)) ∧
    ((c.mContext = none ∨ hasFeature c.mFeatures Feature.kMomentarySwitch = false ∨
        p ≥ c.mNumberOfPositions) → c.OnInitialPress p = (none, c)) ∧
    ((c.mContext = none ∨ hasFeature c.mFeatures Feature.kMomentarySwitchLongPress = false ∨
        p ≥ c.mNumberOfPositions) → c.OnLongPress p = (none, c)) ∧
    ((c.mContext = none ∨ hasFeature c.mFeatures Feature.kMomentarySwitchLongPress = false ∨
        p ≥ c.mNumberOfPositions) → c.OnLongRelease p = (none, c)) ∧
    ((c.mContext = none ∨ hasFeature c.mFeatures Feature.kMomentarySwitchRelease = false ∨
        p ≥ c.mNumberOfPositions) → c.OnShortRelease p = (none, c)) ∧
    ((c.mContext = none ∨ hasFeature c.mFeatures Feature.kMomentarySwitchMultiPress = false ∨
        hasFeature c.mFeatures Feature.kActionSwitch = true ∨
        p ≥ c.mNumberOfPositions) → c.OnMultiPressOngoing p count = (none, c)) ∧
    ((c.mContext = none ∨ hasFeature c.mFeatures Feature.kMomentarySwitchMultiPress = false ∨
        p ≥ c.mNumberOfPositions) → c.OnMultiPressComplete p count = (none, c)) := by
  have hpos : p ≥ c.mNumberOfPositions → c.PositionIsValid p = false := by
    intro hp
    rw [← Bool.not_eq_true, positionIsValid_iff]
    omega
  refine ⟨?_, ?_, ?_, ?_, ?_, ?_, ?_⟩
  · rintro (h | h | h)
    · exact generate_not_started c _ _ h
    · simp [SwitchCluster.OnSwitchLatch, h, generate_unsupported]
    · simp [SwitchCluster.OnSwitchLatch, hpos h, generate_unsupported]
  · rintro (h | h | h)
    · exact generate_not_started c _ _ h
    · simp [SwitchCluster.OnInitialPress, h, generate_unsupported]
    · simp [SwitchCluster.OnInitialPress, hpos h, generate_unsupported]
  · rintro (h | h | h)
    · exact generate_not_started c _ _ h
    · simp [SwitchCluster.OnLongPress, h, generate_unsupported]
    · simp [SwitchCluster.OnLongPress, hpos h, generate_unsupported]
  · rintro (h | h | h)
    · exact generate_not_started c _ _ h
    · simp [SwitchCluster.OnLongRelease, h, generate_unsupported]
    · simp [SwitchCluster.OnLongRelease, hpos h, generate_unsupported]
  · rintro (h | h | h)
    · exact generate_not_started c _ _ h
    · simp [SwitchCluster.OnShortRelease, h, generate_unsupported]
    · simp [SwitchCluster.OnShortRelease, hpos h, generate_unsupported]
  · rintro (h | h | h | h)
    · exact generate_not_started c _ _ h
    · simp [SwitchCluster.OnMultiPressOngoing, h, generate_unsupported]
    · simp [SwitchCluster.OnMultiPressOngoing, h, generate_unsupported]
    · simp [SwitchCluster.OnMultiPressOngoing, hpos h, generate_unsupported]
  · rintro (h | h | h)
    · exact generate_not_started c _ _ h
    · simp [SwitchCluster.OnMultiPressComplete, h, generate_unsupported]
    · simp [SwitchCluster.OnMultiPressComplete, hpos h, generate_unsupported]

/-- Witness of C18: a started latching-only cluster with four positions
answers `OnInitialPress(0)` with nothing, and a started cluster with all four
momentary features answers `OnLongPress(5)` with nothing. -/
theorem events_absent_when_unsupported_witness :
    ((sampleCluster 0x1 4 2).OnInitialPress 0).1 = none ∧
    ((sampleCluster 0x1E 4 2).OnLongPress 5).1 = none :=
  ⟨congrArg Prod.fst ((events_absent_when_unsupported (sampleCluster 0x1 4 2) 0 1).2.1
      (Or.inr (Or.inl (by decide)))),
   congrArg Prod.fst ((events_absent_when_unsupported (sampleCluster 0x1E 4 2) 5 1).2.2.1
      (Or.inr (Or.inr (by decide))))⟩

/-- C19: on a started cluster, with events generator `g`, each event function
whose required feature is set and whose position is at most the number of
positions minus one hands exactly one event of its own type, carrying the
position (and the count for the two multi-press events), to the generator on
the cluster's endpoint and returns the generator's answer; when the generator
accepts every event the result is present. -/
theorem events_submitted_when_supported (c : SwitchCluster) (g : EventsGenerator)
    (p count : Nat) (hstarted : c.mContext = some g)
    (hp : (p : Int) ≤ (c.mNumberOfPositions : Int) - 1) :
    (hasFeature c.mFeatures Feature.kLatchingSwitch = true →
      c.OnSwitchLatch p = (g.respond g.submitted (.SwitchLatched p) c.mEndpointId,
        c.withSubmitted g (.SwitchLatched p))) ∧
    (hasFeature c.mFeatures Feature.kMomentarySwitch = true →
      c.OnInitialPress p = (g.respond g.submitted (.InitialPress p) c.mEndpointId,
        c.withSubmitted g (.InitialPress p))) ∧
    (hasFeature c.mFeatures Feature.kMomentarySwitchLongPress = true →
      c.OnLongPress p = (g.respond g.submitted (.LongPress p) c.mEndpointId,
        c.withSubmitted g (.LongPress p))) ∧
    (hasFeature c.mFeatures Feature.kMomentarySwitchLongPress = true →
      c.OnLongRelease p = (g.respond g.submitted (.LongRelease p) c.mEndpointId,
        c.withSubmitted g (.LongRelease p))) ∧
    (hasFeature c.mFeatures Feature.kMomentarySwitchRelease = true →
      c.OnShortRelease p = (g.respond g.submitted (.ShortRelease p) c.mEndpointId,
        c.withSubmitted g (.ShortRelease p))) ∧
    (hasFeature c.mFeatures Feature.kMomentarySwitchMultiPress = true →
      hasFeature c.mFeatures Feature.kActionSwitch = false →
      c.OnMultiPressOngoing p count =
        (g.respond g.submitted (.MultiPressOngoing p count) c.mEndpointId,
          c.withSubmitted g (.MultiPressOngoing p count))) ∧
    (hasFeature c.mFeatures Feature.kMomentarySwitchMultiPress = true →
      c.OnMultiPressComplete p count =
        (g.respond g.submitted (.MultiPressComplete p count) c.mEndpointId,
          c.withSubmitted g (.MultiPressComplete p count))) ∧
    ((∀ before e ep, (g.respond before e ep).isSome = true) →
      ∀ e, (g.respond g.submitted e c.mEndpointId).isSome = true) := by
  have hv : c.PositionIsValid p = true := by
    simp only [SwitchCluster.PositionIsValid, decide_eq_true_eq]
    exact hp
  refine ⟨?_, ?_, ?_, ?_, ?_, ?_, ?_, ?_⟩
  · intro h
    exact generate_submits c g _ _ hstarted (by simp [h, hv])
  · intro h
    exact generate_submits c g _ _ hstarted (by simp [h, hv])
  · intro h
    exact generate_submits c g _ _ hstarted (by simp [h, hv])
  · intro h
    exact generate_submits c g _ _ hstarted (by simp [h, hv])
  · intro h
    exact generate_submits c g _ _ hstarted (by simp [h, hv])
  · intro h h'
    exact generate_submits c g _ _ hstarted (by simp [h, h', hv])
  · intro h
    exact generate_submits c g _ _ hstarted (by simp [h, hv])
  · intro h e
    exact h _ _ _

/-- Witness of C19: a started cluster with the four momentary features and
four positions; `OnMultiPressComplete(3, 1)` is answered with an event number. -/
theorem events_submitted_when_supported_witness :
    ((sampleCluster 0x1E 4 2).OnMultiPressComplete 3 1).1 = some 0 ∧
    ((sampleCluster 0x1E 4 2).OnInitialPress 0).1 = some 0 :=
  ⟨congrArg Prod.fst ((events_submitted_when_supported (sampleCluster 0x1E 4 2)
      countingGenerator 3 1 rfl (by decide)).2.2.2.2.2.2.1 (by decide)),
   congrArg Prod.fst ((events_submitted_when_supported (sampleCluster 0x1E 4 2)
      countingGenerator 0 1 rfl (by decide)).2.1 (by decide))⟩

end SwitchServer

/-! ## Completion of accepted runs -/

namespace ButtonSim

/-- With a timer armed and no fuel the scheduler gives up. -/
theorem drive_zero_of_armed (w : World) (h : w.timers ≠ []) : drive 0 w = none := by
  rw [drive]
  simp [h]

/-- A run that is not over with some fuel is not over with less. -/
theorem drive_none_pred (n : Nat) : ∀ w, drive (n + 1) w = none → drive n w = none := by
  induction n with
  | zero =>
    intro w h
    by_cases ht : w.timers = []
    · rw [drive_of_no_timers _ _ ht] at h
      cases h
    · exact drive_zero_of_armed w ht
  | succ n ih =>
    intro w h
    by_cases ht : w.timers = []
    · rw [drive_of_no_timers _ _ ht] at h
      cases h
    · rw [drive_succ_of_armed _ _ ht] at h
      rw [drive_succ_of_armed _ _ ht]
      exact ih _ h

/-- A run that is not over with some fuel is not over with any smaller fuel. -/
theorem drive_none_of_le (m n : Nat) (w : World) (hle : m ≤ n) (h : drive n w = none) :
    drive m w = none := by
  induction n with
  | zero =>
    have : m = 0 := by omega
    rw [this]
    exact h
  | succ n ih =>
    by_cases hm : m = n + 1
    · rw [hm]
      exact h
    · exact ih (by omega) (drive_none_pred n w h)

/-- The world in which an accepted multi-press `Execute` returns when the
action-switch feature is on. -/
theorem launch_action_switch (s : ButtonEventsSimulator) (cb : Nat)
    (hne : s.mIdleButtonId ≠ s.mPressedButtonId) (hmode : s.mMode = .kModeMultiPress)
    (h1 : s.mMultiPressPressedTimeMillis > 0) (h2 : s.mMultiPressReleasedTimeMillis > 0)
    (h3 : s.mMultiPressNumPresses > 0)
    (hf : hasFeature s.mFeatureMap Feature.kActionSwitch = true) :
    launch s cb =
      { sim := midRun s cb s.mMultiPressPressesDone .kEmitEndOfMultiPress
        now := 0
        timers := [u32 (s.mMultiPressNumPresses *
          u32 (s.mMultiPressPressedTimeMillis + s.mMultiPressReleasedTimeMillis))]
        history :=
          [(0, .SetButtonPosition s.mEndpointId s.mPressedButtonId),
           (0, .EmitInitialPress s.mEndpointId s.mPressedButtonId),
           (0, .StartTimer (u32 (s.mMultiPressNumPresses *
             u32 (s.mMultiPressPressedTimeMillis + s.mMultiPressReleasedTimeMillis))))] } := by
  simp [launch, execute_multi_press s cb hne hmode h1 h2 h3, startSequence, Next, SetState,
    World.absorb, armedTimers, hf, midRun]

/-- The complete run of an accepted multi-press configuration with the
action-switch feature: one timer expiry. -/
theorem run_action_switch (s : ButtonEventsSimulator) (cb : Nat) (n : Nat)
    (hne : s.mIdleButtonId ≠ s.mPressedButtonId) (hmode : s.mMode = .kModeMultiPress)
    (h1 : s.mMultiPressPressedTimeMillis > 0) (h2 : s.mMultiPressReleasedTimeMillis > 0)
    (h3 : s.mMultiPressNumPresses > 0)
    (hf : hasFeature s.mFeatureMap Feature.kActionSwitch = true) :
    run (n + 1) s cb = some
      { sim := midRun s cb s.mMultiPressPressesDone .kIdle
        now := u32 (s.mMultiPressNumPresses *
          u32 (s.mMultiPressPressedTimeMillis + s.mMultiPressReleasedTimeMillis))
        timers := []
        history :=
          [(0, .SetButtonPosition s.mEndpointId s.mPressedButtonId),
           (0, .EmitInitialPress s.mEndpointId s.mPressedButtonId),
           (0, .StartTimer (u32 (s.mMultiPressNumPresses *
             u32 (s.mMultiPressPressedTimeMillis + s.mMultiPressReleasedTimeMillis)))),
           (u32 (s.mMultiPressNumPresses *
              u32 (s.mMultiPressPressedTimeMillis + s.mMultiPressReleasedTimeMillis)),
             .EmitMultiPressComplete s.mEndpointId s.mPressedButtonId
               (if s.mMultiPressNumPresses > s.mMultiPressMax then 0
                else s.mMultiPressNumPresses)),
           (u32 (s.mMultiPressNumPresses *
              u32 (s.mMultiPressPressedTimeMillis + s.mMultiPressReleasedTimeMillis)),
             .DoneCallback (some cb))] } := by
  rw [run, launch_action_switch s cb hne hmode h1 h2 h3 hf]
  rw [drive_succ_of_armed _ _ (by simp), expire_single _ _ rfl]
  rw [drive_of_no_timers]
  all_goals
    by_cases h5 : s.mMultiPressMax < s.mMultiPressNumPresses <;>
      simp [World.absorb, Next, armedTimers, SetState, midRun, hf, h5]

/-- One expiry short of the remaining cycles of a multi-press run, a timer is
still armed. -/
theorem drive_cycles_short (s : ButtonEventsSimulator) (cb : Nat)
    (hf : hasFeature s.mFeatureMap Feature.kActionSwitch = false)
    (hN : s.mMultiPressNumPresses < 2 ^ 8) (m : Nat) :
    ∀ (k t t0 : Nat) (hist : List (Nat × Action)), k + m + 1 = s.mMultiPressNumPresses →
      drive (2 * m + 1)
        { sim := midRun s cb k .kMultiPressButtonRelease
          now := t0
          timers := [t]
          history := hist } = none := by
  induction m with
  | zero =>
    intro k t t0 hist hk
    rw [show 2 * 0 + 1 = 0 + 1 by omega]
    rw [drive_succ_of_armed _ _ (by simp), expire_release s cb k _ t0 _ (by omega)]
    exact drive_zero_of_armed _ (by simp)
  | succ m ih =>
    intro k t t0 hist hk
    have hk1 : k + 1 ≠ s.mMultiPressNumPresses := by omega
    rw [show 2 * (m + 1) + 1 = ((2 * m + 1) + 1) + 1 by omega]
    rw [drive_succ_of_armed _ _ (by simp), expire_release s cb k _ t0 _ (by omega)]
    rw [if_neg hk1]
    rw [drive_succ_of_armed _ _ (by simp), expire_press s cb _ _ _ _ hf]
    exact ih (k + 1) _ _ _ (by omega)

/-- For every accepted configuration, started with the press counter at 0,
the run is over after exactly `expiries s` timer expiries: with that much fuel
or more the scheduler comes to rest in the same world, which is idle, and with
less it does not; the callback is the last action and the only invocation. -/
theorem run_accepted (s : ButtonEventsSimulator) (cb : Nat) (hv : Valid s)
    (hfresh : s.mMultiPressPressesDone = 0) (hN : s.mMultiPressNumPresses < 2 ^ 8) :
    ∃ w pre, (∀ fuel, expiries s ≤ fuel → run fuel s cb = some w) ∧
      (∀ fuel, fuel < expiries s → run fuel s cb = none) ∧
      w.sim.mState = .kIdle ∧ w.timers = [] ∧
      w.actions = pre ++ [.DoneCallback (some cb)] ∧
      pre.filter Action.isDoneCallback = [] := by
  obtain ⟨hne, hm⟩ := hv
  cases hmode : s.mMode
  · simp only [hmode] at hm
    have hK : expiries s = 2 := by simp [expiries, hmode]
    refine ⟨?wa, [.SetButtonPosition s.mEndpointId s.mPressedButtonId,
      .EmitInitialPress s.mEndpointId s.mPressedButtonId,
      .StartTimer s.mLongPressDelayMillis,
      .EmitLongPress s.mEndpointId s.mPressedButtonId,
      .StartTimer (u32 (s.mLongPressDurationMillis + 2 ^ 32 - s.mLongPressDelayMillis)),
      .SetButtonPosition s.mEndpointId s.mIdleButtonId] ++ longPressRelease s,
      ?a1, ?a2, ?a3, ?a4, ?a5, ?a6⟩
    case a1 =>
      intro fuel hfuel
      obtain ⟨n, rfl⟩ : ∃ n, fuel = n + 2 := ⟨fuel - 2, by omega⟩
      exact run_long_press s cb n hne hmode hm
    case a2 =>
      intro fuel hfuel
      apply drive_none_of_le fuel 1 _ (by omega)
      rw [launch_long_press s cb hne hmode hm]
      rw [drive_succ_of_armed _ _ (by simp), expire_single _ _ rfl]
      exact drive_zero_of_armed _ (by simp [World.absorb, Next, armedTimers, SetState])
    case a3 =>
      rfl
    case a4 =>
      rfl
    case a5 =>
      simp [World.actions, Function.comp_def]
    case a6 =>
      by_cases h5 : hasFeature s.mFeatureMap Feature.kMomentarySwitchLongPress = true <;>
        by_cases h6 : hasFeature s.mFeatureMap Feature.kMomentarySwitchRelease = true <;>
        simp [longPressRelease, Action.isDoneCallback, h5, h6]
  · simp only [hmode] at hm
    obtain ⟨h1, h2, h3⟩ := hm
    by_cases hf : hasFeature s.mFeatureMap Feature.kActionSwitch = true
    · have hK : expiries s = 1 := by simp [expiries, hmode, hf]
      refine ⟨?wb, [.SetButtonPosition s.mEndpointId s.mPressedButtonId,
        .EmitInitialPress s.mEndpointId s.mPressedButtonId,
        .StartTimer (u32 (s.mMultiPressNumPresses *
          u32 (s.mMultiPressPressedTimeMillis + s.mMultiPressReleasedTimeMillis))),
        .EmitMultiPressComplete s.mEndpointId s.mPressedButtonId
          (if s.mMultiPressNumPresses > s.mMultiPressMax then 0
           else s.mMultiPressNumPresses)], ?b1, ?b2, ?b3, ?b4, ?b5, ?b6⟩
      case b1 =>
        intro fuel hfuel
        obtain ⟨n, rfl⟩ : ∃ n, fuel = n + 1 := ⟨fuel - 1, by omega⟩
        exact run_action_switch s cb n hne hmode h1 h2 h3 hf
      case b2 =>
        intro fuel hfuel
        have h0 : fuel = 0 := by omega
        rw [h0, run, launch_action_switch s cb hne hmode h1 h2 h3 hf]
        exact drive_zero_of_armed _ (by simp)
      case b3 =>
        rfl
      case b4 =>
        rfl
      case b5 =>
        simp [World.actions]
      case b6 =>
        simp [Action.isDoneCallback]
    · have hf' : hasFeature s.mFeatureMap Feature.kActionSwitch = false := by
        simpa using hf
      have hK : expiries s = 2 * s.mMultiPressNumPresses := by simp [expiries, hmode, hf']
      refine ⟨?wc, (cyclesFrom s s.mMultiPressNumPresses 0 0).map Prod.snd ++
          [.EmitMultiPressComplete s.mEndpointId s.mPressedButtonId s.mMultiPressNumPresses],
        ?c1, ?c2, ?c3, ?c4, ?c5, ?c6⟩
      case c1 =>
        intro fuel hfuel
        obtain ⟨n, rfl⟩ : ∃ n, fuel = 2 * s.mMultiPressNumPresses + n :=
          ⟨fuel - 2 * s.mMultiPressNumPresses, by omega⟩
        exact run_multi_press s cb hne hmode h1 h2 h3 hf' hfresh hN n
      case c2 =>
        intro fuel hfuel
        obtain ⟨m, hm⟩ : ∃ m, s.mMultiPressNumPresses = m + 1 :=
          ⟨s.mMultiPressNumPresses - 1, by omega⟩
        apply drive_none_of_le fuel (2 * m + 1) _ (by omega)
        rw [launch_multi_press s cb hne hmode h1 h2 h3 hf', hfresh]
        exact drive_cycles_short s cb hf' hN m 0 _ _ _ (by omega)
      case c3 =>
        rfl
      case c4 =>
        rfl
      case c5 =>
        simp [World.actions]
      case c6 =>
        simp [List.filter_append, (cyclesFrom_no_completion s _ 0 0).2, Action.isDoneCallback]

end ButtonSim

/-! ## The end of a run -/

namespace ButtonSim

/-- C11: in the `kEmitEndOfMultiPress` step the count of `MultiPressComplete`
is 0 when the action-switch feature is active and the target count exceeds
the maximum, and the target count in every other case; a valid action-switch
run whose target count exceeds the maximum emits `MultiPressComplete` once,
with count 0 and not with the target count. -/
theorem multi_press_complete_count (s : ButtonEventsSimulator) (cb : Nat) :
    (s.mState = .kEmitEndOfMultiPress →
      (Next s).2 =
        [.EmitMultiPressComplete s.mEndpointId s.mPressedButtonId
            (if hasFeature s.mFeatureMap Feature.kActionSwitch = true ∧
                s.mMultiPressNumPresses > s.mMultiPressMax then 0
             else s.mMultiPressNumPresses),
         .DoneCallback s.mDoneCallback]) ∧
    (Valid s → s.mMode = .kModeMultiPress →
      hasFeature s.mFeatureMap Feature.kActionSwitch = true →
      s.mMultiPressNumPresses > s.mMultiPressMax →
      ∀ fuel, 1 ≤ fuel → ∃ w, run fuel s cb = some w ∧ w.sim.mState = .kIdle ∧
        w.actions.filter Action.isMultiPressComplete =
          [.EmitMultiPressComplete s.mEndpointId s.mPressedButtonId 0] ∧
        Action.EmitMultiPressComplete s.mEndpointId s.mPressedButtonId
          s.mMultiPressNumPresses ∉ w.actions) := by
  constructor
  · intro hst
    by_cases hf : hasFeature s.mFeatureMap Feature.kActionSwitch = true <;>
      by_cases h5 : s.mMultiPressMax < s.mMultiPressNumPresses <;>
      simp [Next, hst, hf, h5]
  · intro hv hmode hf hmax fuel hfuel
    obtain ⟨hne, hm⟩ := hv
    simp only [hmode] at hm
    obtain ⟨h1, h2, h3⟩ := hm
    obtain ⟨n, rfl⟩ : ∃ n, fuel = n + 1 := ⟨fuel - 1, by omega⟩
    refine ⟨_, run_action_switch s cb n hne hmode h1 h2 h3 hf, rfl, ?_, ?_⟩
    · simp [World.actions, Action.isMultiPressComplete, hmax]
    · simp only [World.actions, List.map_cons, List.map_nil, if_pos hmax]
      simp
      omega

/-- Witness of C11: five presses against a maximum of 2, action-switch on. -/
theorem multi_press_complete_count_witness :
    ∃ w, run 1 (sampleMultiPress 0x36 5) 7 = some w ∧ w.sim.mState = .kIdle ∧
      w.actions.filter Action.isMultiPressComplete = [.EmitMultiPressComplete 1 1 0] ∧
      Action.EmitMultiPressComplete 1 1 5 ∉ w.actions :=
  (multi_press_complete_count (sampleMultiPress 0x36 5) 7).2 (by decide) rfl (by decide)
    (by decide) 1 (by decide)

/-- C12: a drive step invokes the callback, once, exactly when it moves the
state from a state other than idle to idle; and an accepted run started with
the press counter at 0 comes to rest, with enough fuel, in an idle world whose
history holds exactly one invocation of the callback, as its last action. -/
theorem callback_exactly_at_idle (s : ButtonEventsSimulator) (cb : Nat) (hv : Valid s)
    (hfresh : s.mMultiPressPressesDone = 0) (hN : s.mMultiPressNumPresses < 2 ^ 8) :
    (∀ x : ButtonEventsSimulator,
      (Next x).2.countP Action.isDoneCallback =
        if x.mState ≠ .kIdle ∧ (Next x).1.mState = .kIdle then 1 else 0) ∧
    ∃ bound w, (∀ fuel, bound ≤ fuel → run fuel s cb = some w) ∧
      w.sim.mState = .kIdle ∧ w.timers = [] ∧
      w.actions.countP Action.isDoneCallback = 1 ∧
      w.actions.getLast? = some (.DoneCallback (some cb)) := by
  constructor
  · intro x
    cases hst : x.mState
    · simp [Next, hst]
    · simp [Next, hst, SetState, Action.isDoneCallback]
    · simp [Next, hst, SetState, Action.isDoneCallback]
    · by_cases h5 : hasFeature x.mFeatureMap Feature.kMomentarySwitchLongPress = true <;>
        by_cases h6 : hasFeature x.mFeatureMap Feature.kMomentarySwitchRelease = true <;>
        simp [Next, hst, SetState, Action.isDoneCallback, h5, h6]
    · by_cases hf : hasFeature x.mFeatureMap Feature.kActionSwitch = true <;>
        simp [Next, hst, SetState, Action.isDoneCallback, hf]
    · by_cases h5 : 1 < u8 (x.mMultiPressPressesDone + 1) <;>
        by_cases h6 : hasFeature x.mFeatureMap Feature.kMomentarySwitchRelease = true <;>
        by_cases h7 : u8 (x.mMultiPressPressesDone + 1) = x.mMultiPressNumPresses <;>
        simp [Next, hst, SetState, Action.isDoneCallback, h5, h6, h7]
    · by_cases hf : hasFeature x.mFeatureMap Feature.kActionSwitch = true <;>
        by_cases h5 : x.mMultiPressMax < x.mMultiPressNumPresses <;>
        simp [Next, hst, SetState, Action.isDoneCallback, hf, h5]
  · obtain ⟨w, pre, hrun, _, hidle, htimers, hact, hpre⟩ := run_accepted s cb hv hfresh hN
    refine ⟨expiries s, w, hrun, hidle, htimers, ?_, ?_⟩
    · rw [hact, List.countP_eq_length_filter, List.filter_append, hpre]
      simp [Action.isDoneCallback]
    · rw [hact]
      simp

/-- Witness of C12: the two-press sample. -/
theorem callback_exactly_at_idle_witness :
    ∃ bound w, (∀ fuel, bound ≤ fuel → run fuel (sampleMultiPress 0x16 2) 7 = some w) ∧
      w.sim.mState = .kIdle ∧ w.timers = [] ∧
      w.actions.countP Action.isDoneCallback = 1 ∧
      w.actions.getLast? = some (.DoneCallback (some 7)) :=
  (callback_exactly_at_idle (sampleMultiPress 0x16 2) 7 (by decide) rfl (by decide)).2

/-- C13: an accepted run started with the press counter at 0 is over, idle
and with no timer armed, after exactly 2 timer expiries in long-press mode,
exactly 1 in multi-press mode with the action-switch feature, and exactly
`2 * N` in multi-press mode without it: the scheduler comes to rest when it
is allowed that many expiries or more, and not when it is allowed fewer. -/
theorem run_expiry_count (s : ButtonEventsSimulator) (cb : Nat) (hv : Valid s)
    (hfresh : s.mMultiPressPressesDone = 0) (hN : s.mMultiPressNumPresses < 2 ^ 8) :
    ∃ w, w.sim.mState = .kIdle ∧ w.timers = [] ∧
      ∀ fuel, run fuel s cb =
        if (match s.mMode with
            | .kModeLongPress => 2
            | .kModeMultiPress =>
                if hasFeature s.mFeatureMap Feature.kActionSwitch then 1
                else 2 * s.mMultiPressNumPresses) ≤ fuel
        then some w else none := by
  obtain ⟨w, pre, hrun, hshort, hidle, htimers, _, _⟩ := run_accepted s cb hv hfresh hN
  refine ⟨w, hidle, htimers, ?_⟩
  intro fuel
  show run fuel s cb = if expiries s ≤ fuel then some w else none
  by_cases h : expiries s ≤ fuel
  · rw [if_pos h]
    exact hrun fuel h
  · rw [if_neg h]
    exact hshort fuel (by omega)

/-- Witness of C13: three presses without the action-switch feature take six
expiries and no fewer. -/
theorem run_expiry_count_witness :
    ∃ w, w.sim.mState = .kIdle ∧ w.timers = [] ∧
      ∀ fuel, run fuel (sampleMultiPress 0x16 3) 7 = if 2 * 3 ≤ fuel then some w else none :=
  run_expiry_count (sampleMultiPress 0x16 3) 7 (by decide) rfl (by decide)

end ButtonSim

/-! ## A second run on the same object -/

namespace ButtonSim

/-- C15, at the failing input: the two-press sample without the action-switch
feature completes its first run after four timer expiries with the press
counter left at 2. A second `Execute` on that object is accepted, but its run
is not the first one again: after the four expiries that completed the first
run it is not idle, a timer is still armed, and it has emitted
`MultiPressOngoing` with the counts 3 and 4; it is still not over after 511
expiries, the byte counter having to wrap around to reach 2. -/
theorem reuse_multi_press_diverges :
    ∃ w1, run 4 (sampleMultiPress 0x16 2) 7 = some w1 ∧ w1.sim.mState = .kIdle ∧
      w1.timers = [] ∧ w1.sim.mMultiPressPressesDone = 2 ∧
      Valid w1.sim ∧ (Execute w1.sim 7).accepted = true ∧
      run 4 w1.sim 7 = none ∧
      ((launch w1.sim 7).after 4).sim.mState ≠ .kIdle ∧
      ((launch w1.sim 7).after 4).timers ≠ [] ∧
      Action.EmitMultiPressOngoing 1 1 3 ∈ ((launch w1.sim 7).after 4).actions ∧
      Action.EmitMultiPressOngoing 1 1 4 ∈ ((launch w1.sim 7).after 4).actions ∧
      Action.EmitMultiPressOngoing 1 1 3 ∉ w1.actions ∧
      run 511 w1.sim 7 = none := by
  refine ⟨_, run_multi_press (sampleMultiPress 0x16 2) 7 (by decide) rfl (by decide)
    (by decide) (by decide) (by decide) rfl (by decide) 0, rfl, rfl, rfl, ?_, ?_, ?_, ?_, ?_,
    ?_, ?_, ?_, ?_⟩
  · decide
  · decide
  · decide
  · decide
  · decide
  · decide
  · decide
  · decide
  · set_option maxRecDepth 100000 in decide

end ButtonSim

/-! ## Independence of the sink -/

namespace ButtonSim

/-- Recording an action appends it and nothing else. -/
theorem record_actions (o : Outside) (a : Action) :
    (o.record a).actions = o.actions ++ [a] := rfl

/-- Storing a cluster leaves the actions alone. -/
theorem store_actions (o : Outside) (e : Nat) (c : SwitchServer.SwitchCluster) :
    (o.store e c).actions = o.actions := rfl

/-- Whatever cluster is found, `SetButtonPosition` performs one action. -/
theorem setButtonPosition_actions (o : Outside) (e p : Nat) :
    (SetButtonPosition o e p).actions = o.actions ++ [.SetButtonPosition e p] := by
  unfold SetButtonPosition
  simp only []
  split <;> simp [record_actions, store_actions]

/-- Whatever cluster is found, `EmitInitialPress` performs one action. -/
theorem emitInitialPress_actions (o : Outside) (e p : Nat) :
    (EmitInitialPress o e p).actions = o.actions ++ [.EmitInitialPress e p] := by
  unfold EmitInitialPress
  simp only []
  split <;> simp [record_actions, store_actions]

/-- Whatever cluster is found, `EmitLongPress` performs one action. -/
theorem emitLongPress_actions (o : Outside) (e p : Nat) :
    (EmitLongPress o e p).actions = o.actions ++ [.EmitLongPress e p] := by
  unfold EmitLongPress
  simp only []
  split <;> simp [record_actions, store_actions]

/-- Whatever cluster is found, `EmitLongRelease` performs one action. -/
theorem emitLongRelease_actions (o : Outside) (e p : Nat) :
    (EmitLongRelease o e p).actions = o.actions ++ [.EmitLongRelease e p] := by
  unfold EmitLongRelease
  simp only []
  split <;> simp [record_actions, store_actions]

/-- Whatever cluster is found, `EmitShortRelease` performs one action. -/
theorem emitShortRelease_actions (o : Outside) (e p : Nat) :
    (EmitShortRelease o e p).actions = o.actions ++ [.EmitShortRelease e p] := by
  unfold EmitShortRelease
  simp only []
  split <;> simp [record_actions, store_actions]

/-- Whatever cluster is found, `EmitMultiPressOngoing` performs one action. -/
theorem emitMultiPressOngoing_actions (o : Outside) (e p n : Nat) :
    (EmitMultiPressOngoing o e p n).actions = o.actions ++ [.EmitMultiPressOngoing e p n] := by
  unfold EmitMultiPressOngoing
  simp only []
  split <;> simp [record_actions, store_actions]

/-- Whatever cluster is found, `EmitMultiPressComplete` performs one action. -/
theorem emitMultiPressComplete_actions (o : Outside) (e p n : Nat) :
    (EmitMultiPressComplete o e p n).actions =
      o.actions ++ [.EmitMultiPressComplete e p n] := by
  unfold EmitMultiPressComplete
  simp only []
  split <;> simp [record_actions, store_actions]

/-- A drive step on the clusters changes the simulator as `Next` does and
performs the actions of `Next`, whatever the clusters are. -/
theorem nextOn_eq (o : Outside) (s : ButtonEventsSimulator) :
    (NextOn o s).2 = (Next s).1 ∧ (NextOn o s).1.actions = o.actions ++ (Next s).2 := by
  cases hst : s.mState
  · simp [NextOn, Next, hst]
  · simp [NextOn, Next, hst, StartTimer, record_actions, setButtonPosition_actions,
      emitInitialPress_actions, SetState]
  · simp [NextOn, Next, hst, StartTimer, record_actions, emitLongPress_actions, SetState]
  · by_cases h5 : hasFeature s.mFeatureMap Feature.kMomentarySwitchLongPress = true <;>
      by_cases h6 : hasFeature s.mFeatureMap Feature.kMomentarySwitchRelease = true <;>
      simp [NextOn, Next, hst, record_actions, setButtonPosition_actions,
        emitLongRelease_actions, emitShortRelease_actions, SetState, h5, h6]
  · by_cases hf : hasFeature s.mFeatureMap Feature.kActionSwitch = true <;>
      simp [NextOn, Next, hst, StartTimer, record_actions, setButtonPosition_actions,
        emitInitialPress_actions, SetState, hf]
  · simp only [NextOn, Next, hst]
    generalize u8 (s.mMultiPressPressesDone + 1) = d
    by_cases h7 : d = s.mMultiPressNumPresses
    · subst h7
      by_cases h5 : 1 < s.mMultiPressNumPresses <;>
        by_cases h6 : hasFeature s.mFeatureMap Feature.kMomentarySwitchRelease = true <;>
        simp [StartTimer, record_actions, setButtonPosition_actions,
          emitMultiPressOngoing_actions, emitShortRelease_actions, SetState, h5, h6]
    · by_cases h5 : 1 < d <;>
        by_cases h6 : hasFeature s.mFeatureMap Feature.kMomentarySwitchRelease = true <;>
        simp [StartTimer, record_actions, setButtonPosition_actions,
          emitMultiPressOngoing_actions, emitShortRelease_actions, SetState, h5, h6, h7]
  · by_cases hf : hasFeature s.mFeatureMap Feature.kActionSwitch = true <;>
      by_cases h5 : s.mMultiPressMax < s.mMultiPressNumPresses <;>
      simp [NextOn, Next, hst, record_actions, emitMultiPressComplete_actions, SetState,
        hf, h5]

/-- `Execute` on the clusters returns what `Execute` returns, leaves the
simulator as `Execute` does and performs the actions of `Execute`, whatever
the clusters are. -/
theorem executeOn_eq (o : Outside) (s : ButtonEventsSimulator) (cb : Nat) :
    (ExecuteOn o s cb).1 = (Execute s cb).accepted ∧
    (ExecuteOn o s cb).2.2 = (Execute s cb).sim ∧
    (ExecuteOn o s cb).2.1.actions = o.actions ++ (Execute s cb).actions := by
  unfold ExecuteOn Execute
  split
  · simp
  · split
    · split
      · simp [startSequence, nextOn_eq, SetState]
      · simp
    · split
      · simp
      · split
        · simp
        · split
          · simp
          · simp [startSequence, nextOn_eq, SetState]

/-- The world part of `launchOn` is `launch`. -/
theorem launchOn_world (clusters : Nat → Option SwitchServer.SwitchCluster)
    (s : ButtonEventsSimulator) (cb : Nat) :
    (launchOn clusters s cb).world = launch s cb := by
  simp [launchOn, launch, executeOn_eq]

/-- The world part of an expiry on the clusters is the expiry of the world. -/
theorem expireOn_world (sw : SinkWorld) : sw.expire.world = sw.world.expire := by
  unfold SinkWorld.expire World.expire
  split <;> simp [*, nextOn_eq]

/-- The world part after `k` expiries on the clusters is the world after `k`
expiries. -/
theorem afterOn_world (sw : SinkWorld) (k : Nat) : (sw.after k).world = sw.world.after k := by
  induction k with
  | zero => rfl
  | succ k ih => rw [SinkWorld.after, World.after, expireOn_world, ih]

/-- C14: the sequencing does not depend on the sink. For any two assignments
of switch clusters to endpoints (no cluster at all, clusters that reject every
position or every event, or any others), `Execute` returns the same boolean,
every drive step changes the simulator in the same way and attempts the same
sink calls, timers and callback in the same order, and after any number of
timer expiries the two runs are in the same state with the same timers armed
and the same timed history of sink calls, timers and callback invocations. -/
theorem sequencing_independent_of_sink
    (clusters1 clusters2 : Nat → Option SwitchServer.SwitchCluster)
    (s : ButtonEventsSimulator) (cb : Nat) :
    (ExecuteOn { clusters := clusters1, actions := [] } s cb).1 =
      (ExecuteOn { clusters := clusters2, actions := [] } s cb).1 ∧
    (∀ x : ButtonEventsSimulator,
      (NextOn { clusters := clusters1, actions := [] } x).2 =
        (NextOn { clusters := clusters2, actions := [] } x).2 ∧
      (NextOn { clusters := clusters1, actions := [] } x).1.actions =
        (NextOn { clusters := clusters2, actions := [] } x).1.actions) ∧
    ∀ k,
      ((launchOn clusters1 s cb).after k).world = ((launchOn clusters2 s cb).after k).world ∧
      ((launchOn clusters1 s cb).after k).world.sim.mState =
        ((launchOn clusters2 s cb).after k).world.sim.mState ∧
      ((launchOn clusters1 s cb).after k).world.timers =
        ((launchOn clusters2 s cb).after k).world.timers ∧
      ((launchOn clusters1 s cb).after k).world.history =
        ((launchOn clusters2 s cb).after k).world.history ∧
      ((launchOn clusters1 s cb).after k).world = (launch s cb).after k := by
  refine ⟨?_, ?_, ?_⟩
  · rw [(executeOn_eq _ s cb).1, (executeOn_eq _ s cb).1]
  · intro x
    rw [(nextOn_eq _ x).1, (nextOn_eq _ x).1, (nextOn_eq _ x).2, (nextOn_eq _ x).2]
    exact ⟨rfl, rfl⟩
  · intro k
    have h1 := afterOn_world (launchOn clusters1 s cb) k
    have h2 := afterOn_world (launchOn clusters2 s cb) k
    rw [launchOn_world] at h1 h2
    rw [h1, h2]
    exact ⟨rfl, rfl, rfl, rfl, rfl⟩

end ButtonSim

/-! ## Parsing a device configuration -/

namespace AppOpts

/-- A digit character of `Nat.digitChar` is a decimal digit with its value. -/
theorem digitChar_spec (m : Nat) (hm : m < 10) :
    isdigit (Nat.digitChar m) = true ∧ digitValue (Nat.digitChar m) = m := by
  interval_cases m <;> exact ⟨by decide, by decide⟩

/-- Folding digits onto a starting value shifts the starting value left. -/
theorem foldl_digits (l : List Char) : ∀ a : Nat,
    l.foldl (fun acc c => 10 * acc + digitValue c) a = a * 10 ^ l.length + digitsValue l := by
  induction l with
  | nil => intro a; simp [digitsValue]
  | cons c cs ih =>
    intro a
    have e1 := ih (10 * a + digitValue c)
    have e2 := ih (10 * 0 + digitValue c)
    simp only [digitsValue, List.foldl_cons, List.length_cons] at e1 e2 ⊢
    rw [e1, e2, Nat.pow_succ]
    ring

/-- The value of a digit in front of a run of digits. -/
theorem digitsValue_cons (c : Char) (cs : List Char) :
    digitsValue (c :: cs) = digitValue c * 10 ^ cs.length + digitsValue cs := by
  rw [digitsValue, List.foldl_cons, foldl_digits]
  ring

/-- The digits the core rendering loop puts in front of an accumulator of
digits are digits, and the whole reads as the number shifted onto the
accumulator. -/
theorem toDigitsCore_reads (fuel : Nat) : ∀ (n : Nat) (acc : List Char), n < fuel →
    (∀ c ∈ acc, isdigit c = true) →
    (∀ c ∈ Nat.toDigitsCore 10 fuel n acc, isdigit c = true) ∧
    Nat.toDigitsCore 10 fuel n acc ≠ [] ∧
    digitsValue (Nat.toDigitsCore 10 fuel n acc) = n * 10 ^ acc.length + digitsValue acc := by
  induction fuel with
  | zero => intro n acc h; omega
  | succ fuel ih =>
    intro n acc hn hacc
    have hd := digitChar_spec (n % 10) (Nat.mod_lt n (by decide))
    have hacc2 : ∀ c ∈ Nat.digitChar (n % 10) :: acc, isdigit c = true := by
      intro c hc
      rcases List.mem_cons.mp hc with rfl | hc
      · exact hd.1
      · exact hacc c hc
    rw [Nat.toDigitsCore]
    by_cases hz : n / 10 = 0
    · simp only [hz, if_true]
      refine ⟨hacc2, by simp, ?_⟩
      rw [digitsValue_cons, hd.2]
      have : n % 10 = n := by omega
      rw [this]
    · simp only [hz, if_false]
      obtain ⟨h1, h2, h3⟩ := ih (n / 10) (Nat.digitChar (n % 10) :: acc) (by omega) hacc2
      refine ⟨h1, h2, ?_⟩
      rw [h3, digitsValue_cons, hd.2, List.length_cons, Nat.pow_succ]
      have hn10 : n = 10 * (n / 10) + n % 10 := (Nat.div_add_mod n 10).symm
      generalize n / 10 = q at hn10 ⊢
      generalize n % 10 = r at hn10 ⊢
      rw [hn10]
      ring

/-- The decimal rendering of a number is a non-empty run of digits that reads
as the number. -/
theorem toDigits_reads (n : Nat) :
    (∀ c ∈ Nat.toDigits 10 n, isdigit c = true) ∧ Nat.toDigits 10 n ≠ [] ∧
    digitsValue (Nat.toDigits 10 n) = n := by
  have h := toDigitsCore_reads (n + 1) n [] (by omega) (by simp)
  simpa [Nat.toDigits, digitsValue] using h

/-- A digit is neither white space nor a sign. -/
theorem isdigit_not_blank (c : Char) (h : isdigit c = true) :
    isspace c = false ∧ c ≠ '-' ∧ c ≠ '+' := by
  simp only [isdigit, Bool.and_eq_true, decide_eq_true_eq] at h
  refine ⟨?_, ?_, ?_⟩
  · unfold isspace
    rw [Bool.or_eq_false_iff]
    constructor
    · exact decide_eq_false (by omega)
    · rw [Bool.and_eq_false_iff]
      right
      exact decide_eq_false (by omega)
  · rintro rfl
    revert h
    decide
  · rintro rfl
    revert h
    decide

/-- On a non-empty run of digits and nothing else `strtol` converts the whole
string to its value, as long as the value fits a `long`. -/
theorem strtol_digits (l : List Char) (hne : l ≠ []) (hd : ∀ c ∈ l, isdigit c = true)
    (hfit : (digitsValue l : Int) ≤ LONG_MAX) :
    strtol l = ((digitsValue l : Int), l.length) := by
  obtain ⟨c, cs, rfl⟩ := List.exists_cons_of_ne_nil hne
  have hc := isdigit_not_blank c (hd c (List.mem_cons_self c cs))
  have hcd : isdigit c = true := hd c (List.mem_cons_self c cs)
  have htake : cs.takeWhile isdigit = cs :=
    List.takeWhile_eq_self_iff.mpr (fun x hx => hd x (List.mem_cons_of_mem c hx))
  simp only [strtol, List.takeWhile_cons, List.dropWhile_cons, hc.1, Bool.false_eq_true,
    if_false, List.head?_cons, Option.some.injEq, hc.2.1, hc.2.2, or_self, List.drop_zero,
    List.length_nil, Nat.zero_add, decide_False, hcd, if_true, htake]
  simp [min_eq_left hfit]

/-- `ParseEndpointId` accepts the decimal rendering of every endpoint id from
0 to 65535 and yields that id. -/
theorem parseEndpointId_decimal (e endpoint : Nat) (he : e ≤ 65535) :
    ParseEndpointId (Nat.toDigits 10 e) endpoint = (true, e) := by
  obtain ⟨h1, h2, h3⟩ := toDigits_reads e
  have hs := strtol_digits (Nat.toDigits 10 e) h2 h1 (by rw [h3, LONG_MAX]; omega)
  rw [h3] at hs
  have hlen : (Nat.toDigits 10 e).length ≠ 0 := by
    intro h
    exact h2 (List.length_eq_zero.mp h)
  simp only [ParseEndpointId, hs]
  rw [if_neg]
  · congr 1
    omega
  · simp only [List.drop_length, ne_eq, not_true_eq_false, false_or, not_or, not_lt, not_le]
    omega

/-- Without a colon `strchr` finds nothing. -/
theorem strchr_absent (t : List Char) (h : ':' ∉ t) : strchr t ':' = none := by
  simp [strchr, h]

/-- The first colon after a colon-free head is right behind the head. -/
theorem strchr_first (t r : List Char) (h : ':' ∉ t) :
    strchr (t ++ ':' :: r) ':' = some t.length := by
  have htake : (t ++ ':' :: r).takeWhile (fun x => x != ':') = t := by
    induction t with
    | nil => simp
    | cons c cs ih =>
      have hc : c ≠ ':' := fun hc => h (by simp [hc])
      have hcs : ':' ∉ cs := fun hcs => h (List.mem_cons_of_mem _ hcs)
      simp [List.takeWhile_cons, hc, ih hcs]
  simp [strchr, htake]

/-- C20: `ParseDeviceConfig` parses "type" and "type:endpoint". For every
string `t` without a colon it succeeds on `t` with type `t` and endpoint 1,
and for every endpoint `e` from 0 to 65535 it succeeds on `t`, a colon and
the decimal rendering of `e` (the digits `toString` prints) with type `t` and
endpoint `e`; whatever the configuration passed in held before. -/
theorem parseDeviceConfig_accepts (t : List Char) (config : DeviceConfig) (h : ':' ∉ t) :
    ParseDeviceConfig (some t) config = (true, { type := t, endpoint := 1 }) ∧
    ∀ e, e ≤ 65535 →
      ParseDeviceConfig (some (t ++ ':' :: Nat.toDigits 10 e)) config =
        (true, { type := t, endpoint := e }) := by
  constructor
  · simp [ParseDeviceConfig, strchr_absent t h]
  · intro e he
    simp [ParseDeviceConfig, strchr_first t _ h, parseEndpointId_decimal e 1 he]

/-- Witness of C20: "speaker:2" gives type "speaker" and endpoint 2, and
"speaker" alone gives endpoint 1. -/
theorem parseDeviceConfig_accepts_witness :
    ParseDeviceConfig (some ("speaker:2".toList)) { type := [], endpoint := 0 } =
      (true, { type := "speaker".toList, endpoint := 2 }) ∧
    ParseDeviceConfig (some ("speaker".toList)) { type := [], endpoint := 0 } =
      (true, { type := "speaker".toList, endpoint := 1 }) :=
  ⟨(parseDeviceConfig_accepts ("speaker".toList) { type := [], endpoint := 0 }
      (by decide)).2 2 (by decide),
   (parseDeviceConfig_accepts ("speaker".toList) { type := [], endpoint := 0 }
      (by decide)).1⟩

end AppOpts

/-! ## Timers and the release step -/

namespace ButtonSim

/-- A drive step arms at most one timer. -/
theorem next_arms_at_most_one (x : ButtonEventsSimulator) :
    (armedTimers (Next x).2).length ≤ 1 := by
  cases hst : x.mState
  · simp [Next, hst, armedTimers]
  · simp [Next, hst, armedTimers]
  · simp [Next, hst, armedTimers]
  · by_cases h5 : hasFeature x.mFeatureMap Feature.kMomentarySwitchLongPress = true <;>
      by_cases h6 : hasFeature x.mFeatureMap Feature.kMomentarySwitchRelease = true <;>
      simp [Next, hst, armedTimers, h5, h6]
  · by_cases hf : hasFeature x.mFeatureMap Feature.kActionSwitch = true <;>
      simp [Next, hst, armedTimers, hf]
  · simp only [Next, hst]
    generalize u8 (x.mMultiPressPressesDone + 1) = d
    by_cases h5 : 1 < d <;>
      by_cases h6 : hasFeature x.mFeatureMap Feature.kMomentarySwitchRelease = true <;>
      simp [armedTimers, h5, h6]
  · by_cases hf : hasFeature x.mFeatureMap Feature.kActionSwitch = true <;>
      by_cases h5 : x.mMultiPressMax < x.mMultiPressNumPresses <;>
      simp [Next, hst, armedTimers, hf, h5]

/-- An expiry keeps the number of armed timers at one or below. -/
theorem expire_keeps_at_most_one (w : World) (h : w.timers.length ≤ 1) :
    w.expire.timers.length ≤ 1 := by
  match ht : w.timers with
  | [] =>
    have : w.expire = w := by simp [World.expire, ht]
    rw [this, ht]
    simp
  | [t] =>
    rw [expire_single w t ht]
    simpa [World.absorb] using next_arms_at_most_one w.sim
  | t :: u :: rest =>
    rw [ht] at h
    simp at h

/-- When `Execute` returns at most one timer is armed. -/
theorem launch_at_most_one (s : ButtonEventsSimulator) (cb : Nat) :
    (launch s cb).timers.length ≤ 1 := by
  by_cases hacc : (Execute s cb).accepted = false
  · rw [launch_rejected s cb hacc]
    simp
  · have hnext : ∀ x : ButtonEventsSimulator,
        (World.absorb { sim := s, now := 0, timers := [], history := [] }
          (startSequence x cb).sim (startSequence x cb).actions).timers.length ≤ 1 := by
      intro x
      simpa [World.absorb, startSequence] using next_arms_at_most_one _
    unfold launch
    unfold Execute at hacc ⊢
    split
    · simp [World.absorb, armedTimers]
    · split
      · split
        · exact hnext _
        · simp [World.absorb, armedTimers]
      · split
        · simp [World.absorb, armedTimers]
        · split
          · simp [World.absorb, armedTimers]
          · split
            · simp [World.absorb, armedTimers]
            · exact hnext _

/-- C22: a drive step from `kEmitStartOfLongPress`, `kEmitLongPress`,
`kEmitStartOfMultiPress` or `kMultiPressButtonRelease` arms exactly one timer,
a step from `kEmitLongRelease`, `kEmitEndOfMultiPress` or `kIdle` arms none;
and along the run of any object, driven one `Next` per expiry from the return
of `Execute`, the number of armed timers never exceeds one. -/
theorem at_most_one_timer (s : ButtonEventsSimulator) (cb : Nat) :
    (∀ x : ButtonEventsSimulator,
      (armedTimers (Next x).2).length =
        if x.mState = .kEmitStartOfLongPress ∨ x.mState = .kEmitLongPress ∨
            x.mState = .kEmitStartOfMultiPress ∨ x.mState = .kMultiPressButtonRelease
        then 1 else 0) ∧
    ∀ k, ((launch s cb).after k).timers.length ≤ 1 := by
  constructor
  · intro x
    cases hst : x.mState
    · simp [Next, hst, armedTimers]
    · simp [Next, hst, armedTimers]
    · simp [Next, hst, armedTimers]
    · by_cases h5 : hasFeature x.mFeatureMap Feature.kMomentarySwitchLongPress = true <;>
        by_cases h6 : hasFeature x.mFeatureMap Feature.kMomentarySwitchRelease = true <;>
        simp [Next, hst, armedTimers, h5, h6]
    · by_cases hf : hasFeature x.mFeatureMap Feature.kActionSwitch = true <;>
        simp [Next, hst, armedTimers, hf]
    · simp only [Next, hst]
      generalize u8 (x.mMultiPressPressesDone + 1) = d
      by_cases h5 : 1 < d <;>
        by_cases h6 : hasFeature x.mFeatureMap Feature.kMomentarySwitchRelease = true <;>
        simp [armedTimers, h5, h6]
    · by_cases hf : hasFeature x.mFeatureMap Feature.kActionSwitch = true <;>
        by_cases h5 : x.mMultiPressMax < x.mMultiPressNumPresses <;>
        simp [Next, hst, armedTimers, hf, h5]
  · intro k
    induction k with
    | zero => exact launch_at_most_one s cb
    | succ k ih => exact expire_keeps_at_most_one _ ih

/-- A sample object in the middle of a multi-press run: waiting for the
release of a press, with `done` presses counted so far. -/
theorem sample_release_state (done : Nat) :
    ({ sampleMultiPress 0x16 3 with
        mState := .kMultiPressButtonRelease, mMultiPressPressesDone := done } :
      ButtonEventsSimulator).mState = .kMultiPressButtonRelease := rfl

/-- C23: the `kMultiPressButtonRelease` step, for every configuration and
counter value. It increments the press counter, as a byte (that is by one
whenever the result fits a byte); it performs, in this order,
`MultiPressOngoing(pressed, counter)` if and only if the new counter exceeds 1,
`ShortRelease(pressed)` if and only if the short-release feature is active,
`SetPosition(idle)`, and the arming of the only timer, with the gap duration;
the next state is `kEmitEndOfMultiPress` if the new counter equals the target
count and `kEmitStartOfMultiPress` otherwise. No other step, and not `Execute`
ahead of its first step, changes the counter. -/
theorem release_step_row (s : ButtonEventsSimulator)
    (hst : s.mState = .kMultiPressButtonRelease) :
    (Next s).1.mMultiPressPressesDone = u8 (s.mMultiPressPressesDone + 1) ∧
    (s.mMultiPressPressesDone + 1 < 2 ^ 8 →
      (Next s).1.mMultiPressPressesDone = s.mMultiPressPressesDone + 1) ∧
    (Next s).2 =
      (if (Next s).1.mMultiPressPressesDone > 1 then
        [Action.EmitMultiPressOngoing s.mEndpointId s.mPressedButtonId
          (Next s).1.mMultiPressPressesDone] else []) ++
      (if hasFeature s.mFeatureMap Feature.kMomentarySwitchRelease then
        [Action.EmitShortRelease s.mEndpointId s.mPressedButtonId] else []) ++
      [.SetButtonPosition s.mEndpointId s.mIdleButtonId,
       .StartTimer s.mMultiPressReleasedTimeMillis] ∧
    (Next s).1.mState =
      (if (Next s).1.mMultiPressPressesDone = s.mMultiPressNumPresses then
        State.kEmitEndOfMultiPress else State.kEmitStartOfMultiPress) ∧
    armedTimers (Next s).2 = [s.mMultiPressReleasedTimeMillis] ∧
    (∀ x : ButtonEventsSimulator, x.mState ≠ .kMultiPressButtonRelease →
      (Next x).1.mMultiPressPressesDone = x.mMultiPressPressesDone) ∧
    (∀ (x : ButtonEventsSimulator) (cb : Nat),
      (Execute x cb).sim.mMultiPressPressesDone = x.mMultiPressPressesDone) := by
  have hother : ∀ x : ButtonEventsSimulator, x.mState ≠ .kMultiPressButtonRelease →
      (Next x).1.mMultiPressPressesDone = x.mMultiPressPressesDone := by
    intro x hx
    cases hxs : x.mState
    · simp [Next, hxs]
    · simp [Next, hxs, SetState]
    · simp [Next, hxs, SetState]
    · simp [Next, hxs, SetState]
    · by_cases hf : hasFeature x.mFeatureMap Feature.kActionSwitch = true <;>
        simp [Next, hxs, SetState, hf]
    · exact absurd hxs hx
    · simp [Next, hxs, SetState]
  have hdone : (Next s).1.mMultiPressPressesDone = u8 (s.mMultiPressPressesDone + 1) := by
    simp only [Next, hst]
    split <;> rfl
  refine ⟨hdone, ?_, ?_, ?_, ?_, hother, ?_⟩
  · intro hfit
    rw [hdone]
    exact Nat.mod_eq_of_lt hfit
  · rw [hdone]
    simp [Next, hst]
  · rw [hdone]
    simp only [Next, hst]
    split <;> rfl
  · simp only [Next, hst]
    generalize u8 (s.mMultiPressPressesDone + 1) = d
    by_cases h5 : 1 < d <;>
      by_cases h6 : hasFeature s.mFeatureMap Feature.kMomentarySwitchRelease = true <;>
      simp [armedTimers, h5, h6]
  · intro x cb
    unfold Execute
    split
    · rfl
    · split
      · split
        · exact hother _ (by simp [SetState])
        · rfl
      · split
        · rfl
        · split
          · rfl
          · split
            · rfl
            · exact hother _ (by simp [SetState])

/-- Witness of C23: the second release of the three-press sample counts 2,
emits `MultiPressOngoing(2)` and `ShortRelease`, sets the idle position, arms
the gap timer and goes back to `kEmitStartOfMultiPress`. -/
theorem release_step_row_witness :
    (Next { sampleMultiPress 0x16 3 with
        mState := .kMultiPressButtonRelease, mMultiPressPressesDone := 1 }).2 =
      [.EmitMultiPressOngoing 1 1 2, .EmitShortRelease 1 1, .SetButtonPosition 1 0,
       .StartTimer 200] ∧
    (Next { sampleMultiPress 0x16 3 with
        mState := .kMultiPressButtonRelease, mMultiPressPressesDone := 1 }).1.mState =
      .kEmitStartOfMultiPress :=
  ⟨(release_step_row { sampleMultiPress 0x16 3 with
        mState := .kMultiPressButtonRelease, mMultiPressPressesDone := 1 }
      (sample_release_state 1)).2.2.1,
   (release_step_row { sampleMultiPress 0x16 3 with
        mState := .kMultiPressButtonRelease, mMultiPressPressesDone := 1 }
      (sample_release_state 1)).2.2.2.1⟩

end ButtonSim

/-! ## The two shapes of a multi-press run -/

namespace ButtonSim

/-- With no timer armed further expiries change nothing. -/
theorem after_of_rest (w : World) (h : w.timers = []) (k : Nat) : w.after k = w := by
  induction k with
  | zero => rfl
  | succ k ih =>
    rw [World.after, ih]
    simp [World.expire, h]

/-- One more expiry at the end is one more expiry at the start. -/
theorem after_succ_expire (w : World) (k : Nat) : w.after (k + 1) = w.expire.after k := by
  induction k with
  | zero => rfl
  | succ k ih => rw [World.after, ih, World.after]

/-- The timers of two lists of actions. -/
theorem armedTimers_append (a b : List Action) :
    armedTimers (a ++ b) = armedTimers a ++ armedTimers b := by
  induction a with
  | nil => rfl
  | cons x xs ih => cases x <;> simp [armedTimers, ih]

/-- Each cycle arms one hold timer and one gap timer. -/
theorem cyclesFrom_timers (s : ButtonEventsSimulator) (m : Nat) :
    ∀ k t, armedTimers ((cyclesFrom s m k t).map Prod.snd) =
      (List.replicate m
        [s.mMultiPressPressedTimeMillis, s.mMultiPressReleasedTimeMillis]).flatten := by
  induction m with
  | zero => intro k t; simp [cyclesFrom, armedTimers]
  | succ m ih =>
    intro k t
    simp only [cyclesFrom, List.map_append, armedTimers_append, ih, List.replicate_succ,
      List.flatten_cons]
    by_cases h5 : 0 < k <;>
      by_cases h6 : hasFeature s.mFeatureMap Feature.kMomentarySwitchRelease = true <;>
      simp [pressAt, releaseAt, armedTimers, h5, h6]

/-- The hold and gap timers of `m` cycles add up to `m` times their sum. -/
theorem sum_hold_gap (m a b : Nat) :
    ((List.replicate m [a, b]).flatten).sum = m * (a + b) := by
  induction m with
  | zero => simp
  | succ m ih =>
    simp only [List.replicate_succ, List.flatten_cons, List.sum_append, ih]
    simp
    ring

/-- The single timer of an action-switch run is the product when the product
fits 32 bits. -/
theorem action_switch_timer (n a b : Nat) (h : n * (a + b) < 2 ^ 32) :
    u32 (n * u32 (a + b)) = n * (a + b) := by
  rcases Nat.eq_zero_or_pos n with hn | hn
  · subst hn
    simp [u32]
  · have hab : a + b < 2 ^ 32 := lt_of_le_of_lt (Nat.le_mul_of_pos_left (a + b) hn) h
    unfold u32
    rw [Nat.mod_eq_of_lt hab, Nat.mod_eq_of_lt h]

/-- C26, counterexample: the valid action-switch object with one press and
hold and gap of 2147483648 ms each arms a single timer of 0 ms, not of
`1 * (2147483648 + 2147483648)` ms. -/
theorem action_switch_timer_counterexample :
    Valid sampleWrapping ∧ sampleWrapping.InRange ∧
    hasFeature sampleWrapping.mFeatureMap Feature.kActionSwitch = true ∧
    ∃ w, run 1 sampleWrapping 7 = some w ∧ w.sim.mState = .kIdle ∧
      armedTimers w.actions = [0] ∧
      armedTimers w.actions ≠
        [sampleWrapping.mMultiPressNumPresses *
          (sampleWrapping.mMultiPressPressedTimeMillis +
            sampleWrapping.mMultiPressReleasedTimeMillis)] := by
  refine ⟨by decide, by decide, by decide, _,
    run_action_switch sampleWrapping 7 0 (by decide) rfl (by decide) (by decide) (by decide)
      (by decide), rfl, ?_, ?_⟩ <;> decide

/-- C26, amended: in every valid multi-press run with the action-switch
feature, whatever the target count `N`, the whole trace is
`SetPosition(pressed)`, `InitialPress(pressed)`, one timer of `N * (hold + gap)`
computed in 32-bit arithmetic (which is `N * (hold + gap)` whenever that is
below `2 ^ 32`), then `MultiPressComplete` and the completion callback; no
`ShortRelease` and no `MultiPressOngoing` is emitted, the only `SetPosition`
is the one to the pressed position, and the press counter is the same after
any number of expiries as before `Execute`. -/
theorem action_switch_trace (s : ButtonEventsSimulator) (cb : Nat) (hv : Valid s)
    (hmode : s.mMode = .kModeMultiPress)
    (hf : hasFeature s.mFeatureMap Feature.kActionSwitch = true)
    (fuel : Nat) (hfuel : 1 ≤ fuel) :
    ∃ w, run fuel s cb = some w ∧ w.sim.mState = .kIdle ∧ w.timers = [] ∧
      w.actions =
        [.SetButtonPosition s.mEndpointId s.mPressedButtonId,
         .EmitInitialPress s.mEndpointId s.mPressedButtonId,
         .StartTimer (u32 (s.mMultiPressNumPresses *
           u32 (s.mMultiPressPressedTimeMillis + s.mMultiPressReleasedTimeMillis))),
         .EmitMultiPressComplete s.mEndpointId s.mPressedButtonId
           (if s.mMultiPressNumPresses > s.mMultiPressMax then 0 else s.mMultiPressNumPresses),
         .DoneCallback (some cb)] ∧
      (s.mMultiPressNumPresses *
          (s.mMultiPressPressedTimeMillis + s.mMultiPressReleasedTimeMillis) < 2 ^ 32 →
        u32 (s.mMultiPressNumPresses *
          u32 (s.mMultiPressPressedTimeMillis + s.mMultiPressReleasedTimeMillis)) =
        s.mMultiPressNumPresses *
          (s.mMultiPressPressedTimeMillis + s.mMultiPressReleasedTimeMillis)) ∧
      w.actions.filter Action.isShortRelease = [] ∧
      w.actions.filter Action.isMultiPressOngoing = [] ∧
      w.actions.filter Action.isSetButtonPosition =
        [.SetButtonPosition s.mEndpointId s.mPressedButtonId] ∧
      Action.SetButtonPosition s.mEndpointId s.mIdleButtonId ∉ w.actions ∧
      ∀ k, ((launch s cb).after k).sim.mMultiPressPressesDone = s.mMultiPressPressesDone := by
  obtain ⟨hne, hm⟩ := hv
  simp only [hmode] at hm
  obtain ⟨h1, h2, h3⟩ := hm
  obtain ⟨n, rfl⟩ : ∃ n, fuel = n + 1 := ⟨fuel - 1, by omega⟩
  have hrun := run_action_switch s cb n hne hmode h1 h2 h3 hf
  refine ⟨_, hrun, rfl, rfl, ?_, action_switch_timer _ _ _, ?_, ?_, ?_, ?_, ?_⟩
  · simp [World.actions]
  · simp [World.actions, Action.isShortRelease]
  · simp [World.actions, Action.isMultiPressOngoing]
  · simp [World.actions, Action.isSetButtonPosition]
  · simp [World.actions]
    exact fun h => hne h
  · intro k
    cases k with
    | zero => rw [World.after, launch_action_switch s cb hne hmode h1 h2 h3 hf]; rfl
    | succ k =>
      rw [after_succ_expire, launch_action_switch s cb hne hmode h1 h2 h3 hf,
        expire_single _ _ rfl, after_of_rest]
      · simp [World.absorb, Next, midRun, SetState]
      · by_cases h5 : s.mMultiPressMax < s.mMultiPressNumPresses <;>
          simp [World.absorb, Next, midRun, SetState, armedTimers, hf, h5]

/-- Witness of C26 (amended): five presses of 300 ms with gaps of 200 ms and
the action-switch feature. -/
theorem action_switch_trace_witness :
    ∃ w, run 1 (sampleMultiPress 0x36 5) 7 = some w ∧ w.sim.mState = .kIdle ∧
      w.timers = [] ∧
      w.actions =
        [.SetButtonPosition 1 1, .EmitInitialPress 1 1, .StartTimer 2500,
         .EmitMultiPressComplete 1 1 0, .DoneCallback (some 7)] := by
  obtain ⟨w, h1, h2, h3, h4, _⟩ :=
    action_switch_trace (sampleMultiPress 0x36 5) 7 (by decide) rfl (by decide) 1 (by decide)
  exact ⟨w, h1, h2, h3, h4⟩

/-- C27: for every valid multi-press configuration with target count `N`,
started with the press counter at 0, whose product `N * (hold + gap)` fits 32
bits, the timers armed before the completion callback add up to
`N * (hold + gap)`: with the action-switch feature it is one timer of that
duration, without it `N` timers of `hold` alternating with `N` timers of
`gap`; the callback is invoked at that time. -/
theorem multi_press_total_time (s : ButtonEventsSimulator) (cb : Nat) (hv : Valid s)
    (hmode : s.mMode = .kModeMultiPress) (hfresh : s.mMultiPressPressesDone = 0)
    (hN : s.mMultiPressNumPresses < 2 ^ 8)
    (hfit : s.mMultiPressNumPresses *
      (s.mMultiPressPressedTimeMillis + s.mMultiPressReleasedTimeMillis) < 2 ^ 32)
    (fuel : Nat) (hfuel : 2 * s.mMultiPressNumPresses ≤ fuel) :
    ∃ w, run fuel s cb = some w ∧ w.sim.mState = .kIdle ∧ w.timers = [] ∧
      (armedTimers w.actions).sum = s.mMultiPressNumPresses *
        (s.mMultiPressPressedTimeMillis + s.mMultiPressReleasedTimeMillis) ∧
      (hasFeature s.mFeatureMap Feature.kActionSwitch = true →
        armedTimers w.actions = [s.mMultiPressNumPresses *
          (s.mMultiPressPressedTimeMillis + s.mMultiPressReleasedTimeMillis)]) ∧
      (hasFeature s.mFeatureMap Feature.kActionSwitch = false →
        armedTimers w.actions = (List.replicate s.mMultiPressNumPresses
          [s.mMultiPressPressedTimeMillis, s.mMultiPressReleasedTimeMillis]).flatten) ∧
      w.history.getLast? = some (s.mMultiPressNumPresses *
        (s.mMultiPressPressedTimeMillis + s.mMultiPressReleasedTimeMillis),
        .DoneCallback (some cb)) := by
  obtain ⟨hne, hm⟩ := hv
  simp only [hmode] at hm
  obtain ⟨h1, h2, h3⟩ := hm
  by_cases hf : hasFeature s.mFeatureMap Feature.kActionSwitch = true
  · obtain ⟨n, rfl⟩ : ∃ n, fuel = n + 1 := ⟨fuel - 1, by omega⟩
    have ht := action_switch_timer _ _ _ hfit
    refine ⟨_, run_action_switch s cb n hne hmode h1 h2 h3 hf, rfl, rfl, ?_, ?_, ?_, ?_⟩
    · simp [World.actions, armedTimers, ht]
    · intro _
      simp [World.actions, armedTimers, ht]
    · intro h
      rw [hf] at h
      cases h
    · simp [ht]
  · have hf' : hasFeature s.mFeatureMap Feature.kActionSwitch = false := by simpa using hf
    obtain ⟨n, rfl⟩ : ∃ n, fuel = 2 * s.mMultiPressNumPresses + n :=
      ⟨fuel - 2 * s.mMultiPressNumPresses, by omega⟩
    have htim : armedTimers ((cyclesFrom s s.mMultiPressNumPresses 0 0 ++
          [(s.mMultiPressNumPresses *
              (s.mMultiPressPressedTimeMillis + s.mMultiPressReleasedTimeMillis),
             Action.EmitMultiPressComplete s.mEndpointId s.mPressedButtonId
               s.mMultiPressNumPresses),
           (s.mMultiPressNumPresses *
              (s.mMultiPressPressedTimeMillis + s.mMultiPressReleasedTimeMillis),
             Action.DoneCallback (some cb))]).map Prod.snd) =
        (List.replicate s.mMultiPressNumPresses
          [s.mMultiPressPressedTimeMillis, s.mMultiPressReleasedTimeMillis]).flatten := by
      simp only [List.map_append, armedTimers_append, cyclesFrom_timers]
      simp [armedTimers]
    refine ⟨_, run_multi_press s cb hne hmode h1 h2 h3 hf' hfresh hN n, rfl, rfl, ?_, ?_, ?_, ?_⟩
    · show (armedTimers (List.map Prod.snd _)).sum = _
      rw [htim, sum_hold_gap]
    · intro h
      exact absurd h hf
    · intro _
      exact htim
    · simp

/-- Witness of C27: three presses of 300 ms with gaps of 200 ms take 1500 ms
without the action-switch feature. -/
theorem multi_press_total_time_witness :
    ∃ w, run 6 (sampleMultiPress 0x16 3) 7 = some w ∧ w.sim.mState = .kIdle ∧
      w.timers = [] ∧ (armedTimers w.actions).sum = 3 * (300 + 200) := by
  obtain ⟨w, h1, h2, h3, h4, _⟩ :=
    multi_press_total_time (sampleMultiPress 0x16 3) 7 (by decide) rfl rfl (by decide)
      (by decide) 6 (by decide)
  exact ⟨w, h1, h2, h3, h4⟩

end ButtonSim

/-! ## The position of the Switch cluster -/

namespace SwitchServer

open ButtonSim

/-- Generating an event, or not, leaves every member but the context alone. -/
theorem generate_frame (c : SwitchCluster) (b : Bool) (e : SwitchEvent) :
    (c.generate b e).2.mCurrentPosition = c.mCurrentPosition ∧
    (c.generate b e).2.mNumberOfPositions = c.mNumberOfPositions ∧
    (c.generate b e).2.mMultiPressMax = c.mMultiPressMax := by
  unfold SwitchCluster.generate
  cases c.mContext with
  | none => exact ⟨rfl, rfl, rfl⟩
  | some g => cases b <;> exact ⟨rfl, rfl, rfl⟩

/-- One call keeps the position in range and the configuration fixed. -/
theorem call_keeps_range (c : SwitchCluster) (x : Call)
    (h : c.mCurrentPosition < c.mNumberOfPositions) :
    (c.call x).mCurrentPosition < (c.call x).mNumberOfPositions ∧
    (c.call x).mNumberOfPositions = c.mNumberOfPositions ∧
    (c.call x).mMultiPressMax = c.mMultiPressMax := by
  cases x with
  | Startup g => exact ⟨h, rfl, rfl⟩
  | SetCurrentPosition p =>
    simp only [SwitchCluster.call, SwitchCluster.SetCurrentPosition]
    by_cases hv : c.PositionIsValid p = true
    · simp only [hv, not_true_eq_false, if_false, SwitchCluster.SetAttributeValue]
      exact ⟨(positionIsValid_iff c p).1 hv, trivial, trivial⟩
    · have hv' : c.PositionIsValid p = false := by simpa using hv
      simp only [hv', Bool.false_eq_true, not_false_eq_true, if_true]
      exact ⟨h, trivial, trivial⟩
  | OnSwitchLatch p =>
    obtain ⟨h1, h2, h3⟩ := generate_frame c
      (hasFeature c.mFeatures Feature.kLatchingSwitch && c.PositionIsValid p)
      (.SwitchLatched p)
    simp only [SwitchCluster.call, SwitchCluster.OnSwitchLatch, h1, h2, h3]
    exact ⟨h, trivial, trivial⟩
  | OnInitialPress p =>
    obtain ⟨h1, h2, h3⟩ := generate_frame c
      (hasFeature c.mFeatures Feature.kMomentarySwitch && c.PositionIsValid p)
      (.InitialPress p)
    simp only [SwitchCluster.call, SwitchCluster.OnInitialPress, h1, h2, h3]
    exact ⟨h, trivial, trivial⟩
  | OnLongPress p =>
    obtain ⟨h1, h2, h3⟩ := generate_frame c
      (hasFeature c.mFeatures Feature.kMomentarySwitchLongPress && c.PositionIsValid p)
      (.LongPress p)
    simp only [SwitchCluster.call, SwitchCluster.OnLongPress, h1, h2, h3]
    exact ⟨h, trivial, trivial⟩
  | OnShortRelease p =>
    obtain ⟨h1, h2, h3⟩ := generate_frame c
      (hasFeature c.mFeatures Feature.kMomentarySwitchRelease && c.PositionIsValid p)
      (.ShortRelease p)
    simp only [SwitchCluster.call, SwitchCluster.OnShortRelease, h1, h2, h3]
    exact ⟨h, trivial, trivial⟩
  | OnLongRelease p =>
    obtain ⟨h1, h2, h3⟩ := generate_frame c
      (hasFeature c.mFeatures Feature.kMomentarySwitchLongPress && c.PositionIsValid p)
      (.LongRelease p)
    simp only [SwitchCluster.call, SwitchCluster.OnLongRelease, h1, h2, h3]
    exact ⟨h, trivial, trivial⟩
  | OnMultiPressOngoing p n =>
    obtain ⟨h1, h2, h3⟩ := generate_frame c
      (hasFeature c.mFeatures Feature.kMomentarySwitchMultiPress
        && !(hasFeature c.mFeatures Feature.kActionSwitch) && c.PositionIsValid p)
      (.MultiPressOngoing p n)
    simp only [SwitchCluster.call, SwitchCluster.OnMultiPressOngoing, h1, h2, h3]
    exact ⟨h, trivial, trivial⟩
  | OnMultiPressComplete p n =>
    obtain ⟨h1, h2, h3⟩ := generate_frame c
      (hasFeature c.mFeatures Feature.kMomentarySwitchMultiPress && c.PositionIsValid p)
      (.MultiPressComplete p n)
    simp only [SwitchCluster.call, SwitchCluster.OnMultiPressComplete, h1, h2, h3]
    exact ⟨h, trivial, trivial⟩

/-- Any sequence of calls keeps the position in range and the configuration
fixed. -/
theorem calls_keep_range (l : List Call) : ∀ c : SwitchCluster,
    c.mCurrentPosition < c.mNumberOfPositions →
    (c.calls l).mCurrentPosition < (c.calls l).mNumberOfPositions ∧
    (c.calls l).mNumberOfPositions = c.mNumberOfPositions ∧
    (c.calls l).mMultiPressMax = c.mMultiPressMax := by
  induction l with
  | nil => intro c h; exact ⟨h, rfl, rfl⟩
  | cons x xs ih =>
    intro c h
    obtain ⟨h1, h2, h3⟩ := call_keeps_range c x h
    obtain ⟨k1, k2, k3⟩ := ih (c.call x) h1
    simp only [SwitchCluster.calls, List.foldl_cons] at k1 k2 k3 ⊢
    exact ⟨k1, k2.trans h2, k3.trans h3⟩

/-- A successfully constructed cluster has the configured numbers, at least
two positions, and is at position 0. -/
theorem create_spec (endpointId features : Nat) (config : StartupConfiguration)
    (c : SwitchCluster) (h : SwitchCluster.create endpointId features config = some c) :
    config.numberOfPositions ≥ 2 ∧ c.mNumberOfPositions = config.numberOfPositions ∧
    c.mMultiPressMax = config.multiPressMax ∧ c.mCurrentPosition = 0 := by
  unfold SwitchCluster.create at h
  split at h
  · cases h
  · split at h
    · cases h
    · rename_i h2 _
      simp only [Option.some.injEq] at h
      subst h
      exact ⟨by simpa using h2, rfl, rfl, rfl⟩

/-- C28: in every state reached from a successfully constructed cluster,
which has at least two positions, by any sequence of `Startup`,
`SetCurrentPosition` and `On*` calls, the current position is at most the
number of positions minus one, and the number of positions and the
multi-press maximum are the configured ones; and no `On*` function changes
the current position of any cluster. -/
theorem position_in_range (endpointId features : Nat) (config : StartupConfiguration)
    (c : SwitchCluster) (l : List Call)
    (h : SwitchCluster.create endpointId features config = some c) :
    config.numberOfPositions ≥ 2 ∧
    (c.calls l).mCurrentPosition ≤ (c.calls l).mNumberOfPositions - 1 ∧
    (c.calls l).mNumberOfPositions = config.numberOfPositions ∧
    (c.calls l).mMultiPressMax = config.multiPressMax ∧
    ∀ (x : SwitchCluster) (p n : Nat),
      (x.OnSwitchLatch p).2.mCurrentPosition = x.mCurrentPosition ∧
      (x.OnInitialPress p).2.mCurrentPosition = x.mCurrentPosition ∧
      (x.OnLongPress p).2.mCurrentPosition = x.mCurrentPosition ∧
      (x.OnShortRelease p).2.mCurrentPosition = x.mCurrentPosition ∧
      (x.OnLongRelease p).2.mCurrentPosition = x.mCurrentPosition ∧
      (x.OnMultiPressOngoing p n).2.mCurrentPosition = x.mCurrentPosition ∧
      (x.OnMultiPressComplete p n).2.mCurrentPosition = x.mCurrentPosition := by
  obtain ⟨h2, hn, hmax, hpos⟩ := create_spec endpointId features config c h
  obtain ⟨k1, k2, k3⟩ := calls_keep_range l c (by omega)
  refine ⟨h2, by omega, k2.trans hn, k3.trans hmax, ?_⟩
  intro x p n
  exact ⟨(generate_frame x _ _).1, (generate_frame x _ _).1, (generate_frame x _ _).1,
    (generate_frame x _ _).1, (generate_frame x _ _).1, (generate_frame x _ _).1,
    (generate_frame x _ _).1⟩

/-- Witness of C28: a cluster constructed with four positions, started, set
to 3, asked for 7 and pressed stays at position 3 of 4. -/
theorem position_in_range_witness :
    ∃ c, SwitchCluster.create 1 0x1E { numberOfPositions := 4, multiPressMax := 2 } = some c ∧
      (c.calls [.Startup countingGenerator, .SetCurrentPosition 3, .SetCurrentPosition 7,
        .OnInitialPress 3]).mCurrentPosition ≤
      (c.calls [.Startup countingGenerator, .SetCurrentPosition 3, .SetCurrentPosition 7,
        .OnInitialPress 3]).mNumberOfPositions - 1 :=
  ⟨_, rfl, (position_in_range 1 0x1E { numberOfPositions := 4, multiPressMax := 2 } _
    [.Startup countingGenerator, .SetCurrentPosition 3, .SetCurrentPosition 7,
      .OnInitialPress 3] rfl).2.1⟩

end SwitchServer

/-! ## A long press on a cluster without the long-press feature -/

namespace SwitchServer

open ButtonSim

/-- The cluster calls of a long-press run, made on a started cluster that has
the momentary-switch and short-release features but not the long-press
feature, with both positions valid: the initial press and the short release
reach the events generator, the long press does not, and the position ends
at the idle one. -/
theorem long_press_calls (c : SwitchCluster) (g : EventsGenerator) (pressed idle : Nat)
    (hstarted : c.mContext = some g)
    (hMS : hasFeature c.mFeatures Feature.kMomentarySwitch = true)
    (hMSR : hasFeature c.mFeatures Feature.kMomentarySwitchRelease = true)
    (hMSL : hasFeature c.mFeatures Feature.kMomentarySwitchLongPress = false)
    (hp : pressed < c.mNumberOfPositions) (hi : idle < c.mNumberOfPositions) :
    (((((c.SetCurrentPosition pressed).2.OnInitialPress pressed).2.OnLongPress pressed).2
        |>.SetCurrentPosition idle).2.OnShortRelease pressed).2 =
      { c with
        mCurrentPosition := idle
        mContext := some ({ g with
          submitted := g.submitted ++
            [(.InitialPress pressed, c.mEndpointId), (.ShortRelease pressed, c.mEndpointId)] }) }
    ∧ (((c.SetCurrentPosition pressed).2.OnInitialPress pressed).2.OnLongPress pressed).1
        = none := by
  have hp' : (pressed : Int) ≤ (c.mNumberOfPositions : Int) - 1 := by omega
  have hi' : (idle : Int) ≤ (c.mNumberOfPositions : Int) - 1 := by omega
  constructor <;>
    simp [SwitchCluster.SetCurrentPosition, SwitchCluster.SetAttributeValue,
      SwitchCluster.OnInitialPress, SwitchCluster.OnLongPress, SwitchCluster.OnShortRelease,
      SwitchCluster.generate, SwitchCluster.PositionIsValid, EventsGenerator.GenerateEvent,
      hstarted, hMS, hMSR, hMSL, hp', hi']

end SwitchServer

namespace ButtonSim

/-- The cluster on the endpoint after `SetButtonPosition`. -/
theorem setButtonPosition_cluster (o : Outside) (e p : Nat) :
    (SetButtonPosition o e p).clusters e =
      (o.clusters e).map (fun c => (c.SetCurrentPosition p).2) := by
  unfold SetButtonPosition
  simp only [Outside.FindClusterOnEndpoint, Outside.record]
  cases h : o.clusters e <;> simp [h, Outside.store]

/-- The cluster on the endpoint after `EmitInitialPress`. -/
theorem emitInitialPress_cluster (o : Outside) (e p : Nat) :
    (EmitInitialPress o e p).clusters e =
      (o.clusters e).map (fun c => (c.OnInitialPress p).2) := by
  unfold EmitInitialPress
  simp only [Outside.FindClusterOnEndpoint, Outside.record]
  cases h : o.clusters e <;> simp [h, Outside.store]

/-- The cluster on the endpoint after `EmitLongPress`. -/
theorem emitLongPress_cluster (o : Outside) (e p : Nat) :
    (EmitLongPress o e p).clusters e =
      (o.clusters e).map (fun c => (c.OnLongPress p).2) := by
  unfold EmitLongPress
  simp only [Outside.FindClusterOnEndpoint, Outside.record]
  cases h : o.clusters e <;> simp [h, Outside.store]

/-- The cluster on the endpoint after `EmitShortRelease`. -/
theorem emitShortRelease_cluster (o : Outside) (e p : Nat) :
    (EmitShortRelease o e p).clusters e =
      (o.clusters e).map (fun c => (c.OnShortRelease p).2) := by
  unfold EmitShortRelease
  simp only [Outside.FindClusterOnEndpoint, Outside.record]
  cases h : o.clusters e <;> simp [h, Outside.store]

/-- The clusters after an expiry with exactly one timer armed are those the
drive step leaves. -/
theorem expireOn_clusters (sw : SinkWorld) (t : Nat) (h : sw.world.timers = [t]) :
    sw.expire.clusters =
      (NextOn { clusters := sw.clusters, actions := [] } sw.world.sim).1.clusters := by
  simp [SinkWorld.expire, h]

/-- The cluster on the simulator's endpoint after the three drive steps of an
accepted long-press run without the long-press feature and with the
short-release feature. -/
theorem long_press_cluster (clusters : Nat → Option SwitchServer.SwitchCluster)
    (s : ButtonEventsSimulator) (cb : Nat)
    (hne : s.mIdleButtonId ≠ s.mPressedButtonId) (hmode : s.mMode = .kModeLongPress)
    (h : s.mLongPressDurationMillis > s.mLongPressDelayMillis)
    (hMSR : hasFeature s.mFeatureMap Feature.kMomentarySwitchRelease = true)
    (hMSL : hasFeature s.mFeatureMap Feature.kMomentarySwitchLongPress = false) :
    ((launchOn clusters s cb).after 2).clusters s.mEndpointId =
      (clusters s.mEndpointId).map (fun c =>
        (((((c.SetCurrentPosition s.mPressedButtonId).2.OnInitialPress
          s.mPressedButtonId).2.OnLongPress s.mPressedButtonId).2
          |>.SetCurrentPosition s.mIdleButtonId).2.OnShortRelease s.mPressedButtonId).2) := by
  have hw0 : (launchOn clusters s cb).world = launch s cb := launchOn_world clusters s cb
  have hl := launch_long_press s cb hne hmode h
  have hc0 : (launchOn clusters s cb).clusters s.mEndpointId =
      (clusters s.mEndpointId).map (fun c =>
        ((c.SetCurrentPosition s.mPressedButtonId).2.OnInitialPress
          s.mPressedButtonId).2) := by
    simp only [launchOn, ExecuteOn, hne, hmode, h, if_true, if_false, NextOn, SetState,
      StartTimer, Outside.record]
    rw [emitInitialPress_cluster, setButtonPosition_cluster]
    rw [Option.map_map]
    rfl
  have ht0 : (launchOn clusters s cb).world.timers = [s.mLongPressDelayMillis] := by
    rw [hw0, hl]
  have hw1 : (launchOn clusters s cb).expire.world = (launch s cb).expire := by
    rw [expireOn_world, hw0]
  have hc1 : (launchOn clusters s cb).expire.clusters s.mEndpointId =
      ((launchOn clusters s cb).clusters s.mEndpointId).map
        (fun c => (c.OnLongPress s.mPressedButtonId).2) := by
    rw [expireOn_clusters _ _ ht0, hw0, hl]
    simp only [NextOn, SetState, StartTimer, Outside.record]
    rw [emitLongPress_cluster]
  have he1 : (launch s cb).expire =
      World.absorb { launch s cb with now := s.mLongPressDelayMillis, timers := [] }
        (Next (launch s cb).sim).1 (Next (launch s cb).sim).2 :=
    expire_single _ _ (by rw [hl])
  have ht1 : (launchOn clusters s cb).expire.world.timers =
      [s.mLongPressDelayMillis +
        u32 (s.mLongPressDurationMillis + 2 ^ 32 - s.mLongPressDelayMillis)] := by
    rw [hw1, he1, hl]
    simp [World.absorb, Next, armedTimers, SetState]
  have hs1 : (launchOn clusters s cb).expire.world.sim =
      { s with mDoneCallback := some cb, mState := .kEmitLongRelease } := by
    rw [hw1, he1, hl]
    simp [World.absorb, Next, SetState]
  have hc2 : (launchOn clusters s cb).expire.expire.clusters s.mEndpointId =
      ((launchOn clusters s cb).expire.clusters s.mEndpointId).map
        (fun c => ((c.SetCurrentPosition s.mIdleButtonId).2.OnShortRelease
          s.mPressedButtonId).2) := by
    rw [expireOn_clusters _ _ ht1, hs1]
    simp only [NextOn, SetState, Outside.record, hMSL, hMSR, if_true, Bool.false_eq_true,
      if_false]
    rw [emitShortRelease_cluster, setButtonPosition_cluster]
    rw [Option.map_map]
    rfl
  show (launchOn clusters s cb).expire.expire.clusters s.mEndpointId = _
  rw [hc2, hc1, hc0, Option.map_map, Option.map_map]
  rfl

/-- A run that comes to rest within `k` expiries is in its final world after
`k` expiries. -/
theorem after_of_drive (k : Nat) : ∀ w w2 : World, drive k w = some w2 → w.after k = w2 := by
  induction k with
  | zero =>
    intro w w2 h
    by_cases ht : w.timers = []
    · rw [drive_of_no_timers _ _ ht] at h
      exact Option.some.inj h
    · rw [drive_zero_of_armed w ht] at h
      cases h
  | succ k ih =>
    intro w w2 h
    by_cases ht : w.timers = []
    · rw [drive_of_no_timers _ _ ht] at h
      rw [after_of_rest w ht]
      exact Option.some.inj h
    · rw [drive_succ_of_armed _ _ ht] at h
      rw [after_succ_expire]
      exact ih _ _ h

/-- C29: the sequencer on a started Switch cluster that has its feature map
and for which the pressed and the idle position are valid. In a valid
long-press run whose feature map has the momentary-switch and short-release
features but not the long-press feature, the cluster hands exactly two events
to its events generator, `InitialPress(pressed)` then `ShortRelease(pressed)`;
the `LongPress` the sequencer attempts is answered with nothing; and when the
run is over, the callback being its last action, the current position of the
cluster is the idle position. -/
theorem long_press_on_release_only_cluster
    (clusters : Nat → Option SwitchServer.SwitchCluster) (s : ButtonEventsSimulator)
    (cb : Nat) (c : SwitchServer.SwitchCluster) (g : SwitchServer.EventsGenerator)
    (hv : Valid s) (hmode : s.mMode = .kModeLongPress)
    (hreg : clusters s.mEndpointId = some c) (hstarted : c.mContext = some g)
    (hfeat : c.mFeatures = s.mFeatureMap)
    (hMS : hasFeature s.mFeatureMap Feature.kMomentarySwitch = true)
    (hMSR : hasFeature s.mFeatureMap Feature.kMomentarySwitchRelease = true)
    (hMSL : hasFeature s.mFeatureMap Feature.kMomentarySwitchLongPress = false)
    (hp : s.mPressedButtonId < c.mNumberOfPositions)
    (hi : s.mIdleButtonId < c.mNumberOfPositions) :
    ∃ c2 g2, ((launchOn clusters s cb).after 2).clusters s.mEndpointId = some c2 ∧
      c2.mContext = some g2 ∧
      g2.submitted = g.submitted ++
        [(.InitialPress s.mPressedButtonId, c.mEndpointId),
         (.ShortRelease s.mPressedButtonId, c.mEndpointId)] ∧
      c2.mCurrentPosition = s.mIdleButtonId ∧
      (((c.SetCurrentPosition s.mPressedButtonId).2.OnInitialPress
        s.mPressedButtonId).2.OnLongPress s.mPressedButtonId).1 = none ∧
      Action.EmitLongPress s.mEndpointId s.mPressedButtonId ∈
        ((launchOn clusters s cb).after 2).world.actions ∧
      ((launchOn clusters s cb).after 2).world.sim.mState = .kIdle ∧
      ((launchOn clusters s cb).after 2).world.timers = [] ∧
      ((launchOn clusters s cb).after 2).world.actions.getLast? =
        some (.DoneCallback (some cb)) := by
  obtain ⟨hne, hm⟩ := hv
  simp only [hmode] at hm
  have hcalls := SwitchServer.long_press_calls c g s.mPressedButtonId s.mIdleButtonId hstarted
    (by rw [hfeat]; exact hMS) (by rw [hfeat]; exact hMSR) (by rw [hfeat]; exact hMSL) hp hi
  have hcl := long_press_cluster clusters s cb hne hmode hm hMSR hMSL
  rw [hreg, Option.map_some', hcalls.1] at hcl
  have hworld : ((launchOn clusters s cb).after 2).world = _ :=
    (afterOn_world _ 2).trans
      ((congrArg (fun w => World.after w 2) (launchOn_world clusters s cb)).trans
        (after_of_drive 2 _ _ (run_long_press s cb 0 hne hmode hm)))
  refine ⟨_, _, hcl, rfl, rfl, rfl, hcalls.2, ?_, ?_, ?_, ?_⟩
  · rw [hworld]
    simp [World.actions]
  · rw [hworld]
  · rw [hworld]
  · rw [hworld]
    simp only [World.actions, List.map_append, List.map_cons, List.map_nil]
    exact List.getLast?_concat _

/-- Witness of C29: the long-press sample with feature map 0x6 on the sample
cluster of endpoint 1. -/
theorem long_press_on_release_only_cluster_witness :
    ∃ c2 g2, ((launchOn sampleRegistry (sampleLongPress 0x6) 7).after 2).clusters 1 = some c2 ∧
      c2.mContext = some g2 ∧
      g2.submitted = [(.InitialPress 1, 1), (.ShortRelease 1, 1)] ∧
      c2.mCurrentPosition = 0 := by
  obtain ⟨c2, g2, h1, h2, h3, h4, _⟩ :=
    long_press_on_release_only_cluster sampleRegistry (sampleLongPress 0x6) 7
      { SwitchServer.sampleCluster 0x6 4 2 with mEndpointId := 1 }
      SwitchServer.countingGenerator (by decide) rfl rfl rfl rfl (by decide) (by decide)
      (by decide) (by decide) (by decide)
  exact ⟨c2, g2, h1, h2, h3, h4⟩

end ButtonSim

/-! ## The `--endpoint` option -/

namespace AppOpts

/-- Setting the endpoint of the last entry leaves the entries in front of it
and the type of the last entry. -/
theorem setBackEndpoint_append (init : List DeviceConfig) (last : DeviceConfig) (e : Nat) :
    setBackEndpoint (init ++ [last]) e = init ++ [{ type := last.type, endpoint := e }] := by
  induction init with
  | nil => rfl
  | cons d ds ih =>
    cases ds with
    | nil => rfl
    | cons d2 ds2 =>
      simp only [List.cons_append] at ih ⊢
      rw [setBackEndpoint, ih]
      simp

/-- C24: handling `--endpoint` with a value that `ParseEndpointId` reads as
the endpoint `e`. When devices are configured it sets the endpoint of the
last one to `e` and leaves its type, the entries in front of it, the number
of entries and the WiFi flag as they are; when none is configured it appends
the single entry ("contact-sensor", `e`). With a value that is not an
endpoint id, or a null value, it returns false and changes nothing. -/
theorem endpoint_option (o : AppOptions) (v : List Char) (e : Nat) :
    (ParseEndpointId v 0 = (true, e) →
      ∀ init last, o.mDeviceConfigs = init ++ [last] →
        AllDevicesAppOptionHandler o kOptionEndpoint (some v) =
          (true, { mDeviceConfigs := init ++ [{ type := last.type, endpoint := e }]
                   mEnableWiFi := o.mEnableWiFi })) ∧
    (ParseEndpointId v 0 = (true, e) → o.mDeviceConfigs = [] →
      AllDevicesAppOptionHandler o kOptionEndpoint (some v) =
        (true, { mDeviceConfigs := [{ type := "contact-sensor".toList, endpoint := e }]
                 mEnableWiFi := o.mEnableWiFi })) ∧
    ((ParseEndpointId v 0).1 = false →
      AllDevicesAppOptionHandler o kOptionEndpoint (some v) = (false, o)) ∧
    AllDevicesAppOptionHandler o kOptionEndpoint none = (false, o) := by
  have hid : ¬ (kOptionEndpoint = kOptionDeviceType) := by decide
  refine ⟨?_, ?_, ?_, ?_⟩
  · intro hparse init last hcfg
    have hne : o.mDeviceConfigs.isEmpty = false := by
      rw [hcfg]
      cases init <;> rfl
    simp only [AllDevicesAppOptionHandler, hid, if_false, if_true, hparse, hne,
      not_true_eq_false, Bool.false_eq_true]
    rw [hcfg, setBackEndpoint_append]
  · intro hparse hcfg
    simp [AllDevicesAppOptionHandler, hid, hparse, hcfg]
  · intro hparse
    simp [AllDevicesAppOptionHandler, hid, hparse]
  · simp [AllDevicesAppOptionHandler, hid]

/-- Witness of C24: with "chime" on 1 and "speaker" on 2 configured,
`--endpoint 7` moves the speaker to endpoint 7. -/
theorem endpoint_option_witness :
    AllDevicesAppOptionHandler
        { mDeviceConfigs := [{ type := "chime".toList, endpoint := 1 },
            { type := "speaker".toList, endpoint := 2 }]
          mEnableWiFi := false }
        kOptionEndpoint (some ("7".toList)) =
      (true, { mDeviceConfigs := [{ type := "chime".toList, endpoint := 1 },
                 { type := "speaker".toList, endpoint := 7 }]
               mEnableWiFi := false }) :=
  (endpoint_option
      { mDeviceConfigs := [{ type := "chime".toList, endpoint := 1 },
          { type := "speaker".toList, endpoint := 2 }]
        mEnableWiFi := false }
      ("7".toList) 7).1 (parseEndpointId_decimal 7 0 (by decide))
    [{ type := "chime".toList, endpoint := 1 }] { type := "speaker".toList, endpoint := 2 } rfl

end AppOpts

/-! ## What `ParseEndpointId` accepts -/

namespace AppOpts

/-- A list whose head fails a test, behind a list that passes it throughout,
is where `takeWhile` and `dropWhile` part. -/
theorem takeWhile_dropWhile_parts (p : Char → Bool) (l1 l2 : List Char)
    (h1 : ∀ c ∈ l1, p c = true) (h2 : ∀ c, l2.head? = some c → p c = false) :
    (l1 ++ l2).takeWhile p = l1 ∧ (l1 ++ l2).dropWhile p = l2 := by
  induction l1 with
  | nil =>
    cases l2 with
    | nil => simp
    | cons c cs =>
      have hc := h2 c rfl
      simp [List.takeWhile_cons, List.dropWhile_cons, hc]
  | cons c cs ih =>
    have hc := h1 c (List.mem_cons_self c cs)
    have ih2 := ih (fun x hx => h1 x (List.mem_cons_of_mem c hx))
    simp [List.takeWhile_cons, List.dropWhile_cons, hc, ih2.1, ih2.2]

/-- The result of `strtol` on white space, a sign or none, and a non-empty
run of digits, with nothing after it. -/
theorem strtol_parts (blanks sign digits : List Char)
    (hb : ∀ c ∈ blanks, isspace c = true)
    (hs : sign = [] ∨ sign = ['+'] ∨ sign = ['-'])
    (hne : digits ≠ []) (hd : ∀ c ∈ digits, isdigit c = true) :
    strtol (blanks ++ sign ++ digits) =
      ((if sign = ['-'] then max (-(digitsValue digits : Int)) LONG_MIN
        else min (digitsValue digits : Int) LONG_MAX),
       blanks.length + sign.length + digits.length) := by
  obtain ⟨d, ds, rfl⟩ := List.exists_cons_of_ne_nil hne
  have hdd := isdigit_not_blank d (hd d (List.mem_cons_self d ds))
  have hdig : isdigit d = true := hd d (List.mem_cons_self d ds)
  have htake : (d :: ds).takeWhile isdigit = d :: ds :=
    List.takeWhile_eq_self_iff.mpr (fun x hx => hd x hx)
  have hhead : ∀ c, (sign ++ d :: ds).head? = some c → isspace c = false := by
    intro c hc
    rcases hs with rfl | rfl | rfl
    · simp only [List.nil_append, List.head?_cons, Option.some.injEq] at hc
      rw [← hc]
      exact hdd.1
    · simp only [List.singleton_append, List.head?_cons, Option.some.injEq] at hc
      rw [← hc]
      decide
    · simp only [List.singleton_append, List.head?_cons, Option.some.injEq] at hc
      rw [← hc]
      decide
  obtain ⟨htw, hdw⟩ := takeWhile_dropWhile_parts isspace blanks (sign ++ d :: ds) hb hhead
  rw [List.append_assoc]
  unfold strtol
  simp only [htw, hdw]
  rcases hs with rfl | rfl | rfl
  · simp only [List.nil_append, List.head?_cons, Option.some.injEq, hdd.2.1, hdd.2.2,
      or_self, if_false, List.drop_zero, htake, List.length_nil, Nat.add_zero,
      decide_False, Bool.false_eq_true]
    simp
  · simp only [List.singleton_append, List.head?_cons, Option.some.injEq, or_true, if_true,
      List.drop_succ_cons, List.drop_zero, htake, List.length_singleton]
    simp
  · simp only [List.singleton_append, List.head?_cons, Option.some.injEq, true_or, if_true,
      List.drop_succ_cons, List.drop_zero, htake, List.length_singleton]
    simp

/-- `ParseEndpointId` accepts every text that reads as an endpoint id. -/
theorem parse_of_endpointText (r : List Char) (endpoint : Nat) (h : EndpointText r) :
    (ParseEndpointId r endpoint).1 = true := by
  obtain ⟨blanks, sign, digits, rfl, hb, hs, hne, hd, hle, hminus⟩ := h
  have hlen : digits.length ≠ 0 := fun h0 => hne (List.length_eq_zero.mp h0)
  have hdrop : (blanks ++ sign ++ digits).drop
      (blanks.length + sign.length + digits.length) = [] := by
    apply List.drop_eq_nil_of_le
    simp only [List.length_append]
    omega
  have hval : (0 : Int) ≤ (if sign = ['-'] then max (-(digitsValue digits : Int)) LONG_MIN
        else min (digitsValue digits : Int) LONG_MAX) ∧
      (if sign = ['-'] then max (-(digitsValue digits : Int)) LONG_MIN
        else min (digitsValue digits : Int) LONG_MAX) ≤ 65535 := by
    by_cases hm : sign = ['-']
    · rw [if_pos hm, hminus hm]
      simp [LONG_MIN]
    · rw [if_neg hm]
      simp only [LONG_MAX]
      omega
  simp only [ParseEndpointId, strtol_parts blanks sign digits hb hs hne hd]
  rw [if_neg]
  rintro (h | h | h | h)
  · omega
  · exact h hdrop
  · omega
  · omega

/-- The sign `strtol` takes off the front of a text. -/
theorem sign_split (rest : List Char) :
    ∃ sign tail, rest = sign ++ tail ∧ (sign = [] ∨ sign = ['+'] ∨ sign = ['-']) ∧
      (if rest.head? = some '-' ∨ rest.head? = some '+' then 1 else 0) = sign.length ∧
      (rest.head? = some '-' ↔ sign = ['-']) := by
  cases rest with
  | nil => exact ⟨[], [], rfl, Or.inl rfl, by simp, by simp⟩
  | cons c cs =>
    by_cases h1 : c = '-'
    · subst h1
      exact ⟨['-'], cs, rfl, Or.inr (Or.inr rfl), by simp, by simp⟩
    · by_cases h2 : c = '+'
      · subst h2
        exact ⟨['+'], cs, rfl, Or.inr (Or.inl rfl), by simp, by simp⟩
      · exact ⟨[], c :: cs, rfl, Or.inl rfl, by simp [h1, h2], by simp [h1]⟩

/-- Every text `ParseEndpointId` accepts reads as an endpoint id. -/
theorem endpointText_of_parse (r : List Char) (endpoint : Nat)
    (h : (ParseEndpointId r endpoint).1 = true) : EndpointText r := by
  have hr : r.takeWhile isspace ++ r.dropWhile isspace = r := List.takeWhile_append_dropWhile _ _
  have hb : ∀ c ∈ r.takeWhile isspace, isspace c = true :=
    fun c hc => List.mem_takeWhile_imp hc
  obtain ⟨sign, tail, hrest, hs, hsl, hneg⟩ := sign_split (r.dropWhile isspace)
  have hd : ∀ c ∈ tail.takeWhile isdigit, isdigit c = true :=
    fun c hc => List.mem_takeWhile_imp hc
  have htail : tail.takeWhile isdigit ++ tail.dropWhile isdigit = tail :=
    List.takeWhile_append_dropWhile _ _
  have hdroptail : (r.dropWhile isspace).drop sign.length = tail := by
    rw [hrest]
    exact List.drop_left' rfl
  unfold ParseEndpointId strtol at h
  simp only [hsl, hdroptail] at h
  by_cases hz : tail.takeWhile isdigit = []
  · simp [hz] at h
  · simp only [hz, if_false] at h
    by_cases hcond : (r.takeWhile isspace).length + sign.length +
          (tail.takeWhile isdigit).length = 0 ∨
        List.drop ((r.takeWhile isspace).length + sign.length +
          (tail.takeWhile isdigit).length) r ≠ [] ∨
        (if decide ((r.dropWhile isspace).head? = some '-') = true then
            max (-(digitsValue (tail.takeWhile isdigit) : Int)) LONG_MIN
          else min (digitsValue (tail.takeWhile isdigit) : Int) LONG_MAX) < 0 ∨
        (if decide ((r.dropWhile isspace).head? = some '-') = true then
            max (-(digitsValue (tail.takeWhile isdigit) : Int)) LONG_MIN
          else min (digitsValue (tail.takeWhile isdigit) : Int) LONG_MAX) > 65535
    · rw [if_pos hcond] at h
      cases h
    · simp only [not_or, not_lt, not_le, ne_eq, not_not, gt_iff_lt] at hcond
      obtain ⟨_, hdrop, hge, hle⟩ := hcond
      have hwhole : r = (r.takeWhile isspace ++ sign ++ tail.takeWhile isdigit) ++
          tail.dropWhile isdigit := by
        rw [List.append_assoc, List.append_assoc, htail, ← hrest, hr]
      have hrest0 : tail.dropWhile isdigit = [] := by
        have key : ∀ n, (r.takeWhile isspace ++ sign ++ tail.takeWhile isdigit).length = n →
            List.drop n r = [] → tail.dropWhile isdigit = [] := by
          intro n hn hdr
          rw [hwhole, List.drop_left' hn] at hdr
          exact hdr
        exact key _ (by simp only [List.length_append]) hdrop
      refine ⟨r.takeWhile isspace, sign, tail.takeWhile isdigit, ?_, hb, hs, hz, hd, ?_, ?_⟩
      · rw [hrest0, List.append_nil] at hwhole
        exact hwhole
      · by_cases hm : (r.dropWhile isspace).head? = some '-'
        · simp only [hm, decide_True, if_true] at hge
          have : (digitsValue (tail.takeWhile isdigit) : Int) ≤ 0 := by
            rcases le_max_iff.mp hge with h0 | h0
            · omega
            · simp [LONG_MIN] at h0
          omega
        · simp only [hm, decide_False, Bool.false_eq_true, if_false] at hle
          rcases min_le_iff.mp hle with h0 | h0
          · omega
          · simp [LONG_MAX] at h0
      · intro hsm
        have hm : (r.dropWhile isspace).head? = some '-' := hneg.mpr hsm
        simp only [hm, decide_True, if_true] at hge
        rcases le_max_iff.mp hge with h0 | h0
        · omega
        · simp [LONG_MIN] at h0

/-- `ParseEndpointId` accepts exactly the texts that read as an endpoint id. -/
theorem parse_iff_endpointText (r : List Char) (endpoint : Nat) :
    (ParseEndpointId r endpoint).1 = true ↔ EndpointText r :=
  ⟨endpointText_of_parse r endpoint, parse_of_endpointText r endpoint⟩

/-- A text with a colon splits at its first colon. -/
theorem first_colon_split (v : List Char) (h : ':' ∈ v) :
    ∃ t r, v = t ++ ':' :: r ∧ ':' ∉ t := by
  induction v with
  | nil => cases h
  | cons c cs ih =>
    by_cases hc : c = ':'
    · subst hc
      exact ⟨[], cs, rfl, by simp⟩
    · have hcs : ':' ∈ cs := by
        rcases List.mem_cons.mp h with h1 | h1
        · exact absurd h1.symm hc
        · exact h1
      obtain ⟨t, r, hv, ht⟩ := ih hcs
      refine ⟨c :: t, r, by rw [hv]; rfl, ?_⟩
      intro hmem
      rcases List.mem_cons.mp hmem with h1 | h1
      · exact hc h1.symm
      · exact ht h1

/-- Whether `ParseDeviceConfig` succeeds does not depend on the configuration
passed in. -/
theorem parseDeviceConfig_result (value : Option (List Char)) (config : DeviceConfig) :
    (ParseDeviceConfig value config).1 =
      (ParseDeviceConfig value { type := [], endpoint := 0 }).1 := by
  cases value with
  | none => rfl
  | some v => simp only [ParseDeviceConfig]

/-- On a text with a colon `ParseDeviceConfig` succeeds exactly when
`ParseEndpointId` accepts what follows the first colon. -/
theorem parseDeviceConfig_colon (t r : List Char) (config : DeviceConfig) (h : ':' ∉ t) :
    (ParseDeviceConfig (some (t ++ ':' :: r)) config).1 = (ParseEndpointId r 1).1 := by
  simp only [ParseDeviceConfig, strchr_first t r h]
  have hdrop : (t ++ ':' :: r).drop (t.length + 1) = r := by
    rw [show t ++ ':' :: r = (t ++ [':']) ++ r by simp]
    exact List.drop_left' (by simp)
  rw [hdrop]
  cases (ParseEndpointId r 1).1 <;> rfl

/-- C21, counterexample: "speaker: 2" and "speaker:+2" are accepted, with
endpoint 2, although what follows the colon, " 2" or "+2", is not a run of
decimal digits. -/
theorem parseDeviceConfig_sign_counterexample :
    ParseDeviceConfig (some ("speaker: 2".toList)) { type := [], endpoint := 0 } =
      (true, { type := "speaker".toList, endpoint := 2 }) ∧
    ParseDeviceConfig (some ("speaker:+2".toList)) { type := [], endpoint := 0 } =
      (true, { type := "speaker".toList, endpoint := 2 }) ∧
    ¬ (∀ c ∈ " 2".toList, isdigit c = true) ∧
    ¬ (∀ c ∈ "+2".toList, isdigit c = true) := by
  refine ⟨by decide, by decide, by decide, by decide⟩

/-- C21, amended: `ParseDeviceConfig` returns false exactly when the value is
null, or it contains a colon and the text after the first colon does not read
as an endpoint id, where a text reads as an endpoint id when it is optional
white space, an optional sign `+` or `-`, and a non-empty run of decimal
digits with nothing after it, whose value lies in 0..65535 (0 after a minus
sign). "speaker:", "speaker:abc", "speaker:2x", "speaker:-1", "speaker:65536"
and "a:b:3" are all rejected. -/
theorem parseDeviceConfig_fails_iff (value : Option (List Char)) (config : DeviceConfig) :
    ((ParseDeviceConfig value config).1 = false ↔
      value = none ∨
        ∃ t r, value = some (t ++ ':' :: r) ∧ ':' ∉ t ∧ ¬ EndpointText r) ∧
    (ParseDeviceConfig (some ("speaker:".toList)) config).1 = false ∧
    (ParseDeviceConfig (some ("speaker:abc".toList)) config).1 = false ∧
    (ParseDeviceConfig (some ("speaker:2x".toList)) config).1 = false ∧
    (ParseDeviceConfig (some ("speaker:-1".toList)) config).1 = false ∧
    (ParseDeviceConfig (some ("speaker:65536".toList)) config).1 = false ∧
    (ParseDeviceConfig (some ("a:b:3".toList)) config).1 = false := by
  refine ⟨⟨?_, ?_⟩, ?_, ?_, ?_, ?_, ?_, ?_⟩
  · intro hfail
    cases value with
    | none => exact Or.inl rfl
    | some v =>
      right
      by_cases hc : ':' ∈ v
      · obtain ⟨t, r, hv, ht⟩ := first_colon_split v hc
        refine ⟨t, r, by rw [hv], ht, ?_⟩
        intro htext
        rw [hv, parseDeviceConfig_colon t r config ht,
          parse_of_endpointText r 1 htext] at hfail
        cases hfail
      · simp [ParseDeviceConfig, strchr_absent v hc] at hfail
  · rintro (rfl | ⟨t, r, rfl, ht, htext⟩)
    · rfl
    · rw [parseDeviceConfig_colon t r config ht]
      cases hp : (ParseEndpointId r 1).1
      · rfl
      · exact absurd (endpointText_of_parse r 1 hp) htext
  all_goals
    rw [parseDeviceConfig_result]
    decide

/-- Witness of C21 (amended): "speaker:2x" is rejected because "2x" does not
read as an endpoint id. -/
theorem parseDeviceConfig_fails_iff_witness :
    (ParseDeviceConfig (some ("speaker:2x".toList)) { type := [], endpoint := 0 }).1 = false ∧
    (ParseDeviceConfig none { type := [], endpoint := 0 }).1 = false :=
  ⟨(parseDeviceConfig_fails_iff none { type := [], endpoint := 0 }).2.2.2.1,
   (parseDeviceConfig_fails_iff none { type := [], endpoint := 0 }).1.2 (Or.inl rfl)⟩

end AppOpts

/-!
## The multi-press count of the QPG light-switch app
-/

namespace QpgSwitch

/-- A further press, made with nothing scheduled and the cluster present,
leaves nothing scheduled and the cluster present, and adds one to the counter
as a byte. -/
theorem ongoingPress_ready (m : SwitchManager) (hs : m.scheduled = [])
    (hc : m.cluster.isSome = true) :
    (ongoingPress m).scheduled = [] ∧ (ongoingPress m).cluster.isSome = true ∧
      (ongoingPress m).multiPressCount = ButtonSim.u8 (m.multiPressCount + 1) := by
  obtain ⟨c, hc'⟩ := Option.isSome_iff_exists.mp hc
  simp [ongoingPress, runScheduled, GenericSwitchMultipressOngoingHandler, runLambda, hs, hc']

/-- Any number of further presses from the sample manager leaves nothing
scheduled and the cluster present. -/
theorem afterPresses_ready (k : Nat) :
    (afterPresses sampleManager k).scheduled = [] ∧
      (afterPresses sampleManager k).cluster.isSome = true := by
  induction k with
  | zero => exact ⟨rfl, rfl⟩
  | succ k ih =>
      obtain ⟨h1, h2, _⟩ := ongoingPress_ready _ ih.1 ih.2
      exact ⟨h1, h2⟩

/-- The end of a sequence, made with nothing scheduled and the cluster
present, passes the count 1 to `OnMultiPressComplete`. -/
theorem completeSequence_calls (m : SwitchManager) (hs : m.scheduled = [])
    (hc : m.cluster.isSome = true) :
    (completeSequence m).calls = m.calls ++ [ClusterCall.OnMultiPressComplete 0 1] ∧
      (completeSequence m).multiPressCount = 1 := by
  obtain ⟨c, hc'⟩ := Option.isSome_iff_exists.mp hc
  simp [completeSequence, runScheduled, GenericSwitchMultipressCompleteHandler, runLambda, hs,
    hc']

/-- C25, as the code behaves: from the manager at start-up, whatever the
number `k` of calls of `GenericSwitchMultipressOngoingHandler` before the call
of `GenericSwitchMultipressCompleteHandler`, each lambda running after its
handler has returned, the last call on the cluster is `OnMultiPressComplete`
with the count 1, not `k + 1`, and the counter is back at 1. For `k = 2` the
calls are `OnMultiPressOngoing(1, 2)`, `OnMultiPressOngoing(1, 3)` and
`OnMultiPressComplete(0, 1)`. -/
theorem multipress_complete_passes_one :
    (∀ k : Nat,
      (pressSequence sampleManager k).calls.getLast? =
          some (ClusterCall.OnMultiPressComplete 0 1) ∧
        (pressSequence sampleManager k).multiPressCount = 1) ∧
    (pressSequence sampleManager 2).calls =
      [ClusterCall.OnMultiPressOngoing 1 2, ClusterCall.OnMultiPressOngoing 1 3,
        ClusterCall.OnMultiPressComplete 0 1] := by
  refine ⟨fun k => ?_, by decide⟩
  obtain ⟨hs, hc⟩ := afterPresses_ready k
  obtain ⟨h1, h2⟩ := completeSequence_calls _ hs hc
  refine ⟨?_, h2⟩
  show (completeSequence (afterPresses sampleManager k)).calls.getLast? = _
  rw [h1]
  exact List.getLast?_concat _

end QpgSwitch

/-!
## The scan filter of the Tizen scanner after a failed start
-/

namespace TizenBle

/-- C30, as the code behaves: on a scanner that has never scanned, when the
stack supports scan filters, creates filter 1 and accepts its data and its
registration, and `bt_adapter_le_start_scan` then fails, `StartScan` returns
the error of the start with the scanner not scanning and the filter still
held and not destroyed, whatever the filter type and the error code; with a
service-data filter it is still registered as well. -/
theorem start_scan_failure_keeps_filter :
    (∀ (filterType : ScanFilterType) (code : Int),
      (StartScan idleScanner filterType (startFails code)).1 =
          ChipError.MATTER_PLATFORM_ERROR (BtResult.other code) ∧
        (StartScan idleScanner filterType (startFails code)).2.mIsScanning = false ∧
        (StartScan idleScanner filterType (startFails code)).2.mScanFilter = some 1 ∧
        (StartScan idleScanner filterType (startFails code)).2.liveFilters = [1]) ∧
    (StartScan idleScanner ScanFilterType.kServiceData (startFails (-1))).2.registeredFilters =
      [1] := by
  refine ⟨fun filterType code => ?_, by decide⟩
  cases filterType <;> exact ⟨rfl, rfl, rfl, rfl⟩

end TizenBle
